import Mathlib

/-!
# Kaa C client: transport channel manager

A shallow embedding of `client/client-multi/client-c/src/kaa_channel_manager.c`
and of the socket read of
`client/client-multi/client-c/src/kaa/platform-impl/esp8266/esp8266_tcp_utils.c`.

Conventions of the embedding

* Pointers are addresses (`Nat`), `0` being `NULL`.  The manager itself, the
  descriptor handed to `add` and the writer are values, so the `BADPARAM`
  guards on those pointers are excluded by the types.
* `uint16_t` and `uint32_t` stores are written with an explicit `% 2 ^ 16`
  and `% 2 ^ 32`.
* The registry list (`kaa_list_t *`) is a Lean `List`, head first; `NULL` is `[]`.
* Calls through the function pointers of a descriptor are looked up in a
  `kaa_environment_t`, which says what the code at an address answers for a
  given context.
* Heap allocation can fail: every allocating function receives the outcome
  of its allocations as `Bool` arguments.
-/

namespace Kaa

/-! ## Types that the translation unit takes from headers -/

/-- Modelled from the spec: `kaa_error_t` is declared in a header that is not
among the sources.  The error kinds are the ones the spec lists for the
registry (`BadParam`, `NoMemory`, `AlreadyExists`, `NotFound`), the success
code, the failure of a writer call, and one more kind standing for an error
passed through from a descriptor call. -/
inductive kaa_error_t
  | KAA_ERR_NONE
  | KAA_ERR_NOMEM
  | KAA_ERR_BADPARAM
  | KAA_ERR_BADDATA
  | KAA_ERR_WRITE_FAILED
  | KAA_ERR_NOT_FOUND
  | KAA_ERR_ALREADY_EXISTS
  deriving DecidableEq, Repr

open kaa_error_t

/-- The protocol identity a channel reports: `id` is a `uint32_t`, `version` a `uint16_t`. -/
structure kaa_transport_protocol_id_t where
  id : Nat
  version : Nat
  deriving DecidableEq, Repr

/-- The capability descriptor of a transport channel.  Every field is the
address held in the C struct: the context handle and the four function
pointers. -/
structure kaa_transport_channel_interface_t where
  context : Nat
  get_protocol_id : Nat
  get_supported_services : Nat
  sync_handler : Nat
  release_context : Nat
  deriving DecidableEq, Repr

/-- Everything the translation unit takes from outside: two constants of the
platform headers and the behaviour of the code behind descriptor function
pointers.  `call_get_protocol_id fn ctx` is the error code and the
`protocol_info` stored by `fn(ctx, &protocol_info)`;
`call_get_supported_services fn ctx` is the error code and the array stored
through `&services` and `&service_count` (`none` is a `NULL` array, the length
of the list is `service_count`). -/
structure kaa_environment_t where
  KAA_EXTENSION_HEADER_SIZE : Nat
  KAA_BOOTSTRAP_EXTENSION_TYPE : Nat
  call_get_protocol_id : Nat → Nat → kaa_error_t × kaa_transport_protocol_id_t
  call_get_supported_services : Nat → Nat → kaa_error_t × Option (List Nat)

/-! ## Types of the translation unit -/

/-- The bootstrap sync cache, `kaa_sync_info_t`. -/
structure kaa_sync_info_t where
  is_up_to_date : Bool
  request_id : Nat
  payload_size : Nat
  channel_count : Nat
  deriving DecidableEq, Repr

/-- A registry entry, `kaa_transport_channel_wrapper_t`. -/
structure kaa_transport_channel_wrapper_t where
  channel_id : Nat
  channel : kaa_transport_channel_interface_t
  deriving DecidableEq, Repr

/-- The registry, `struct kaa_channel_manager_t` (the logger is left out: log
calls change no state). -/
structure kaa_channel_manager_t where
  transport_channels : List kaa_transport_channel_wrapper_t
  sync_info : kaa_sync_info_t
  deriving DecidableEq, Repr

/-- One invocation `release_context(context)` of a release hook. -/
structure kaa_release_call_t where
  release_context : Nat
  context : Nat
  deriving DecidableEq, Repr

/-! ## The list utility (`collections/kaa_list.h`) -/

/-- Modelled from the spec: `kaa_list_get_size` of the generic ordered
container, which is not among the sources: the number of entries. -/
def kaa_list_get_size {α : Type} (list : List α) : Nat :=
  list.length

/-- Modelled from the spec: `kaa_list_find_next`, not among the sources: the
first entry, in list order, that the matcher accepts (`none` for `NULL`). -/
def kaa_list_find_next {α β : Type} (list : List α) (pred : α → β → Bool) (context : β) :
    Option α :=
  list.find? (fun data => pred data context)

/-- Modelled from the spec: `kaa_list_push_front`, not among the sources:
insertion at the front; `NULL` when the node cannot be allocated. -/
def kaa_list_push_front {α : Type} (alloc_ok : Bool) (list : List α) (data : α) :
    Option (List α) :=
  if alloc_ok then some (data :: list) else none

/-- Modelled from the spec: `kaa_list_create`, not among the sources: a list
of one entry; `NULL` when the node cannot be allocated. -/
def kaa_list_create {α : Type} (alloc_ok : Bool) (data : α) : Option (List α) :=
  if alloc_ok then some [data] else none

/-- Modelled from the spec: `kaa_list_remove_first`, not among the sources:
searches for the first entry the matcher accepts in current order; if found,
hands it to the deallocator and unlinks it; fails with `NotFound` otherwise.
The third component collects what the deallocator did. -/
def kaa_list_remove_first {α β ε : Type} (list : List α) (pred : α → β → Bool) (context : β)
    (deallocator : α → List ε) : kaa_error_t × List α × List ε :=
  match list with
  | [] => (KAA_ERR_NOT_FOUND, [], [])
  | data :: rest =>
    if pred data context then (KAA_ERR_NONE, rest, deallocator data)
    else
      let r := kaa_list_remove_first rest pred context deallocator
      (r.1, data :: r.2.1, r.2.2)

/-! ## The message writer (`kaa_platform_utils.h`) -/

/-- One unit of writer output: an extension header (kept symbolic, its byte
layout is implementation-defined) or one byte. -/
inductive kaa_written_t
  | extension_header (extension_type options payload_size : Nat)
  | byte (value : Nat)
  deriving DecidableEq, Repr

/-- Modelled from the spec: `kaa_platform_message_writer_t`, not among the
sources: the caller-supplied buffer.  `written` is what the buffer holds so
far, `room` the number of bytes left before its end. -/
structure kaa_platform_message_writer_t where
  written : List kaa_written_t
  room : Nat
  deriving DecidableEq, Repr

/-- Modelled from the spec: `kaa_platform_message_write`, not among the
sources: appends the bytes when they fit, otherwise fails and writes nothing. -/
def kaa_platform_message_write (writer : kaa_platform_message_writer_t) (data : List Nat) :
    kaa_error_t × kaa_platform_message_writer_t :=
  if data.length ≤ writer.room then
    (KAA_ERR_NONE,
      { written := writer.written ++ data.map kaa_written_t.byte,
        room := writer.room - data.length })
  else (KAA_ERR_WRITE_FAILED, writer)

/-- Modelled from the spec: `kaa_platform_message_write_extension_header`, not
among the sources: appends one extension header of the fixed header size
(tag, flags, length) when it fits, otherwise fails and writes nothing. -/
def kaa_platform_message_write_extension_header (env : kaa_environment_t)
    (writer : kaa_platform_message_writer_t) (extension_type options payload_size : Nat) :
    kaa_error_t × kaa_platform_message_writer_t :=
  if env.KAA_EXTENSION_HEADER_SIZE ≤ writer.room then
    (KAA_ERR_NONE,
      { written := writer.written ++
          [kaa_written_t.extension_header extension_type options payload_size],
        room := writer.room - env.KAA_EXTENSION_HEADER_SIZE })
  else (KAA_ERR_WRITE_FAILED, writer)

/-- Modelled from the spec: `KAA_HTONS`, a macro that is not among the
sources: the two bytes, in memory order, of a `uint16_t` in network byte
order (big-endian). -/
def KAA_HTONS (x : Nat) : List Nat :=
  [x / 2 ^ 8 % 256, x % 256]

/-- Modelled from the spec: `KAA_HTONL`, a macro that is not among the
sources: the four bytes, in memory order, of a `uint32_t` in network byte
order (big-endian). -/
def KAA_HTONL (x : Nat) : List Nat :=
  [x / 2 ^ 24 % 256, x / 2 ^ 16 % 256, x / 2 ^ 8 % 256, x % 256]

/-! ## `kaa_channel_manager.c` -/

/-- The deallocator `destroy_channel`: calls the release hook on the context
when the hook is set, then frees the wrapper. -/
def destroy_channel (data : kaa_transport_channel_wrapper_t) : List kaa_release_call_t :=
  if data.channel.release_context ≠ 0 then
    [{ release_context := data.channel.release_context, context := data.channel.context }]
  else []

/-- The matcher `find_channel`: the entry has the identity looked for. -/
def find_channel (data : kaa_transport_channel_wrapper_t) (context : Nat) : Bool :=
  decide (data.channel_id = context)

/-- The constructor `kaa_channel_manager_create`.  The struct comes from
`KAA_MALLOC` and only `transport_channels`, `logger`, `request_id` and
`is_up_to_date` are assigned: `payload_size` and `channel_count` keep whatever
the allocated block held, which the two `uninit` arguments stand for. -/
def kaa_channel_manager_create (malloc_ok : Bool) (uninit_payload_size uninit_channel_count : Nat) :
    kaa_error_t × Option kaa_channel_manager_t :=
  if !malloc_ok then (KAA_ERR_NOMEM, none)
  else
    (KAA_ERR_NONE, some
      { transport_channels := [],
        sync_info :=
          { is_up_to_date := false,
            request_id := 0,
            payload_size := uninit_payload_size % 2 ^ 32,
            channel_count := uninit_channel_count % 2 ^ 16 } })

/-- The identity hash `kaa_transport_channel_id_calculate`: the error code and
the value left in `*channel_id` (a `uint32_t`). -/
def kaa_transport_channel_id_calculate (channel : kaa_transport_channel_interface_t) :
    kaa_error_t × Nat :=
  let prime := 31
  let channel_id := 1
  let channel_id := (prime * channel_id + channel.context) % 2 ^ 32
  let channel_id := (prime * channel_id + channel.get_protocol_id) % 2 ^ 32
  let channel_id := (prime * channel_id + channel.get_supported_services) % 2 ^ 32
  let channel_id := (prime * channel_id + channel.sync_handler) % 2 ^ 32
  let channel_id := (prime * channel_id + channel.release_context) % 2 ^ 32
  (KAA_ERR_NONE, channel_id)

/-- What `kaa_channel_manager_add_transport_channel` leaves behind: the
returned code, the value stored through `channel_id` (`none` when nothing was
stored) and the manager. -/
structure kaa_add_result_t where
  error_code : kaa_error_t
  channel_id : Option Nat
  self : kaa_channel_manager_t
  deriving DecidableEq, Repr

/-- The operation `kaa_channel_manager_add_transport_channel`.
`channel_id_given` says whether the `channel_id` out-pointer is non-null,
`malloc_ok` and `list_ok` the outcome of the wrapper and list-node
allocations. -/
def kaa_channel_manager_add_transport_channel (self : kaa_channel_manager_t)
    (channel : kaa_transport_channel_interface_t) (channel_id_given malloc_ok list_ok : Bool) :
    kaa_add_result_t :=
  let id := (kaa_transport_channel_id_calculate channel).2
  match kaa_list_find_next self.transport_channels find_channel id with
  | some _ => { error_code := KAA_ERR_ALREADY_EXISTS, channel_id := none, self := self }
  | none =>
    if !malloc_ok then { error_code := KAA_ERR_NOMEM, channel_id := none, self := self }
    else
      let copy : kaa_transport_channel_wrapper_t := { channel_id := id, channel := channel }
      let out := if channel_id_given then some id else none
      let it :=
        if !self.transport_channels.isEmpty then
          kaa_list_push_front list_ok self.transport_channels copy
        else kaa_list_create list_ok copy
      match it with
      | none => { error_code := KAA_ERR_NOMEM, channel_id := out, self := self }
      | some it =>
        { error_code := KAA_ERR_NONE,
          channel_id := out,
          self :=
            { transport_channels := it,
              sync_info := { self.sync_info with is_up_to_date := false } } }

/-- What `kaa_channel_manager_remove_transport_channel` leaves behind: the
returned code, the manager and the release hooks that were invoked, in order. -/
structure kaa_remove_result_t where
  error_code : kaa_error_t
  self : kaa_channel_manager_t
  released : List kaa_release_call_t
  deriving DecidableEq, Repr

/-- The operation `kaa_channel_manager_remove_transport_channel`. -/
def kaa_channel_manager_remove_transport_channel (self : kaa_channel_manager_t)
    (channel_id : Nat) : kaa_remove_result_t :=
  let r := kaa_list_remove_first self.transport_channels find_channel channel_id destroy_channel
  let self1 : kaa_channel_manager_t := { self with transport_channels := r.2.1 }
  if r.1 = KAA_ERR_NONE then
    { error_code := KAA_ERR_NONE,
      self := { self1 with sync_info := { self1.sync_info with is_up_to_date := false } },
      released := r.2.2 }
  else { error_code := r.1, self := self1, released := r.2.2 }

/-- The inner loop of the lookup, `while (service_count--)` over `*services++`:
whether the service occurs among the listed ones. -/
def kaa_services_scan (service_type : Nat) : List Nat → Bool
  | [] => false
  | s :: rest => if s = service_type then true else kaa_services_scan service_type rest

/-- The outer loop of `kaa_channel_manager_get_transport_channel`, from the
list position `it` on.  Each unit of fuel pays for one evaluation of the loop
condition; `none` is a run that has not returned when the fuel is spent,
`some none` the return of `NULL`, `some (some d)` the return of the address of
the descriptor `d` of an entry.  The `continue` of the failure branch goes
back to the loop condition with `it` unchanged. -/
def kaa_channel_manager_get_transport_channel_loop (env : kaa_environment_t)
    (service_type : Nat) :
    Nat → List kaa_transport_channel_wrapper_t → Option (Option kaa_transport_channel_interface_t)
  | 0, _ => none
  | _ + 1, [] => some none
  | fuel + 1, channel_wrapper :: rest =>
    let r := env.call_get_supported_services channel_wrapper.channel.get_supported_services
      channel_wrapper.channel.context
    match r with
    | (KAA_ERR_NONE, some (s :: services)) =>
      if kaa_services_scan service_type (s :: services) then some (some channel_wrapper.channel)
      else kaa_channel_manager_get_transport_channel_loop env service_type fuel rest
    | _ =>
      kaa_channel_manager_get_transport_channel_loop env service_type fuel
        (channel_wrapper :: rest)

/-- The lookup `kaa_channel_manager_get_transport_channel`, run with the given fuel. -/
def kaa_channel_manager_get_transport_channel (env : kaa_environment_t) (fuel : Nat)
    (self : kaa_channel_manager_t) (service_type : Nat) :
    Option (Option kaa_transport_channel_interface_t) :=
  kaa_channel_manager_get_transport_channel_loop env service_type fuel self.transport_channels

/-- What `kaa_channel_manager_bootstrap_request_get_size` leaves behind: the
returned code, the value of `*expected_size` and the manager. -/
structure kaa_get_size_result_t where
  error_code : kaa_error_t
  expected_size : Nat
  self : kaa_channel_manager_t
  deriving DecidableEq, Repr

/-- The size query `kaa_channel_manager_bootstrap_request_get_size`. -/
def kaa_channel_manager_bootstrap_request_get_size (env : kaa_environment_t)
    (self : kaa_channel_manager_t) : kaa_get_size_result_t :=
  let expected_size := 0
  if !self.sync_info.is_up_to_date then
    let channel_count := kaa_list_get_size self.transport_channels
    if channel_count > 0 then
      let expected_size := expected_size +
        (env.KAA_EXTENSION_HEADER_SIZE + 2 + 2 + channel_count * (4 + 2 + 2))
      { error_code := KAA_ERR_NONE,
        expected_size := expected_size,
        self :=
          { self with
            sync_info :=
              { is_up_to_date := true,
                request_id := self.sync_info.request_id,
                payload_size := (expected_size - env.KAA_EXTENSION_HEADER_SIZE) % 2 ^ 32,
                channel_count := channel_count % 2 ^ 16 } } }
    else { error_code := KAA_ERR_NONE, expected_size := expected_size, self := self }
  else { error_code := KAA_ERR_NONE, expected_size := expected_size, self := self }

/-- The channel loop of the serializer, from the list position `it` on: the
error code held when the loop is left and the writer. -/
def kaa_channel_manager_bootstrap_request_serialize_loop (env : kaa_environment_t) :
    List kaa_transport_channel_wrapper_t → kaa_platform_message_writer_t →
      kaa_error_t × kaa_platform_message_writer_t
  | [], writer => (KAA_ERR_NONE, writer)
  | channel_wrapper :: rest, writer =>
    let p := env.call_get_protocol_id channel_wrapper.channel.get_protocol_id
      channel_wrapper.channel.context
    if p.1 ≠ KAA_ERR_NONE then (p.1, writer)
    else
      let w1 := kaa_platform_message_write writer (KAA_HTONL p.2.id)
      if w1.1 ≠ KAA_ERR_NONE then w1
      else
        let w2 := kaa_platform_message_write w1.2 (KAA_HTONS p.2.version)
        if w2.1 ≠ KAA_ERR_NONE then w2
        else
          let w3 := kaa_platform_message_write w2.2 (KAA_HTONS 0)
          if w3.1 ≠ KAA_ERR_NONE then w3
          else kaa_channel_manager_bootstrap_request_serialize_loop env rest w3.2

/-- What `kaa_channel_manager_bootstrap_request_serialize` leaves behind: the
returned code, the manager and the writer. -/
structure kaa_serialize_result_t where
  error_code : kaa_error_t
  self : kaa_channel_manager_t
  writer : kaa_platform_message_writer_t
  deriving DecidableEq, Repr

/-- The serializer `kaa_channel_manager_bootstrap_request_serialize`. -/
def kaa_channel_manager_bootstrap_request_serialize (env : kaa_environment_t)
    (self : kaa_channel_manager_t) (writer : kaa_platform_message_writer_t) :
    kaa_serialize_result_t :=
  if self.sync_info.payload_size > 0 ∧ self.sync_info.channel_count > 0 then
    let h := kaa_platform_message_write_extension_header env writer
      env.KAA_BOOTSTRAP_EXTENSION_TYPE 0 self.sync_info.payload_size
    if h.1 ≠ KAA_ERR_NONE then { error_code := h.1, self := self, writer := h.2 }
    else
      let self1 : kaa_channel_manager_t :=
        { self with
          sync_info :=
            { self.sync_info with request_id := (self.sync_info.request_id + 1) % 2 ^ 16 } }
      let w1 := kaa_platform_message_write h.2 (KAA_HTONS self1.sync_info.request_id)
      if w1.1 ≠ KAA_ERR_NONE then { error_code := w1.1, self := self1, writer := w1.2 }
      else
        let w2 := kaa_platform_message_write w1.2 (KAA_HTONS self1.sync_info.channel_count)
        if w2.1 ≠ KAA_ERR_NONE then { error_code := w2.1, self := self1, writer := w2.2 }
        else
          let l := kaa_channel_manager_bootstrap_request_serialize_loop env
            self1.transport_channels w2.2
          { error_code := l.1, self := self1, writer := l.2 }
  else { error_code := KAA_ERR_NONE, self := self, writer := writer }

/-! ## `kaa/platform-impl/esp8266/esp8266_tcp_utils.c` -/

/-- Modelled from the spec: `ext_tcp_socket_io_errors_t` is declared in a
header that is not among the sources.  Its three outcomes are the ones the
read and write functions return: data or would-block, a hard error, and
end of stream. -/
inductive ext_tcp_socket_io_errors_t
  | KAA_TCP_SOCK_IO_OK
  | KAA_TCP_SOCK_IO_ERROR
  | KAA_TCP_SOCK_IO_EOF
  deriving DecidableEq, Repr

/-- What one call of the system `read` leaves behind: its return value (a
`ssize_t`) and the value of `errno` after the call. -/
structure sys_read_result_t where
  read_result : Int
  errno : Int
  deriving DecidableEq, Repr

/-- What `ext_tcp_utils_tcp_socket_read` leaves behind: the returned outcome,
the value stored through `bytes_read` (`none` when nothing was stored) and the
calls of the system `read` that were made, as (fd, buffer, size). -/
structure ext_tcp_read_outcome_t where
  result : ext_tcp_socket_io_errors_t
  bytes_read : Option Nat
  reads : List (Nat × Nat × Nat)
  deriving DecidableEq, Repr

/-- The function `ext_tcp_utils_tcp_socket_read`.  `sys_read` is the behaviour
of the system `read` on this call, `EAGAIN` the constant of `errno.h`,
`buffer` and `bytes_read` are addresses (`0` is `NULL`). -/
def ext_tcp_utils_tcp_socket_read (sys_read : Nat → Nat → Nat → sys_read_result_t)
    (EAGAIN : Int) (fd buffer buffer_size bytes_read : Nat) : ext_tcp_read_outcome_t :=
  if buffer = 0 ∨ buffer_size = 0 then
    { result := ext_tcp_socket_io_errors_t.KAA_TCP_SOCK_IO_ERROR, bytes_read := none,
      reads := [] }
  else
    let r := sys_read fd buffer buffer_size
    let read_result := r.read_result
    if read_result = 0 then
      { result := ext_tcp_socket_io_errors_t.KAA_TCP_SOCK_IO_EOF, bytes_read := none,
        reads := [(fd, buffer, buffer_size)] }
    else if read_result < 0 ∧ r.errno ≠ EAGAIN then
      { result := ext_tcp_socket_io_errors_t.KAA_TCP_SOCK_IO_ERROR, bytes_read := none,
        reads := [(fd, buffer, buffer_size)] }
    else
      { result := ext_tcp_socket_io_errors_t.KAA_TCP_SOCK_IO_OK,
        bytes_read :=
          if bytes_read ≠ 0 then some (if read_result > 0 then read_result.toNat else 0)
          else none,
        reads := [(fd, buffer, buffer_size)] }

/-! ## Call sequences -/

/-- One call of the public interface that can change the manager. -/
inductive kaa_call_t
  | add (channel : kaa_transport_channel_interface_t) (channel_id_given malloc_ok list_ok : Bool)
  | remove (channel_id : Nat)
  | get_size
  | serialize (writer : kaa_platform_message_writer_t)
  deriving DecidableEq, Repr

/-- The manager after one call. -/
def kaa_call_apply (env : kaa_environment_t) (self : kaa_channel_manager_t) :
    kaa_call_t → kaa_channel_manager_t
  | kaa_call_t.add channel channel_id_given malloc_ok list_ok =>
    (kaa_channel_manager_add_transport_channel self channel channel_id_given malloc_ok list_ok).self
  | kaa_call_t.remove channel_id =>
    (kaa_channel_manager_remove_transport_channel self channel_id).self
  | kaa_call_t.get_size => (kaa_channel_manager_bootstrap_request_get_size env self).self
  | kaa_call_t.serialize writer =>
    (kaa_channel_manager_bootstrap_request_serialize env self writer).self

/-- The manager after a sequence of calls, first call first. -/
def kaa_calls_run (env : kaa_environment_t) (self : kaa_channel_manager_t)
    (calls : List kaa_call_t) : kaa_channel_manager_t :=
  calls.foldl (kaa_call_apply env) self

/-- The states reachable from a successful `kaa_channel_manager_create` by
add, remove, get_size and serialize calls. -/
def kaa_reachable (env : kaa_environment_t) (self : kaa_channel_manager_t) : Prop :=
  ∃ (p c : Nat) (self0 : kaa_channel_manager_t) (calls : List kaa_call_t),
    kaa_channel_manager_create true p c = (KAA_ERR_NONE, some self0) ∧
      self = kaa_calls_run env self0 calls

/-- Whether a call writes anything to a writer: only a serialize call can,
and it does when the writer holds more afterwards. -/
def kaa_call_writes (env : kaa_environment_t) (self : kaa_channel_manager_t) :
    kaa_call_t → Bool
  | kaa_call_t.serialize writer =>
    decide ((kaa_channel_manager_bootstrap_request_serialize env self writer).writer.written ≠
      writer.written)
  | _ => false

/-- No call of the sequence, run from the given manager, writes anything. -/
def kaa_calls_silent (env : kaa_environment_t) :
    kaa_channel_manager_t → List kaa_call_t → Bool
  | _, [] => true
  | self, call :: rest =>
    !kaa_call_writes env self call && kaa_calls_silent env (kaa_call_apply env self call) rest

/-- The number of calls of the sequence, run from the given manager, that
write anything. -/
def kaa_calls_write_count (env : kaa_environment_t) :
    kaa_channel_manager_t → List kaa_call_t → Nat
  | _, [] => 0
  | self, call :: rest =>
    (if kaa_call_writes env self call then 1 else 0) +
      kaa_calls_write_count env (kaa_call_apply env self call) rest

/-- The cache agrees with the registry: when `is_up_to_date` is set, the
registry is non-empty, `channel_count` is its size as a `uint16_t` and
`payload_size` is 4 + 8 · size as a `uint32_t`. -/
def kaa_cache_accurate (self : kaa_channel_manager_t) : Prop :=
  self.sync_info.is_up_to_date = true →
    0 < self.transport_channels.length ∧
    self.sync_info.channel_count = self.transport_channels.length % 2 ^ 16 ∧
    self.sync_info.payload_size = (4 + 8 * self.transport_channels.length) % 2 ^ 32

/-! ## Service lookup, as the specification words it -/

/-- The supported-service set of the channel of an entry contains the
requested service (a failed call or a `NULL` array supports nothing). -/
def channel_supports_service (env : kaa_environment_t) (service_type : Nat)
    (cw : kaa_transport_channel_wrapper_t) : Bool :=
  match env.call_get_supported_services cw.channel.get_supported_services cw.channel.context with
  | (KAA_ERR_NONE, some services) => decide (service_type ∈ services)
  | _ => false

/-! ## The wire format, as the specification words it -/

/-- One channel block of the bootstrap request: protocol id as 4 bytes
big-endian, protocol version as 2 bytes big-endian, two reserved zero bytes. -/
def wire_channel_block (p : kaa_transport_protocol_id_t) : List Nat :=
  [p.id / 2 ^ 24 % 256, p.id / 2 ^ 16 % 256, p.id / 2 ^ 8 % 256, p.id % 256,
    p.version / 2 ^ 8 % 256, p.version % 256, 0, 0]

/-- The channel blocks of the given entries, in list order. -/
def wire_channel_blocks (env : kaa_environment_t) :
    List kaa_transport_channel_wrapper_t → List Nat
  | [] => []
  | cw :: rest =>
    wire_channel_block
        (env.call_get_protocol_id cw.channel.get_protocol_id cw.channel.context).2 ++
      wire_channel_blocks env rest

/-- The payload of a bootstrap request: request id and channel count as 2
bytes big-endian each, then the channel blocks. -/
def wire_bootstrap_payload (request_id channel_count : Nat) (blocks : List Nat) : List Nat :=
  [request_id / 2 ^ 8 % 256, request_id % 256, channel_count / 2 ^ 8 % 256,
    channel_count % 256] ++ blocks

/-! ## Concrete data for the scenarios -/

/-- An environment with header size 8 and bootstrap tag 5.  The code at
addresses 101, 102 and 103 answers `get_protocol_id` with protocol ids 1, 2
and 3 (version 1); the code at addresses 201 and 202 answers
`get_supported_services` with the services `[1, 2]` and `[2, 3]`.  Any other
address fails. -/
def example_env : kaa_environment_t :=
  { KAA_EXTENSION_HEADER_SIZE := 8,
    KAA_BOOTSTRAP_EXTENSION_TYPE := 5,
    call_get_protocol_id := fun fn _ =>
      if fn = 101 then (KAA_ERR_NONE, { id := 1, version := 1 })
      else if fn = 102 then (KAA_ERR_NONE, { id := 2, version := 1 })
      else if fn = 103 then (KAA_ERR_NONE, { id := 3, version := 1 })
      else (KAA_ERR_BADDATA, { id := 0, version := 0 }),
    call_get_supported_services := fun fn _ =>
      if fn = 201 then (KAA_ERR_NONE, some [1, 2])
      else if fn = 202 then (KAA_ERR_NONE, some [2, 3])
      else (KAA_ERR_BADDATA, none) }

/-- Channel A: protocol id 1, services `[1, 2]`, with a release hook. -/
def example_channel_a : kaa_transport_channel_interface_t :=
  { context := 4096, get_protocol_id := 101, get_supported_services := 201,
    sync_handler := 301, release_context := 401 }

/-- Channel B: protocol id 2, services `[2, 3]`, without a release hook. -/
def example_channel_b : kaa_transport_channel_interface_t :=
  { context := 8192, get_protocol_id := 102, get_supported_services := 202,
    sync_handler := 301, release_context := 0 }

/-- Channel C: protocol id 3, version 1, services `[1, 2]`. -/
def example_channel_c : kaa_transport_channel_interface_t :=
  { context := 12288, get_protocol_id := 103, get_supported_services := 201,
    sync_handler := 301, release_context := 401 }

/-- A family of descriptors that differ in the release hook address only. -/
def example_channel_n (i : Nat) : kaa_transport_channel_interface_t :=
  { context := 4096, get_protocol_id := 101, get_supported_services := 201,
    sync_handler := 301, release_context := i }

/-- The registry entry that add builds for `example_channel_n i`. -/
def example_wrapper_n (i : Nat) : kaa_transport_channel_wrapper_t :=
  { channel_id := (kaa_transport_channel_id_calculate (example_channel_n i)).2,
    channel := example_channel_n i }

/-- The calls that add `example_channel_n 0`, ..., `example_channel_n (n - 1)` in turn. -/
def example_adds (n : Nat) : List kaa_call_t :=
  (List.range n).map (fun i => kaa_call_t.add (example_channel_n i) true true true)

/-- One channel more than a `uint16_t` can count. -/
def example_many : Nat := 65537

/-- Channel D: both `get_protocol_id` (address 104) and
`get_supported_services` (address 203) fail on every call. -/
def example_channel_d : kaa_transport_channel_interface_t :=
  { context := 16384, get_protocol_id := 104, get_supported_services := 203,
    sync_handler := 301, release_context := 0 }

/-- The largest request id but one that a `uint16_t` holds. -/
def example_wrap_count : Nat := 65534

/-- A system `read` that returns 5 bytes on descriptor 1, would block on
descriptor 2 (`errno` 11), fails on descriptor 3 (`errno` 9) and reports end
of stream elsewhere. -/
def example_sys_read (fd : Nat) (_buffer _size : Nat) : sys_read_result_t :=
  if fd = 1 then { read_result := 5, errno := 0 }
  else if fd = 2 then { read_result := -1, errno := 11 }
  else if fd = 3 then { read_result := -1, errno := 9 }
  else { read_result := 0, errno := 0 }

/-- The calls add A, size query, then `k` serialize calls into an empty
writer of 64 bytes. -/
def example_serialized (k : Nat) : List kaa_call_t :=
  [kaa_call_t.add example_channel_a true true true, kaa_call_t.get_size] ++
    List.replicate k (kaa_call_t.serialize { written := [], room := 64 })

/-- An empty writer with room for the extension header only. -/
def example_header_writer : kaa_platform_message_writer_t :=
  { written := [], room := 8 }

/-- The largest number of channels that a `uint16_t` counts. -/
def example_almost_many : Nat := 65535

/-- A writer with room for a request of 65536 channels. -/
def example_large_writer : kaa_platform_message_writer_t :=
  { written := [], room := 1000000 }

/-- A manager as `kaa_channel_manager_create` leaves it when the allocated
block was zeroed. -/
def example_new : kaa_channel_manager_t :=
  { transport_channels := [],
    sync_info := { is_up_to_date := false, request_id := 0, payload_size := 0,
                   channel_count := 0 } }

/-- An empty writer over a buffer of 64 bytes. -/
def example_writer : kaa_platform_message_writer_t :=
  { written := [], room := 64 }

/-! ## Lemmas on the writer and the serializer loop -/

theorem kaa_platform_message_write_fits (writer : kaa_platform_message_writer_t)
    (data : List Nat) (h : data.length ≤ writer.room) :
    kaa_platform_message_write writer data =
      (KAA_ERR_NONE,
        { written := writer.written ++ data.map kaa_written_t.byte,
          room := writer.room - data.length }) := by
  simp [kaa_platform_message_write, h]

theorem kaa_platform_message_write_none (writer w : kaa_platform_message_writer_t)
    (data : List Nat) (h : kaa_platform_message_write writer data = (KAA_ERR_NONE, w)) :
    w.written = writer.written ++ data.map kaa_written_t.byte ∧
      w.room + data.length = writer.room := by
  unfold kaa_platform_message_write at h
  split at h
  · simp only [Prod.mk.injEq, true_and] at h
    subst h
    exact ⟨rfl, by simp only; omega⟩
  · simp at h

theorem wire_channel_blocks_length (env : kaa_environment_t)
    (l : List kaa_transport_channel_wrapper_t) :
    (wire_channel_blocks env l).length = 8 * l.length := by
  induction l with
  | nil => rfl
  | cons cw rest ih =>
    simp only [wire_channel_blocks, wire_channel_block, List.length_append, List.length_cons,
      List.length_nil, ih]
    omega

theorem serialize_loop_fits (env : kaa_environment_t)
    (l : List kaa_transport_channel_wrapper_t) :
    ∀ writer : kaa_platform_message_writer_t,
      (∀ cw ∈ l,
        (env.call_get_protocol_id cw.channel.get_protocol_id cw.channel.context).1 =
          KAA_ERR_NONE) →
      8 * l.length ≤ writer.room →
      kaa_channel_manager_bootstrap_request_serialize_loop env l writer =
        (KAA_ERR_NONE,
          { written := writer.written ++ (wire_channel_blocks env l).map kaa_written_t.byte,
            room := writer.room - 8 * l.length }) := by
  induction l with
  | nil =>
    intro writer _ _
    simp [kaa_channel_manager_bootstrap_request_serialize_loop, wire_channel_blocks]
  | cons cw rest ih =>
    intro writer hcb hroom
    have h0 := hcb cw (List.mem_cons_self _ _)
    have hrest : ∀ x ∈ rest,
        (env.call_get_protocol_id x.channel.get_protocol_id x.channel.context).1 =
          KAA_ERR_NONE := fun x hx => hcb x (List.mem_cons_of_mem _ hx)
    simp only [List.length_cons] at hroom
    have h4 : 4 ≤ writer.room := by omega
    have h2 : 2 ≤ writer.room - 4 := by omega
    have h2b : 2 ≤ writer.room - 4 - 2 := by omega
    have hr : 8 * rest.length ≤ writer.room - 4 - 2 - 2 := by omega
    have hih := ih
      { written := writer.written ++
          (wire_channel_block
            (env.call_get_protocol_id cw.channel.get_protocol_id cw.channel.context).2).map
              kaa_written_t.byte,
        room := writer.room - 4 - 2 - 2 } hrest hr
    simp only [kaa_channel_manager_bootstrap_request_serialize_loop, h0, ne_eq,
      not_true_eq_false, if_false, kaa_platform_message_write, KAA_HTONL, KAA_HTONS,
      List.length_cons, List.length_nil, Nat.zero_add, Nat.reduceAdd, h4, h2, h2b, if_true,
      List.map_cons, List.map_nil, List.append_assoc, List.cons_append, List.nil_append]
    simp only [wire_channel_block, List.map_cons, List.map_nil, List.append_assoc,
      List.cons_append, List.nil_append] at hih
    simp only [Nat.zero_div, Nat.zero_mod]
    rw [hih]
    simp only [wire_channel_blocks, wire_channel_block, List.map_append, List.map_cons,
      List.map_nil, List.append_assoc, List.cons_append, List.nil_append, List.length_cons,
      Prod.mk.injEq, true_and]
    congr 1
    omega

theorem serialize_loop_none (env : kaa_environment_t)
    (l : List kaa_transport_channel_wrapper_t) :
    ∀ writer w : kaa_platform_message_writer_t,
      kaa_channel_manager_bootstrap_request_serialize_loop env l writer = (KAA_ERR_NONE, w) →
      w.written = writer.written ++ (wire_channel_blocks env l).map kaa_written_t.byte ∧
        w.room + 8 * l.length = writer.room := by
  induction l with
  | nil =>
    intro writer w h
    simp only [kaa_channel_manager_bootstrap_request_serialize_loop, Prod.mk.injEq,
      true_and] at h
    subst h
    simp [wire_channel_blocks]
  | cons cw rest ih =>
    intro writer w h
    unfold kaa_channel_manager_bootstrap_request_serialize_loop at h
    simp only at h
    split at h
    · rename_i hp
      simp only [Prod.mk.injEq] at h
      exact absurd h.1 hp
    · split at h
      · rename_i h1
        exact absurd (by rw [h]) h1
      · rename_i h1
        split at h
        · rename_i h2
          exact absurd (by rw [h]) h2
        · rename_i h2
          split at h
          · rename_i h3
            exact absurd (by rw [h]) h3
          · rename_i h3
            simp only [ne_eq, Decidable.not_not] at h1 h2 h3
            have e1 := kaa_platform_message_write_none _ _ _ (Prod.ext h1 rfl)
            have e2 := kaa_platform_message_write_none _ _ _ (Prod.ext h2 rfl)
            have e3 := kaa_platform_message_write_none _ _ _ (Prod.ext h3 rfl)
            have e4 := ih _ _ h
            refine ⟨?_, ?_⟩
            · rw [e4.1, e3.1, e2.1, e1.1]
              simp [wire_channel_blocks, wire_channel_block, KAA_HTONL, KAA_HTONS]
            · have l1 : (KAA_HTONL
                  (env.call_get_protocol_id cw.channel.get_protocol_id
                    cw.channel.context).2.id).length = 4 := rfl
              have l2 : (KAA_HTONS
                  (env.call_get_protocol_id cw.channel.get_protocol_id
                    cw.channel.context).2.version).length = 2 := rfl
              have l3 : (KAA_HTONS 0).length = 2 := rfl
              have a1 := e1.2
              have a2 := e2.2
              have a3 := e3.2
              have a4 := e4.2
              rw [l1] at a1
              rw [l2] at a2
              rw [l3] at a3
              simp only [List.length_cons]
              linarith

/-! ## Lemmas on the size query and the serializer -/

theorem get_size_stale (env : kaa_environment_t) (self : kaa_channel_manager_t)
    (hstale : self.sync_info.is_up_to_date = false)
    (h1 : 1 ≤ self.transport_channels.length)
    (h2 : self.transport_channels.length ≤ 65535) :
    kaa_channel_manager_bootstrap_request_get_size env self =
      { error_code := KAA_ERR_NONE,
        expected_size := env.KAA_EXTENSION_HEADER_SIZE + 2 + 2 +
          8 * self.transport_channels.length,
        self :=
          { transport_channels := self.transport_channels,
            sync_info :=
              { is_up_to_date := true,
                request_id := self.sync_info.request_id,
                payload_size := 2 + 2 + 8 * self.transport_channels.length,
                channel_count := self.transport_channels.length } } } := by
  have hpos : self.transport_channels.length > 0 := h1
  have e1 : (env.KAA_EXTENSION_HEADER_SIZE + 2 + 2 + self.transport_channels.length * 8 -
      env.KAA_EXTENSION_HEADER_SIZE) % 4294967296 =
      2 + 2 + 8 * self.transport_channels.length := by omega
  have e2 : self.transport_channels.length % 65536 = self.transport_channels.length := by
    omega
  have e3 : env.KAA_EXTENSION_HEADER_SIZE + 2 + 2 + self.transport_channels.length * 8 =
      env.KAA_EXTENSION_HEADER_SIZE + 2 + 2 + 8 * self.transport_channels.length := by omega
  simp only [kaa_channel_manager_bootstrap_request_get_size, hstale, Bool.not_false, if_true,
    kaa_list_get_size, hpos, Nat.zero_add, Nat.reduceAdd, Nat.reducePow, e2, e3]
  congr 3
  omega

theorem get_size_fresh (env : kaa_environment_t) (self : kaa_channel_manager_t)
    (hfresh : self.sync_info.is_up_to_date = true) :
    kaa_channel_manager_bootstrap_request_get_size env self =
      { error_code := KAA_ERR_NONE, expected_size := 0, self := self } := by
  simp [kaa_channel_manager_bootstrap_request_get_size, hfresh]

theorem get_size_empty (env : kaa_environment_t) (self : kaa_channel_manager_t)
    (hempty : self.transport_channels = []) :
    kaa_channel_manager_bootstrap_request_get_size env self =
      { error_code := KAA_ERR_NONE, expected_size := 0, self := self } := by
  simp [kaa_channel_manager_bootstrap_request_get_size, hempty, kaa_list_get_size]

theorem serialize_fits (env : kaa_environment_t) (self : kaa_channel_manager_t)
    (writer : kaa_platform_message_writer_t)
    (hp : 0 < self.sync_info.payload_size) (hc : 0 < self.sync_info.channel_count)
    (hcb : ∀ cw ∈ self.transport_channels,
      (env.call_get_protocol_id cw.channel.get_protocol_id cw.channel.context).1 =
        KAA_ERR_NONE)
    (hroom : env.KAA_EXTENSION_HEADER_SIZE + 4 + 8 * self.transport_channels.length ≤
      writer.room) :
    kaa_channel_manager_bootstrap_request_serialize env self writer =
      { error_code := KAA_ERR_NONE,
        self :=
          { transport_channels := self.transport_channels,
            sync_info :=
              { is_up_to_date := self.sync_info.is_up_to_date,
                request_id := (self.sync_info.request_id + 1) % 2 ^ 16,
                payload_size := self.sync_info.payload_size,
                channel_count := self.sync_info.channel_count } },
        writer :=
          { written := writer.written ++
              kaa_written_t.extension_header env.KAA_BOOTSTRAP_EXTENSION_TYPE 0
                  self.sync_info.payload_size ::
                (wire_bootstrap_payload ((self.sync_info.request_id + 1) % 2 ^ 16)
                  self.sync_info.channel_count
                  (wire_channel_blocks env self.transport_channels)).map kaa_written_t.byte,
            room := writer.room - env.KAA_EXTENSION_HEADER_SIZE - 4 -
              8 * self.transport_channels.length } } := by
  have hh : env.KAA_EXTENSION_HEADER_SIZE ≤ writer.room := by omega
  have ha : 2 ≤ writer.room - env.KAA_EXTENSION_HEADER_SIZE := by omega
  have hb : 2 ≤ writer.room - env.KAA_EXTENSION_HEADER_SIZE - 2 := by omega
  have hl : 8 * self.transport_channels.length ≤
      writer.room - env.KAA_EXTENSION_HEADER_SIZE - 2 - 2 := by omega
  have hloop := serialize_loop_fits env self.transport_channels
    { written := writer.written ++
        kaa_written_t.extension_header env.KAA_BOOTSTRAP_EXTENSION_TYPE 0
            self.sync_info.payload_size ::
          (KAA_HTONS ((self.sync_info.request_id + 1) % 2 ^ 16) ++
            KAA_HTONS self.sync_info.channel_count).map kaa_written_t.byte,
      room := writer.room - env.KAA_EXTENSION_HEADER_SIZE - 2 - 2 } hcb hl
  have hr : writer.room - env.KAA_EXTENSION_HEADER_SIZE - 2 - 2 -
      8 * self.transport_channels.length =
      writer.room - env.KAA_EXTENSION_HEADER_SIZE - 4 - 8 * self.transport_channels.length := by
    omega
  simp only [KAA_HTONS, List.cons_append, List.nil_append, List.map_cons, List.map_nil,
    List.append_assoc] at hloop
  simp only [kaa_channel_manager_bootstrap_request_serialize, gt_iff_lt, hp, hc, and_self,
    if_true, kaa_platform_message_write_extension_header, hh, ne_eq, not_true_eq_false,
    if_false, kaa_platform_message_write, KAA_HTONS, List.length_cons, List.length_nil,
    Nat.zero_add, Nat.reduceAdd, ha, hb, List.map_cons, List.map_nil, List.append_assoc,
    List.cons_append, List.nil_append, hloop, hr, wire_bootstrap_payload, List.map_append]

/-! ## Lemmas on add and remove -/

theorem kaa_list_find_next_none {α β : Type} (list : List α) (pred : α → β → Bool)
    (context : β) :
    kaa_list_find_next list pred context = none ↔ ∀ x ∈ list, pred x context = false := by
  simp [kaa_list_find_next, List.find?_eq_none]

theorem add_duplicate (self : kaa_channel_manager_t)
    (channel : kaa_transport_channel_interface_t) (channel_id_given malloc_ok list_ok : Bool)
    (h : ∃ cw ∈ self.transport_channels,
      cw.channel_id = (kaa_transport_channel_id_calculate channel).2) :
    kaa_channel_manager_add_transport_channel self channel channel_id_given malloc_ok list_ok =
      { error_code := KAA_ERR_ALREADY_EXISTS, channel_id := none, self := self } := by
  unfold kaa_channel_manager_add_transport_channel
  simp only
  split
  · rfl
  · rename_i hnone
    rw [kaa_list_find_next_none] at hnone
    obtain ⟨cw, hmem, hid⟩ := h
    have := hnone cw hmem
    simp [find_channel, hid] at this

theorem add_fresh (self : kaa_channel_manager_t)
    (channel : kaa_transport_channel_interface_t) (channel_id_given : Bool)
    (h : ∀ cw ∈ self.transport_channels,
      cw.channel_id ≠ (kaa_transport_channel_id_calculate channel).2) :
    kaa_channel_manager_add_transport_channel self channel channel_id_given true true =
      { error_code := KAA_ERR_NONE,
        channel_id :=
          if channel_id_given then some (kaa_transport_channel_id_calculate channel).2
          else none,
        self :=
          { transport_channels :=
              { channel_id := (kaa_transport_channel_id_calculate channel).2,
                channel := channel } :: self.transport_channels,
            sync_info := { self.sync_info with is_up_to_date := false } } } := by
  have hnone : kaa_list_find_next self.transport_channels find_channel
      (kaa_transport_channel_id_calculate channel).2 = none := by
    rw [kaa_list_find_next_none]
    intro x hx
    simp [find_channel, h x hx]
  unfold kaa_channel_manager_add_transport_channel
  simp only [hnone]
  cases hl : self.transport_channels <;>
    simp [kaa_list_push_front, kaa_list_create]

theorem add_none_inv (self : kaa_channel_manager_t)
    (channel : kaa_transport_channel_interface_t) (channel_id_given malloc_ok list_ok : Bool)
    (h : (kaa_channel_manager_add_transport_channel self channel channel_id_given malloc_ok
      list_ok).error_code = KAA_ERR_NONE) :
    (∀ cw ∈ self.transport_channels,
      cw.channel_id ≠ (kaa_transport_channel_id_calculate channel).2) ∧
      malloc_ok = true ∧ list_ok = true := by
  unfold kaa_channel_manager_add_transport_channel at h
  simp only at h
  split at h
  · simp at h
  · rename_i hnone
    rw [kaa_list_find_next_none] at hnone
    refine ⟨?_, ?_, ?_⟩
    · intro cw hcw heq
      have := hnone cw hcw
      simp [find_channel, heq] at this
    · cases malloc_ok
      · simp at h
      · rfl
    · cases list_ok
      · cases malloc_ok <;> cases hl : self.transport_channels <;>
          simp [kaa_list_push_front, kaa_list_create, hl] at h
      · rfl

theorem kaa_list_remove_first_absent {α β ε : Type} (pred : α → β → Bool) (context : β)
    (deallocator : α → List ε) (list : List α)
    (h : ∀ x ∈ list, pred x context = false) :
    kaa_list_remove_first list pred context deallocator = (KAA_ERR_NOT_FOUND, list, []) := by
  induction list with
  | nil => rfl
  | cons d rest ih =>
    have hd := h d (List.mem_cons_self _ _)
    have hrest := ih (fun x hx => h x (List.mem_cons_of_mem _ hx))
    simp [kaa_list_remove_first, hd, hrest]

theorem kaa_list_remove_first_present {α β ε : Type} (pred : α → β → Bool) (context : β)
    (deallocator : α → List ε) (pre : List α) (w : α) (post : List α)
    (hpre : ∀ x ∈ pre, pred x context = false) (hw : pred w context = true) :
    kaa_list_remove_first (pre ++ w :: post) pred context deallocator =
      (KAA_ERR_NONE, pre ++ post, deallocator w) := by
  induction pre with
  | nil => simp [kaa_list_remove_first, hw]
  | cons d rest ih =>
    have hd := hpre d (List.mem_cons_self _ _)
    have hrest := ih (fun x hx => hpre x (List.mem_cons_of_mem _ hx))
    simp [kaa_list_remove_first, hd, hrest]

theorem list_first_match_split {α : Type} (p : α → Bool) (list : List α)
    (h : ∃ x ∈ list, p x = true) :
    ∃ pre w post, list = pre ++ w :: post ∧ (∀ x ∈ pre, p x = false) ∧ p w = true := by
  induction list with
  | nil => simp at h
  | cons d rest ih =>
    by_cases hd : p d = true
    · exact ⟨[], d, rest, rfl, by simp, hd⟩
    · have hd2 : p d = false := by simpa using hd
      obtain ⟨x, hx, hpx⟩ := h
      have hx2 : x ∈ rest := by
        rcases List.mem_cons.mp hx with h1 | h1
        · subst h1
          exact absurd hpx hd
        · exact h1
      obtain ⟨pre, w, post, e, hpre, hw⟩ := ih ⟨x, hx2, hpx⟩
      refine ⟨d :: pre, w, post, by rw [e]; rfl, ?_, hw⟩
      intro y hy
      rcases List.mem_cons.mp hy with h1 | h1
      · subst h1
        exact hd2
      · exact hpre y h1

theorem remove_absent (self : kaa_channel_manager_t) (channel_id : Nat)
    (h : ∀ cw ∈ self.transport_channels, cw.channel_id ≠ channel_id) :
    kaa_channel_manager_remove_transport_channel self channel_id =
      { error_code := KAA_ERR_NOT_FOUND, self := self, released := [] } := by
  have hl := kaa_list_remove_first_absent find_channel channel_id destroy_channel
    self.transport_channels (fun x hx => by simp [find_channel, h x hx])
  simp [kaa_channel_manager_remove_transport_channel, hl]

theorem remove_present (self : kaa_channel_manager_t) (channel_id : Nat)
    (pre : List kaa_transport_channel_wrapper_t) (w : kaa_transport_channel_wrapper_t)
    (post : List kaa_transport_channel_wrapper_t)
    (hsplit : self.transport_channels = pre ++ w :: post)
    (hpre : ∀ cw ∈ pre, cw.channel_id ≠ channel_id) (hw : w.channel_id = channel_id) :
    kaa_channel_manager_remove_transport_channel self channel_id =
      { error_code := KAA_ERR_NONE,
        self :=
          { transport_channels := pre ++ post,
            sync_info := { self.sync_info with is_up_to_date := false } },
        released := destroy_channel w } := by
  have hl := kaa_list_remove_first_present find_channel channel_id destroy_channel pre w post
    (fun x hx => by simp [find_channel, hpre x hx]) (by simp [find_channel, hw])
  simp [kaa_channel_manager_remove_transport_channel, hsplit, hl]

theorem remove_none_inv (self : kaa_channel_manager_t) (channel_id : Nat)
    (h : (kaa_channel_manager_remove_transport_channel self channel_id).error_code =
      KAA_ERR_NONE) :
    ∃ cw ∈ self.transport_channels, cw.channel_id = channel_id := by
  by_contra hne
  push_neg at hne
  rw [remove_absent self channel_id hne] at h
  simp at h

/-! ## Bootstrap request: size and layout -/

/-- C1: on a registry with n channels, 1 ≤ n ≤ 65535, whose cache has just
been refreshed by the size query (it was stale before), with every
`get_protocol_id` call succeeding and a writer that has room for the size the
query returned, the serializer succeeds and appends exactly one extension
header (bootstrap tag, flags 0, length 4 + 8n), then request_id + 1 and n as
2 bytes big-endian each, then one 8-byte block per channel in registry order;
the payload has 4 + 8n bytes and header plus payload is the size returned. -/
theorem C1_serialize_writes_request (env : kaa_environment_t) (self : kaa_channel_manager_t)
    (writer : kaa_platform_message_writer_t) (n : Nat)
    (hlen : self.transport_channels.length = n) (h1 : 1 ≤ n) (h2 : n ≤ 65535)
    (hstale : self.sync_info.is_up_to_date = false)
    (hcb : ∀ cw ∈ self.transport_channels,
      (env.call_get_protocol_id cw.channel.get_protocol_id cw.channel.context).1 =
        KAA_ERR_NONE)
    (hroom : (kaa_channel_manager_bootstrap_request_get_size env self).expected_size ≤
      writer.room) :
    (kaa_channel_manager_bootstrap_request_serialize env
        (kaa_channel_manager_bootstrap_request_get_size env self).self writer).error_code =
      KAA_ERR_NONE ∧
    (kaa_channel_manager_bootstrap_request_serialize env
        (kaa_channel_manager_bootstrap_request_get_size env self).self writer).writer.written =
      writer.written ++
        kaa_written_t.extension_header env.KAA_BOOTSTRAP_EXTENSION_TYPE 0 (4 + 8 * n) ::
          (wire_bootstrap_payload (self.sync_info.request_id + 1) n
            (wire_channel_blocks env self.transport_channels)).map kaa_written_t.byte ∧
    (wire_bootstrap_payload (self.sync_info.request_id + 1) n
        (wire_channel_blocks env self.transport_channels)).length = 4 + 8 * n ∧
    env.KAA_EXTENSION_HEADER_SIZE +
        (wire_bootstrap_payload (self.sync_info.request_id + 1) n
          (wire_channel_blocks env self.transport_channels)).length =
      (kaa_channel_manager_bootstrap_request_get_size env self).expected_size := by
  subst hlen
  have hg := get_size_stale env self hstale h1 h2
  rw [hg] at hroom ⊢
  simp only at hroom ⊢
  have hs := serialize_fits env
    { transport_channels := self.transport_channels,
      sync_info :=
        { is_up_to_date := true,
          request_id := self.sync_info.request_id,
          payload_size := 2 + 2 + 8 * self.transport_channels.length,
          channel_count := self.transport_channels.length } } writer
    (by simp only; omega) (by simp only; omega) hcb (by simp only; omega)
  rw [hs]
  have hlenp : (wire_bootstrap_payload (self.sync_info.request_id + 1)
      self.transport_channels.length
      (wire_channel_blocks env self.transport_channels)).length =
      4 + 8 * self.transport_channels.length := by
    simp only [wire_bootstrap_payload, List.length_append, List.length_cons, List.length_nil,
      wire_channel_blocks_length]
  refine ⟨rfl, ?_, hlenp, ?_⟩
  · have b1 : (self.sync_info.request_id + 1) % 2 ^ 16 / 2 ^ 8 % 256 =
        (self.sync_info.request_id + 1) / 2 ^ 8 % 256 := by omega
    have b2 : (self.sync_info.request_id + 1) % 2 ^ 16 % 256 =
        (self.sync_info.request_id + 1) % 256 := by omega
    simp only [wire_bootstrap_payload, b1, b2, Nat.reduceAdd]
  · omega

/-- C1, witness: one channel with protocol id 3 and version 1 on a new
registry; the payload is 00 01 00 01 00 00 00 03 00 01 00 00. -/
theorem C1_serialize_writes_request_witness :
    wire_bootstrap_payload (example_new.sync_info.request_id + 1) 1
        (wire_channel_blocks example_env
          (kaa_channel_manager_add_transport_channel example_new example_channel_c
            true true true).self.transport_channels) =
      [0, 1, 0, 1, 0, 0, 0, 3, 0, 1, 0, 0] ∧
    (kaa_channel_manager_bootstrap_request_serialize example_env
        (kaa_channel_manager_bootstrap_request_get_size example_env
          (kaa_channel_manager_add_transport_channel example_new example_channel_c
            true true true).self).self example_writer).writer.written =
      example_writer.written ++
        kaa_written_t.extension_header example_env.KAA_BOOTSTRAP_EXTENSION_TYPE 0 (4 + 8 * 1) ::
          (wire_bootstrap_payload (example_new.sync_info.request_id + 1) 1
            (wire_channel_blocks example_env
              (kaa_channel_manager_add_transport_channel example_new example_channel_c
                true true true).self.transport_channels)).map kaa_written_t.byte :=
  ⟨by decide,
    (C1_serialize_writes_request example_env
      (kaa_channel_manager_add_transport_channel example_new example_channel_c
        true true true).self example_writer 1 (by decide) (by decide) (by decide) (by decide)
      (by decide) (by decide)).2.1⟩

/-- C2: on a registry whose cache is stale and which holds n channels,
1 ≤ n ≤ 65535, the size query succeeds, returns
KAA_EXTENSION_HEADER_SIZE + 2 + 2 + 8n, stores payload_size = 2 + 2 + 8n and
channel_count = n and sets is_up_to_date; in particular the size query that
follows a successful add or a successful remove leaving n channels returns
the value for that n. -/
theorem C2_get_size_recomputes (env : kaa_environment_t) (n : Nat) (h1 : 1 ≤ n)
    (h2 : n ≤ 65535) :
    (∀ self : kaa_channel_manager_t,
      self.sync_info.is_up_to_date = false → self.transport_channels.length = n →
      (kaa_channel_manager_bootstrap_request_get_size env self).error_code = KAA_ERR_NONE ∧
      (kaa_channel_manager_bootstrap_request_get_size env self).expected_size =
        env.KAA_EXTENSION_HEADER_SIZE + 2 + 2 + 8 * n ∧
      (kaa_channel_manager_bootstrap_request_get_size env self).self.sync_info.payload_size =
        2 + 2 + 8 * n ∧
      (kaa_channel_manager_bootstrap_request_get_size env self).self.sync_info.channel_count =
        n ∧
      (kaa_channel_manager_bootstrap_request_get_size env self).self.sync_info.is_up_to_date =
        true) ∧
    (∀ (self : kaa_channel_manager_t) (channel : kaa_transport_channel_interface_t)
        (channel_id_given malloc_ok list_ok : Bool),
      (kaa_channel_manager_add_transport_channel self channel channel_id_given malloc_ok
        list_ok).error_code = KAA_ERR_NONE →
      (kaa_channel_manager_add_transport_channel self channel channel_id_given malloc_ok
        list_ok).self.transport_channels.length = n →
      (kaa_channel_manager_bootstrap_request_get_size env
        (kaa_channel_manager_add_transport_channel self channel channel_id_given malloc_ok
          list_ok).self).expected_size = env.KAA_EXTENSION_HEADER_SIZE + 2 + 2 + 8 * n) ∧
    (∀ (self : kaa_channel_manager_t) (channel_id : Nat),
      (kaa_channel_manager_remove_transport_channel self channel_id).error_code =
        KAA_ERR_NONE →
      (kaa_channel_manager_remove_transport_channel self
        channel_id).self.transport_channels.length = n →
      (kaa_channel_manager_bootstrap_request_get_size env
        (kaa_channel_manager_remove_transport_channel self channel_id).self).expected_size =
        env.KAA_EXTENSION_HEADER_SIZE + 2 + 2 + 8 * n) := by
  have key : ∀ self : kaa_channel_manager_t,
      self.sync_info.is_up_to_date = false → self.transport_channels.length = n →
      kaa_channel_manager_bootstrap_request_get_size env self =
        { error_code := KAA_ERR_NONE,
          expected_size := env.KAA_EXTENSION_HEADER_SIZE + 2 + 2 + 8 * n,
          self :=
            { transport_channels := self.transport_channels,
              sync_info :=
                { is_up_to_date := true,
                  request_id := self.sync_info.request_id,
                  payload_size := 2 + 2 + 8 * n,
                  channel_count := n } } } := by
    intro self hstale hlen
    subst hlen
    exact get_size_stale env self hstale h1 h2
  refine ⟨?_, ?_, ?_⟩
  · intro self hstale hlen
    rw [key self hstale hlen]
    exact ⟨rfl, rfl, rfl, rfl, rfl⟩
  · intro self channel g m l hok hlen
    obtain ⟨hfresh, hm, hl⟩ := add_none_inv self channel g m l hok
    subst hm
    subst hl
    rw [add_fresh self channel g hfresh] at hlen ⊢
    rw [key _ rfl hlen]
  · intro self channel_id hok hlen
    obtain ⟨pre, w, post, hsplit, hpre, hw⟩ :=
      list_first_match_split (fun cw => find_channel cw channel_id) self.transport_channels
        (by
          obtain ⟨cw, hcw, hid⟩ := remove_none_inv self channel_id hok
          exact ⟨cw, hcw, by simp [find_channel, hid]⟩)
    have hr := remove_present self channel_id pre w post hsplit
      (fun cw hcw => by simpa [find_channel] using hpre cw hcw)
      (by simpa [find_channel] using hw)
    rw [hr] at hlen ⊢
    rw [key _ rfl hlen]

/-- C2, witness: after adding channel A and then channel B to a new registry
the size query returns 8 + 2 + 2 + 8 · 2 = 28 and stores 20 and 2. -/
theorem C2_get_size_recomputes_witness :
    (kaa_channel_manager_bootstrap_request_get_size example_env
      (kaa_calls_run example_env example_new
        [kaa_call_t.add example_channel_a true true true, kaa_call_t.get_size,
          kaa_call_t.add example_channel_b true true true])).expected_size = 28 ∧
    (kaa_channel_manager_bootstrap_request_get_size example_env
      (kaa_calls_run example_env example_new
        [kaa_call_t.add example_channel_a true true true, kaa_call_t.get_size,
          kaa_call_t.add example_channel_b true true true])).self.sync_info =
      { is_up_to_date := true, request_id := 0, payload_size := 20, channel_count := 2 } :=
  have h := (C2_get_size_recomputes example_env 2 (by decide) (by decide)).1
    (kaa_calls_run example_env example_new
      [kaa_call_t.add example_channel_a true true true, kaa_call_t.get_size,
        kaa_call_t.add example_channel_b true true true]) (by decide) (by decide)
  ⟨h.2.1, by decide⟩

/-- C3, evaluated on the code: on a new registry with channel A the first size
query returns 8 + 12 = 20 and marks the cache fresh; the second size query,
with no add or remove in between, finds the cache fresh and the registry
non-empty and returns 0, not the memoized 20. -/
theorem C3_get_size_fresh_returns_zero :
    (kaa_channel_manager_bootstrap_request_get_size example_env
      (kaa_channel_manager_add_transport_channel example_new example_channel_a
        true true true).self).expected_size = 20 ∧
    (kaa_channel_manager_bootstrap_request_get_size example_env
      (kaa_channel_manager_add_transport_channel example_new example_channel_a
        true true true).self).self.sync_info =
      { is_up_to_date := true, request_id := 0, payload_size := 12, channel_count := 1 } ∧
    (kaa_channel_manager_bootstrap_request_get_size example_env
      (kaa_channel_manager_bootstrap_request_get_size example_env
        (kaa_channel_manager_add_transport_channel example_new example_channel_a
          true true true).self).self).error_code = KAA_ERR_NONE ∧
    (kaa_channel_manager_bootstrap_request_get_size example_env
      (kaa_channel_manager_bootstrap_request_get_size example_env
        (kaa_channel_manager_add_transport_channel example_new example_channel_a
          true true true).self).self).expected_size = 0 := by
  decide

/-! ## The cache along call sequences -/

theorem serialize_frame (env : kaa_environment_t) (self : kaa_channel_manager_t)
    (writer : kaa_platform_message_writer_t) :
    (kaa_channel_manager_bootstrap_request_serialize env self writer).self.transport_channels =
      self.transport_channels ∧
    (kaa_channel_manager_bootstrap_request_serialize env self
      writer).self.sync_info.is_up_to_date = self.sync_info.is_up_to_date ∧
    (kaa_channel_manager_bootstrap_request_serialize env self
      writer).self.sync_info.payload_size = self.sync_info.payload_size ∧
    (kaa_channel_manager_bootstrap_request_serialize env self
      writer).self.sync_info.channel_count = self.sync_info.channel_count := by
  unfold kaa_channel_manager_bootstrap_request_serialize
  simp only
  split
  · split
    · exact ⟨rfl, rfl, rfl, rfl⟩
    · split
      · exact ⟨rfl, rfl, rfl, rfl⟩
      · split
        · exact ⟨rfl, rfl, rfl, rfl⟩
        · exact ⟨rfl, rfl, rfl, rfl⟩
  · exact ⟨rfl, rfl, rfl, rfl⟩

theorem add_self_cases (self : kaa_channel_manager_t)
    (channel : kaa_transport_channel_interface_t) (channel_id_given malloc_ok list_ok : Bool) :
    (kaa_channel_manager_add_transport_channel self channel channel_id_given malloc_ok
      list_ok).self = self ∨
    (kaa_channel_manager_add_transport_channel self channel channel_id_given malloc_ok
      list_ok).self.sync_info.is_up_to_date = false := by
  unfold kaa_channel_manager_add_transport_channel
  simp only
  split
  · exact Or.inl rfl
  · split
    · exact Or.inl rfl
    · split
      · exact Or.inl rfl
      · exact Or.inr rfl

theorem remove_self_cases (self : kaa_channel_manager_t) (channel_id : Nat) :
    (kaa_channel_manager_remove_transport_channel self channel_id).self = self ∨
    (kaa_channel_manager_remove_transport_channel self
      channel_id).self.sync_info.is_up_to_date = false := by
  by_cases h : ∃ cw ∈ self.transport_channels, cw.channel_id = channel_id
  · obtain ⟨pre, w, post, hsplit, hpre, hw⟩ :=
      list_first_match_split (fun cw => find_channel cw channel_id) self.transport_channels
        (by
          obtain ⟨cw, hcw, hid⟩ := h
          exact ⟨cw, hcw, by simp [find_channel, hid]⟩)
    rw [remove_present self channel_id pre w post hsplit
      (fun cw hcw => by simpa [find_channel] using hpre cw hcw)
      (by simpa [find_channel] using hw)]
    exact Or.inr rfl
  · push_neg at h
    rw [remove_absent self channel_id h]
    exact Or.inl rfl

theorem kaa_cache_accurate_step (env : kaa_environment_t) (self : kaa_channel_manager_t)
    (call : kaa_call_t) (h : kaa_cache_accurate self) :
    kaa_cache_accurate (kaa_call_apply env self call) := by
  cases call with
  | add channel g m l =>
    simp only [kaa_call_apply]
    rcases add_self_cases self channel g m l with e | e
    · rw [e]
      exact h
    · intro hup
      rw [e] at hup
      exact absurd hup (by simp)
  | remove channel_id =>
    simp only [kaa_call_apply]
    rcases remove_self_cases self channel_id with e | e
    · rw [e]
      exact h
    · intro hup
      rw [e] at hup
      exact absurd hup (by simp)
  | get_size =>
    simp only [kaa_call_apply]
    cases hu : self.sync_info.is_up_to_date with
    | true =>
      rw [get_size_fresh env self hu]
      exact h
    | false =>
      cases hl : self.transport_channels with
      | nil =>
        rw [get_size_empty env self hl]
        intro hup
        rw [hu] at hup
        exact absurd hup (by simp)
      | cons cw rest =>
        intro _
        simp only [kaa_channel_manager_bootstrap_request_get_size, hu, hl, kaa_list_get_size,
          List.length_cons, Bool.not_false, if_true, gt_iff_lt, Nat.zero_lt_succ, Nat.zero_add]
        refine ⟨trivial, trivial, ?_⟩
        congr 1
        omega
  | serialize writer =>
    simp only [kaa_call_apply]
    obtain ⟨e1, e2, e3, e4⟩ := serialize_frame env self writer
    intro hup
    rw [e2] at hup
    rw [e1, e3, e4]
    exact h hup

theorem kaa_cache_accurate_run (env : kaa_environment_t) (calls : List kaa_call_t) :
    ∀ self : kaa_channel_manager_t, kaa_cache_accurate self →
      kaa_cache_accurate (kaa_calls_run env self calls) := by
  induction calls with
  | nil => intro self h; exact h
  | cons call rest ih =>
    intro self h
    simp only [kaa_calls_run, List.foldl_cons]
    exact ih _ (kaa_cache_accurate_step env self call h)

theorem kaa_reachable_cache_accurate (env : kaa_environment_t) (self : kaa_channel_manager_t)
    (h : kaa_reachable env self) : kaa_cache_accurate self := by
  obtain ⟨p, c, self0, calls, hcreate, hrun⟩ := h
  subst hrun
  apply kaa_cache_accurate_run
  simp only [kaa_channel_manager_create, Bool.not_true, Bool.false_eq_true, if_false,
    Prod.mk.injEq, true_and, Option.some.injEq] at hcreate
  subst hcreate
  intro hup
  exact absurd hup (by simp)

theorem serialize_none_written (env : kaa_environment_t) (self : kaa_channel_manager_t)
    (writer : kaa_platform_message_writer_t)
    (hp : 0 < self.sync_info.payload_size) (hc : 0 < self.sync_info.channel_count)
    (h : (kaa_channel_manager_bootstrap_request_serialize env self writer).error_code =
      KAA_ERR_NONE) :
    (kaa_channel_manager_bootstrap_request_serialize env self writer).writer.written =
      writer.written ++
        kaa_written_t.extension_header env.KAA_BOOTSTRAP_EXTENSION_TYPE 0
            self.sync_info.payload_size ::
          (wire_bootstrap_payload ((self.sync_info.request_id + 1) % 2 ^ 16)
            self.sync_info.channel_count
            (wire_channel_blocks env self.transport_channels)).map kaa_written_t.byte := by
  unfold kaa_channel_manager_bootstrap_request_serialize at h ⊢
  simp only [gt_iff_lt, hp, hc, and_self, if_true] at h ⊢
  split at h
  · rename_i h0
    exact absurd h h0
  · rename_i h0
    rw [if_neg h0]
    split at h
    · rename_i h1
      exact absurd h h1
    · rename_i h1
      rw [if_neg h1]
      split at h
      · rename_i h2
        exact absurd h h2
      · rename_i h2
        rw [if_neg h2]
        simp only [ne_eq, Decidable.not_not] at h0 h1 h2
        simp only at h ⊢
        have e0 : (kaa_platform_message_write_extension_header env writer
            env.KAA_BOOTSTRAP_EXTENSION_TYPE 0 self.sync_info.payload_size).2.written =
            writer.written ++ [kaa_written_t.extension_header env.KAA_BOOTSTRAP_EXTENSION_TYPE 0
              self.sync_info.payload_size] := by
          unfold kaa_platform_message_write_extension_header at h0 ⊢
          split
          · rfl
          · rename_i hno
            rw [if_neg hno] at h0
            simp at h0
        have e1 := (kaa_platform_message_write_none _ _ _ (Prod.ext h1 rfl)).1
        have e2 := (kaa_platform_message_write_none _ _ _ (Prod.ext h2 rfl)).1
        have e3 := (serialize_loop_none env _ _ _ (Prod.ext h rfl)).1
        rw [e3, e2, e1, e0]
        simp [wire_bootstrap_payload, KAA_HTONS]

/-! ## A registry of more than 65535 channels -/

theorem example_channel_n_id (i : Nat) :
    (kaa_transport_channel_id_calculate (example_channel_n i)).2 =
      (3814582550 + i) % 2 ^ 32 := by
  simp only [kaa_transport_channel_id_calculate, example_channel_n]
  norm_num

theorem example_adds_run (n : Nat) (hn : n ≤ 65537) :
    kaa_calls_run example_env example_new (example_adds n) =
      { transport_channels := ((List.range n).map example_wrapper_n).reverse,
        sync_info := example_new.sync_info } := by
  induction n with
  | zero => rfl
  | succ k ih =>
    have hk := ih (by omega)
    have hfresh : ∀ cw ∈ ((List.range k).map example_wrapper_n).reverse,
        cw.channel_id ≠ (kaa_transport_channel_id_calculate (example_channel_n k)).2 := by
      intro cw hcw
      simp only [List.mem_reverse, List.mem_map, List.mem_range] at hcw
      obtain ⟨i, hi, rfl⟩ := hcw
      simp only [example_wrapper_n]
      rw [example_channel_n_id, example_channel_n_id]
      omega
    simp only [example_adds, List.range_succ, List.map_append, List.map_cons, List.map_nil,
      kaa_calls_run, List.foldl_append, List.foldl_cons, List.foldl_nil, kaa_call_apply]
    simp only [example_adds, kaa_calls_run] at hk
    rw [hk]
    rw [add_fresh _ (example_channel_n k) true hfresh]
    simp [example_wrapper_n, example_new]

theorem example_adds_count_wraps_of (n : Nat) (hlo : 65536 < n) (hhi : n ≤ 65537) :
    kaa_reachable example_env
      (kaa_calls_run example_env example_new (example_adds n ++ [kaa_call_t.get_size])) ∧
    (kaa_calls_run example_env example_new
      (example_adds n ++ [kaa_call_t.get_size])).sync_info.is_up_to_date = true ∧
    (kaa_calls_run example_env example_new
      (example_adds n ++ [kaa_call_t.get_size])).transport_channels.length = n ∧
    (kaa_channel_manager_bootstrap_request_serialize example_env
      (kaa_calls_run example_env example_new (example_adds n ++ [kaa_call_t.get_size]))
      { written := [], room := 524308 }).error_code = KAA_ERR_NONE ∧
    (kaa_channel_manager_bootstrap_request_serialize example_env
      (kaa_calls_run example_env example_new (example_adds n ++ [kaa_call_t.get_size]))
      { written := [], room := 524308 }).writer.written =
      kaa_written_t.extension_header 5 0 524300 ::
        (wire_bootstrap_payload 1 1
          (wire_channel_blocks example_env
            ((List.range n).map example_wrapper_n).reverse)).map kaa_written_t.byte ∧
    (wire_channel_blocks example_env
      ((List.range n).map example_wrapper_n).reverse).length = 8 * n := by
  have hn : n = 65537 := by omega
  have hlen : (((List.range n).map example_wrapper_n).reverse).length = n := by
    simp
  have hcb : ∀ cw ∈ ((List.range n).map example_wrapper_n).reverse,
      (example_env.call_get_protocol_id cw.channel.get_protocol_id cw.channel.context).1 =
        KAA_ERR_NONE := by
    intro cw hcw
    simp only [List.mem_reverse, List.mem_map, List.mem_range] at hcw
    obtain ⟨i, _, rfl⟩ := hcw
    rfl
  generalize hL : ((List.range n).map example_wrapper_n).reverse = L at hlen hcb ⊢
  have hrun : kaa_calls_run example_env example_new
      (example_adds n ++ [kaa_call_t.get_size]) =
      { transport_channels := L,
        sync_info :=
          { is_up_to_date := true, request_id := 0, payload_size := 524300,
            channel_count := 1 } } := by
    have h := example_adds_run n hhi
    rw [hL] at h
    simp only [kaa_calls_run] at h
    simp only [kaa_calls_run, List.foldl_append, List.foldl_cons, List.foldl_nil,
      kaa_call_apply]
    rw [h]
    have hpos : 0 < L.length := by omega
    have e1 : (example_env.KAA_EXTENSION_HEADER_SIZE + 2 + 2 + L.length * (4 + 2 + 2) -
        example_env.KAA_EXTENSION_HEADER_SIZE) % 2 ^ 32 = 524300 := by omega
    have e2 : L.length % 2 ^ 16 = 1 := by omega
    simp only [kaa_channel_manager_bootstrap_request_get_size, example_new, kaa_list_get_size,
      Bool.not_false, if_true, gt_iff_lt, hpos, Nat.zero_add, e1, e2]
  have hs := serialize_fits example_env
    { transport_channels := L,
      sync_info :=
        { is_up_to_date := true, request_id := 0, payload_size := 524300,
          channel_count := 1 } }
    { written := [], room := 524308 } (by simp) (by simp) hcb
    (by
      have h8 : example_env.KAA_EXTENSION_HEADER_SIZE = 8 := rfl
      simp only [h8, hlen]
      omega)
  refine ⟨⟨0, 0, example_new, _, by decide, rfl⟩, ?_, ?_, ?_, ?_, ?_⟩
  · rw [hrun]
  · rw [hrun]
    simp only [hlen]
  · rw [hrun, hs]
  · rw [hrun, hs]
    simp [example_env]
  · rw [wire_channel_blocks_length, hlen]

/-! ## Serializing from the cache -/

/-- C4, counterexample.  First: create, add A, size query, add B, then
serialize without a new size query.  The state is reachable and holds 2
channels, the serializer succeeds, and it writes header length 12 and channel
count 1 (the values cached for one channel) followed by the blocks of both
channels, that is 2 blocks and 20 payload bytes.  Second: create, 65537 adds
of distinct descriptors, size query, serialize.  The cache is fresh, the
serializer succeeds and writes channel count 1 (65537 as a `uint16_t`)
followed by 65537 blocks. -/
theorem C4_stale_cache_counterexample :
    (kaa_reachable example_env
      (kaa_calls_run example_env example_new
        [kaa_call_t.add example_channel_a true true true, kaa_call_t.get_size,
          kaa_call_t.add example_channel_b true true true]) ∧
    (kaa_calls_run example_env example_new
      [kaa_call_t.add example_channel_a true true true, kaa_call_t.get_size,
        kaa_call_t.add example_channel_b true true true]).transport_channels.length = 2 ∧
    (kaa_channel_manager_bootstrap_request_serialize example_env
      (kaa_calls_run example_env example_new
        [kaa_call_t.add example_channel_a true true true, kaa_call_t.get_size,
          kaa_call_t.add example_channel_b true true true])
      example_writer).error_code = KAA_ERR_NONE ∧
    (kaa_channel_manager_bootstrap_request_serialize example_env
      (kaa_calls_run example_env example_new
        [kaa_call_t.add example_channel_a true true true, kaa_call_t.get_size,
          kaa_call_t.add example_channel_b true true true])
      example_writer).writer.written =
      kaa_written_t.extension_header 5 0 12 ::
        (wire_bootstrap_payload 1 1
          ([0, 0, 0, 2, 0, 1, 0, 0] ++ [0, 0, 0, 1, 0, 1, 0, 0])).map kaa_written_t.byte ∧
    (wire_bootstrap_payload 1 1
      ([0, 0, 0, 2, 0, 1, 0, 0] ++ [0, 0, 0, 1, 0, 1, 0, 0])).length = 20) ∧
    (kaa_reachable example_env
      (kaa_calls_run example_env example_new
        (example_adds example_many ++ [kaa_call_t.get_size])) ∧
    (kaa_calls_run example_env example_new
      (example_adds example_many ++ [kaa_call_t.get_size])).sync_info.is_up_to_date = true ∧
    (kaa_calls_run example_env example_new
      (example_adds example_many ++ [kaa_call_t.get_size])).transport_channels.length =
      example_many ∧
    (kaa_channel_manager_bootstrap_request_serialize example_env
      (kaa_calls_run example_env example_new
        (example_adds example_many ++ [kaa_call_t.get_size]))
      { written := [], room := 524308 }).error_code = KAA_ERR_NONE ∧
    (kaa_channel_manager_bootstrap_request_serialize example_env
      (kaa_calls_run example_env example_new
        (example_adds example_many ++ [kaa_call_t.get_size]))
      { written := [], room := 524308 }).writer.written =
      kaa_written_t.extension_header 5 0 524300 ::
        (wire_bootstrap_payload 1 1
          (wire_channel_blocks example_env
            ((List.range example_many).map example_wrapper_n).reverse)).map
              kaa_written_t.byte ∧
    (wire_channel_blocks example_env
      ((List.range example_many).map example_wrapper_n).reverse).length =
      8 * example_many) :=
  ⟨⟨⟨0, 0, example_new, _, by decide, rfl⟩, by decide, by decide, by decide, by decide⟩,
    example_adds_count_wraps_of example_many (by decide) (by decide)⟩

/-- C4, amended: in every state reachable from create by add, remove, size
query and serialize calls in which `is_up_to_date` is set and the registry
holds at most 65535 channels, whenever the serializer succeeds and writes
anything, it appends one header and a payload in which the channel count
field is the current number of channels, one 8-byte block follows per
channel, and the header length field is the number of payload bytes. -/
theorem C4_fresh_cache_serialize_consistent (env : kaa_environment_t)
    (self : kaa_channel_manager_t) (writer : kaa_platform_message_writer_t)
    (hreach : kaa_reachable env self)
    (hfresh : self.sync_info.is_up_to_date = true)
    (hn : self.transport_channels.length ≤ 65535)
    (hok : (kaa_channel_manager_bootstrap_request_serialize env self writer).error_code =
      KAA_ERR_NONE)
    (_hwrites : (kaa_channel_manager_bootstrap_request_serialize env self
      writer).writer.written ≠ writer.written) :
    (kaa_channel_manager_bootstrap_request_serialize env self writer).writer.written =
      writer.written ++
        kaa_written_t.extension_header env.KAA_BOOTSTRAP_EXTENSION_TYPE 0
            (wire_bootstrap_payload
              (kaa_channel_manager_bootstrap_request_serialize env self
                writer).self.sync_info.request_id
              self.transport_channels.length
              (wire_channel_blocks env self.transport_channels)).length ::
          (wire_bootstrap_payload
            (kaa_channel_manager_bootstrap_request_serialize env self
              writer).self.sync_info.request_id
            self.transport_channels.length
            (wire_channel_blocks env self.transport_channels)).map kaa_written_t.byte ∧
    (wire_channel_blocks env self.transport_channels).length =
      8 * self.transport_channels.length := by
  obtain ⟨hpos, hcount, hpayload⟩ := kaa_reachable_cache_accurate env self hreach hfresh
  have hc : self.sync_info.channel_count = self.transport_channels.length := by
    rw [hcount]
    omega
  have hp : self.sync_info.payload_size = 4 + 8 * self.transport_channels.length := by
    rw [hpayload]
    omega
  have hw := serialize_none_written env self writer (by omega) (by omega) hok
  have hrid : (kaa_channel_manager_bootstrap_request_serialize env self
      writer).self.sync_info.request_id = (self.sync_info.request_id + 1) % 2 ^ 16 := by
    have hh : env.KAA_EXTENSION_HEADER_SIZE ≤ writer.room := by
      by_contra hno
      simp [kaa_channel_manager_bootstrap_request_serialize, hp, hc, hpos,
        kaa_platform_message_write_extension_header, hno] at hok
    unfold kaa_channel_manager_bootstrap_request_serialize
    have hguard : self.sync_info.payload_size > 0 ∧ self.sync_info.channel_count > 0 :=
      ⟨by omega, by omega⟩
    simp only [hguard, and_self, if_true, kaa_platform_message_write_extension_header, hh,
      ne_eq, not_true_eq_false, if_false]
    split
    · rfl
    · split
      · rfl
      · rfl
  refine ⟨?_, wire_channel_blocks_length env _⟩
  rw [hw, hrid, hc, hp]
  simp only [wire_bootstrap_payload, List.length_append, List.length_cons, List.length_nil,
    wire_channel_blocks_length, List.append_cancel_left_eq, List.cons.injEq, and_true,
    kaa_written_t.extension_header.injEq, true_and]

/-- C4, amended, witness: create, add A, size query, add B, size query; the
serializer then writes header length 20, channel count 2 and two blocks. -/
theorem C4_fresh_cache_serialize_consistent_witness :
    (kaa_channel_manager_bootstrap_request_serialize example_env
      (kaa_calls_run example_env example_new
        [kaa_call_t.add example_channel_a true true true, kaa_call_t.get_size,
          kaa_call_t.add example_channel_b true true true, kaa_call_t.get_size])
      example_writer).writer.written =
      kaa_written_t.extension_header 5 0 20 ::
        (wire_bootstrap_payload 1 2
          ([0, 0, 0, 2, 0, 1, 0, 0] ++ [0, 0, 0, 1, 0, 1, 0, 0])).map kaa_written_t.byte :=
  (C4_fresh_cache_serialize_consistent example_env
    (kaa_calls_run example_env example_new
      [kaa_call_t.add example_channel_a true true true, kaa_call_t.get_size,
        kaa_call_t.add example_channel_b true true true, kaa_call_t.get_size])
    example_writer ⟨0, 0, example_new, _, by decide, rfl⟩ (by decide) (by decide) (by decide)
    (by decide)).1.trans (by decide)

/-- C5, evaluated on the code: create, add A, size query, remove A, size
query.  The registry is reachable and empty and the last size query returns
0, but the serializer that follows still finds the payload size 12 and the
channel count 1 cached for the removed channel: it succeeds and writes a
header of length 12, request id 1 and channel count 1, and no block. -/
theorem C5_emptied_registry_still_serializes :
    kaa_reachable example_env
      (kaa_calls_run example_env example_new
        [kaa_call_t.add example_channel_a true true true, kaa_call_t.get_size,
          kaa_call_t.remove 3814582951]) ∧
    (kaa_calls_run example_env example_new
      [kaa_call_t.add example_channel_a true true true, kaa_call_t.get_size,
        kaa_call_t.remove 3814582951]).transport_channels = [] ∧
    (kaa_channel_manager_bootstrap_request_get_size example_env
      (kaa_calls_run example_env example_new
        [kaa_call_t.add example_channel_a true true true, kaa_call_t.get_size,
          kaa_call_t.remove 3814582951])).expected_size = 0 ∧
    (kaa_channel_manager_bootstrap_request_serialize example_env
      (kaa_channel_manager_bootstrap_request_get_size example_env
        (kaa_calls_run example_env example_new
          [kaa_call_t.add example_channel_a true true true, kaa_call_t.get_size,
            kaa_call_t.remove 3814582951])).self
      example_writer).error_code = KAA_ERR_NONE ∧
    (kaa_channel_manager_bootstrap_request_serialize example_env
      (kaa_channel_manager_bootstrap_request_get_size example_env
        (kaa_calls_run example_env example_new
          [kaa_call_t.add example_channel_a true true true, kaa_call_t.get_size,
            kaa_call_t.remove 3814582951])).self
      example_writer).writer.written =
      [kaa_written_t.extension_header 5 0 12, kaa_written_t.byte 0, kaa_written_t.byte 1,
        kaa_written_t.byte 0, kaa_written_t.byte 1] :=
  ⟨⟨0, 0, example_new, _, by decide, rfl⟩, by decide, by decide, by decide, by decide⟩

/-! ## Registry operations -/

/-- C6: when the identity computed for the descriptor is the `channel_id` of
an entry already in the registry, add returns `KAA_ERR_ALREADY_EXISTS`, stores
nothing through `channel_id` and leaves the manager as it was: the entry list
and all four fields of the sync state. -/
theorem C6_add_duplicate_rejected (self : kaa_channel_manager_t)
    (channel : kaa_transport_channel_interface_t) (channel_id_given malloc_ok list_ok : Bool)
    (h : ∃ cw ∈ self.transport_channels,
      cw.channel_id = (kaa_transport_channel_id_calculate channel).2) :
    (kaa_channel_manager_add_transport_channel self channel channel_id_given malloc_ok
      list_ok).error_code = KAA_ERR_ALREADY_EXISTS ∧
    (kaa_channel_manager_add_transport_channel self channel channel_id_given malloc_ok
      list_ok).self.transport_channels = self.transport_channels ∧
    (kaa_channel_manager_add_transport_channel self channel channel_id_given malloc_ok
      list_ok).self.sync_info = self.sync_info ∧
    (kaa_channel_manager_add_transport_channel self channel channel_id_given malloc_ok
      list_ok).channel_id = none := by
  rw [add_duplicate self channel channel_id_given malloc_ok list_ok h]
  exact ⟨rfl, rfl, rfl, rfl⟩

/-- C6, witness: adding channel A a second time, after a size query made the
cache fresh, is rejected and changes nothing. -/
theorem C6_add_duplicate_rejected_witness :
    (kaa_channel_manager_add_transport_channel
      (kaa_calls_run example_env example_new
        [kaa_call_t.add example_channel_a true true true, kaa_call_t.get_size])
      example_channel_a true true true).error_code = KAA_ERR_ALREADY_EXISTS ∧
    (kaa_channel_manager_add_transport_channel
      (kaa_calls_run example_env example_new
        [kaa_call_t.add example_channel_a true true true, kaa_call_t.get_size])
      example_channel_a true true true).self.sync_info =
      { is_up_to_date := true, request_id := 0, payload_size := 12, channel_count := 1 } :=
  have h := C6_add_duplicate_rejected
    (kaa_calls_run example_env example_new
      [kaa_call_t.add example_channel_a true true true, kaa_call_t.get_size])
    example_channel_a true true true
    ⟨{ channel_id := 3814582951, channel := example_channel_a }, by decide, by decide⟩
  ⟨h.1, h.2.2.1.trans (by decide)⟩

/-- C7: when the identity computed for the descriptor matches no entry and
both allocations succeed, add returns `KAA_ERR_NONE`, stores the identity
computed by `kaa_transport_channel_id_calculate` through a non-null
`channel_id`, puts the new entry (that identity with a copy of the descriptor)
in front of the previous entries, which keep their order, clears
`is_up_to_date` and leaves `request_id` unchanged. -/
theorem C7_add_inserts_at_front (self : kaa_channel_manager_t)
    (channel : kaa_transport_channel_interface_t) (channel_id_given : Bool)
    (h : ∀ cw ∈ self.transport_channels,
      cw.channel_id ≠ (kaa_transport_channel_id_calculate channel).2) :
    (kaa_channel_manager_add_transport_channel self channel channel_id_given true
      true).error_code = KAA_ERR_NONE ∧
    (channel_id_given = true →
      (kaa_channel_manager_add_transport_channel self channel channel_id_given true
        true).channel_id = some (kaa_transport_channel_id_calculate channel).2) ∧
    (kaa_channel_manager_add_transport_channel self channel channel_id_given true
      true).self.transport_channels =
      { channel_id := (kaa_transport_channel_id_calculate channel).2, channel := channel } ::
        self.transport_channels ∧
    (kaa_channel_manager_add_transport_channel self channel channel_id_given true
      true).self.sync_info.is_up_to_date = false ∧
    (kaa_channel_manager_add_transport_channel self channel channel_id_given true
      true).self.sync_info.request_id = self.sync_info.request_id := by
  rw [add_fresh self channel channel_id_given h]
  refine ⟨rfl, ?_, rfl, rfl, rfl⟩
  intro hg
  simp [hg]

/-- C7, witness: adding channel B to the registry that holds channel A puts B
first and A second and reports the identity of B. -/
theorem C7_add_inserts_at_front_witness :
    (kaa_channel_manager_add_transport_channel
      (kaa_calls_run example_env example_new
        [kaa_call_t.add example_channel_a true true true, kaa_call_t.get_size])
      example_channel_b true true true).channel_id = some 3302388022 ∧
    (kaa_channel_manager_add_transport_channel
      (kaa_calls_run example_env example_new
        [kaa_call_t.add example_channel_a true true true, kaa_call_t.get_size])
      example_channel_b true true true).self.transport_channels =
      [{ channel_id := 3302388022, channel := example_channel_b },
        { channel_id := 3814582951, channel := example_channel_a }] :=
  have h := C7_add_inserts_at_front
    (kaa_calls_run example_env example_new
      [kaa_call_t.add example_channel_a true true true, kaa_call_t.get_size])
    example_channel_b true (by decide)
  ⟨(h.2.1 rfl).trans (by decide), h.2.2.1.trans (by decide)⟩

/-- C8: when the identity is the `channel_id` of no entry, remove fails with
`KAA_ERR_NOT_FOUND`, leaves the entries and the sync state (`is_up_to_date`
included) unchanged and invokes no release hook. -/
theorem C8_remove_absent_not_found (self : kaa_channel_manager_t) (channel_id : Nat)
    (h : ∀ cw ∈ self.transport_channels, cw.channel_id ≠ channel_id) :
    (kaa_channel_manager_remove_transport_channel self channel_id).error_code =
      KAA_ERR_NOT_FOUND ∧
    (kaa_channel_manager_remove_transport_channel self channel_id).self.transport_channels =
      self.transport_channels ∧
    (kaa_channel_manager_remove_transport_channel self channel_id).self.sync_info =
      self.sync_info ∧
    (kaa_channel_manager_remove_transport_channel self channel_id).released = [] := by
  rw [remove_absent self channel_id h]
  exact ⟨rfl, rfl, rfl, rfl⟩

/-- C8, witness: removing the identity 7 from the registry that holds channel
A, with a fresh cache, fails and keeps the cache fresh. -/
theorem C8_remove_absent_not_found_witness :
    (kaa_channel_manager_remove_transport_channel
      (kaa_calls_run example_env example_new
        [kaa_call_t.add example_channel_a true true true, kaa_call_t.get_size])
      7).error_code = KAA_ERR_NOT_FOUND ∧
    (kaa_channel_manager_remove_transport_channel
      (kaa_calls_run example_env example_new
        [kaa_call_t.add example_channel_a true true true, kaa_call_t.get_size])
      7).self.sync_info =
      { is_up_to_date := true, request_id := 0, payload_size := 12, channel_count := 1 } :=
  have h := C8_remove_absent_not_found
    (kaa_calls_run example_env example_new
      [kaa_call_t.add example_channel_a true true true, kaa_call_t.get_size]) 7 (by decide)
  ⟨h.1, h.2.2.1.trans (by decide)⟩

/-- C9: when the identity is present, the registry splits at the first entry
`w` that carries it; remove returns `KAA_ERR_NONE`, leaves exactly the other
entries in their previous order, invokes the release hook of `w` once on its
context when that hook is set and no other hook, and clears `is_up_to_date`
(the other sync fields are unchanged). -/
theorem C9_remove_first_match (self : kaa_channel_manager_t) (channel_id : Nat)
    (h : ∃ cw ∈ self.transport_channels, cw.channel_id = channel_id) :
    ∃ (pre : List kaa_transport_channel_wrapper_t) (w : kaa_transport_channel_wrapper_t)
      (post : List kaa_transport_channel_wrapper_t),
      self.transport_channels = pre ++ w :: post ∧
      (∀ cw ∈ pre, cw.channel_id ≠ channel_id) ∧
      w.channel_id = channel_id ∧
      (kaa_channel_manager_remove_transport_channel self channel_id).error_code =
        KAA_ERR_NONE ∧
      (kaa_channel_manager_remove_transport_channel self channel_id).self.transport_channels =
        pre ++ post ∧
      (kaa_channel_manager_remove_transport_channel self channel_id).released =
        (if w.channel.release_context ≠ 0 then
          [{ release_context := w.channel.release_context, context := w.channel.context }]
        else []) ∧
      (kaa_channel_manager_remove_transport_channel self channel_id).self.sync_info =
        { self.sync_info with is_up_to_date := false } := by
  obtain ⟨pre, w, post, hsplit, hpre, hw⟩ :=
    list_first_match_split (fun cw => find_channel cw channel_id) self.transport_channels
      (by
        obtain ⟨cw, hcw, hid⟩ := h
        exact ⟨cw, hcw, by simp [find_channel, hid]⟩)
  have hpre2 : ∀ cw ∈ pre, cw.channel_id ≠ channel_id :=
    fun cw hcw => by simpa [find_channel] using hpre cw hcw
  have hw2 : w.channel_id = channel_id := by simpa [find_channel] using hw
  refine ⟨pre, w, post, hsplit, hpre2, hw2, ?_⟩
  rw [remove_present self channel_id pre w post hsplit hpre2 hw2]
  exact ⟨rfl, rfl, rfl, rfl⟩

/-- C9, witness: removing the identity of channel A from the registry B, A
with a fresh cache leaves B, invokes the release hook of A (address 401) on
its context 4096, and clears `is_up_to_date`. -/
theorem C9_remove_first_match_witness :
    (kaa_channel_manager_remove_transport_channel
      (kaa_calls_run example_env example_new
        [kaa_call_t.add example_channel_a true true true,
          kaa_call_t.add example_channel_b true true true, kaa_call_t.get_size])
      3814582951).error_code = KAA_ERR_NONE ∧
    (kaa_channel_manager_remove_transport_channel
      (kaa_calls_run example_env example_new
        [kaa_call_t.add example_channel_a true true true,
          kaa_call_t.add example_channel_b true true true, kaa_call_t.get_size])
      3814582951).self.transport_channels =
      [{ channel_id := 3302388022, channel := example_channel_b }] ∧
    (kaa_channel_manager_remove_transport_channel
      (kaa_calls_run example_env example_new
        [kaa_call_t.add example_channel_a true true true,
          kaa_call_t.add example_channel_b true true true, kaa_call_t.get_size])
      3814582951).released = [{ release_context := 401, context := 4096 }] ∧
    (kaa_channel_manager_remove_transport_channel
      (kaa_calls_run example_env example_new
        [kaa_call_t.add example_channel_a true true true,
          kaa_call_t.add example_channel_b true true true, kaa_call_t.get_size])
      3814582951).self.sync_info =
      { is_up_to_date := false, request_id := 0, payload_size := 20, channel_count := 2 } :=
  match C9_remove_first_match
    (kaa_calls_run example_env example_new
      [kaa_call_t.add example_channel_a true true true,
        kaa_call_t.add example_channel_b true true true, kaa_call_t.get_size])
    3814582951
    ⟨{ channel_id := 3814582951, channel := example_channel_a }, by decide, by decide⟩ with
  | ⟨_, _, _, _, _, _, herr, _, _, hsync⟩ => ⟨herr, by decide, by decide, hsync.trans (by decide)⟩

/-! ## Service lookup -/

theorem kaa_services_scan_eq (service_type : Nat) (services : List Nat) :
    kaa_services_scan service_type services = decide (service_type ∈ services) := by
  induction services with
  | nil => simp [kaa_services_scan]
  | cons s rest ih =>
    by_cases hs : s = service_type
    · simp [kaa_services_scan, hs]
    · have hs2 : ¬ service_type = s := fun e => hs e.symm
      simp [kaa_services_scan, hs, hs2, ih]

theorem lookup_loop_step (env : kaa_environment_t) (service_type fuel : Nat)
    (cw : kaa_transport_channel_wrapper_t) (rest : List kaa_transport_channel_wrapper_t)
    (h1 : (env.call_get_supported_services cw.channel.get_supported_services
      cw.channel.context).1 = KAA_ERR_NONE)
    (h2 : (env.call_get_supported_services cw.channel.get_supported_services
      cw.channel.context).2 ≠ none)
    (h3 : (env.call_get_supported_services cw.channel.get_supported_services
      cw.channel.context).2 ≠ some []) :
    kaa_channel_manager_get_transport_channel_loop env service_type (fuel + 1) (cw :: rest) =
      if channel_supports_service env service_type cw then some (some cw.channel)
      else kaa_channel_manager_get_transport_channel_loop env service_type fuel rest := by
  rw [kaa_channel_manager_get_transport_channel_loop]
  unfold channel_supports_service
  rcases hr : env.call_get_supported_services cw.channel.get_supported_services
    cw.channel.context with ⟨e, o⟩
  rw [hr] at h1 h2 h3
  simp only at h1 h2 h3
  subst h1
  cases o with
  | none => exact absurd rfl h2
  | some services =>
    cases services with
    | nil => exact absurd rfl h3
    | cons s ss => simp only [kaa_services_scan_eq]

theorem lookup_loop_all_ok (env : kaa_environment_t) (service_type : Nat)
    (l : List kaa_transport_channel_wrapper_t) :
    ∀ fuel : Nat,
      (∀ cw ∈ l,
        (env.call_get_supported_services cw.channel.get_supported_services
          cw.channel.context).1 = KAA_ERR_NONE ∧
        (env.call_get_supported_services cw.channel.get_supported_services
          cw.channel.context).2 ≠ none ∧
        (env.call_get_supported_services cw.channel.get_supported_services
          cw.channel.context).2 ≠ some []) →
      l.length < fuel →
      kaa_channel_manager_get_transport_channel_loop env service_type fuel l =
        some ((l.find? (channel_supports_service env service_type)).map
          kaa_transport_channel_wrapper_t.channel) := by
  induction l with
  | nil =>
    intro fuel _ hf
    cases fuel with
    | zero => exact absurd hf (by simp)
    | succ k => simp [kaa_channel_manager_get_transport_channel_loop]
  | cons cw rest ih =>
    intro fuel hok hf
    cases fuel with
    | zero => exact absurd hf (by simp)
    | succ k =>
      obtain ⟨h1, h2, h3⟩ := hok cw (List.mem_cons_self _ _)
      rw [lookup_loop_step env service_type k cw rest h1 h2 h3]
      cases hs : channel_supports_service env service_type cw with
      | true => simp [List.find?_cons, hs]
      | false =>
        have hrest := ih k (fun x hx => hok x (List.mem_cons_of_mem _ hx))
          (by simp only [List.length_cons] at hf; omega)
        simp [List.find?_cons, hs, hrest]

/-- C10: on a registry in which every `get_supported_services` call succeeds
with a non-empty list, the lookup, given fuel for one more loop test than
there are entries, returns the descriptor of the first entry in registry
order whose list contains the service, and `NULL` if there is none.  Registry
order is most recently added first: after a successful add of a descriptor
whose own call succeeds with a non-empty list, the lookup returns that
descriptor if its list contains the service and otherwise what the lookup
returned before the add. -/
theorem C10_lookup_most_recent (env : kaa_environment_t) (self : kaa_channel_manager_t)
    (service_type fuel : Nat)
    (hok : ∀ cw ∈ self.transport_channels,
      (env.call_get_supported_services cw.channel.get_supported_services
        cw.channel.context).1 = KAA_ERR_NONE ∧
      (env.call_get_supported_services cw.channel.get_supported_services
        cw.channel.context).2 ≠ none ∧
      (env.call_get_supported_services cw.channel.get_supported_services
        cw.channel.context).2 ≠ some [])
    (hfuel : self.transport_channels.length < fuel) :
    kaa_channel_manager_get_transport_channel env fuel self service_type =
      some ((self.transport_channels.find? (channel_supports_service env service_type)).map
        kaa_transport_channel_wrapper_t.channel) ∧
    ((∀ cw ∈ self.transport_channels, channel_supports_service env service_type cw = false) →
      kaa_channel_manager_get_transport_channel env fuel self service_type = some none) ∧
    (∀ (channel : kaa_transport_channel_interface_t)
        (channel_id_given malloc_ok list_ok : Bool),
      (kaa_channel_manager_add_transport_channel self channel channel_id_given malloc_ok
        list_ok).error_code = KAA_ERR_NONE →
      (env.call_get_supported_services channel.get_supported_services channel.context).1 =
        KAA_ERR_NONE →
      (env.call_get_supported_services channel.get_supported_services channel.context).2 ≠
        none →
      (env.call_get_supported_services channel.get_supported_services channel.context).2 ≠
        some [] →
      kaa_channel_manager_get_transport_channel env (fuel + 1)
          (kaa_channel_manager_add_transport_channel self channel channel_id_given malloc_ok
            list_ok).self service_type =
        if channel_supports_service env service_type
            { channel_id := (kaa_transport_channel_id_calculate channel).2, channel := channel }
        then some (some channel)
        else kaa_channel_manager_get_transport_channel env fuel self service_type) := by
  have hmain := lookup_loop_all_ok env service_type self.transport_channels fuel hok hfuel
  refine ⟨hmain, ?_, ?_⟩
  · intro hnone
    unfold kaa_channel_manager_get_transport_channel
    rw [hmain]
    have : self.transport_channels.find? (channel_supports_service env service_type) = none := by
      rw [List.find?_eq_none]
      intro x hx
      simp [hnone x hx]
    rw [this]
    rfl
  · intro channel g m l hadd h1 h2 h3
    obtain ⟨hfresh, hm, hl⟩ := add_none_inv self channel g m l hadd
    subst hm
    subst hl
    rw [add_fresh self channel g hfresh]
    unfold kaa_channel_manager_get_transport_channel
    simp only
    exact lookup_loop_step env service_type fuel
      { channel_id := (kaa_transport_channel_id_calculate channel).2, channel := channel }
      self.transport_channels h1 h2 h3

/-- C10, witness: add A then B, both supporting service 2: the lookup returns
the descriptor of B; after removing the identity of B it returns that of A. -/
theorem C10_lookup_most_recent_witness :
    kaa_channel_manager_get_transport_channel example_env 3
        (kaa_calls_run example_env example_new
          [kaa_call_t.add example_channel_a true true true,
            kaa_call_t.add example_channel_b true true true]) 2 =
      some (some example_channel_b) ∧
    kaa_channel_manager_get_transport_channel example_env 3
        (kaa_calls_run example_env example_new
          [kaa_call_t.add example_channel_a true true true,
            kaa_call_t.add example_channel_b true true true,
            kaa_call_t.remove 3302388022]) 2 =
      some (some example_channel_a) :=
  ⟨(C10_lookup_most_recent example_env
      (kaa_calls_run example_env example_new
        [kaa_call_t.add example_channel_a true true true,
          kaa_call_t.add example_channel_b true true true]) 2 3 (by decide) (by decide)).1.trans
      (by decide),
    (C10_lookup_most_recent example_env
      (kaa_calls_run example_env example_new
        [kaa_call_t.add example_channel_a true true true,
          kaa_call_t.add example_channel_b true true true,
          kaa_call_t.remove 3302388022]) 2 3 (by decide) (by decide)).1.trans (by decide)⟩

theorem lookup_loop_stuck (env : kaa_environment_t) (service_type : Nat)
    (cw : kaa_transport_channel_wrapper_t) (rest : List kaa_transport_channel_wrapper_t)
    (h : (env.call_get_supported_services cw.channel.get_supported_services
        cw.channel.context).1 ≠ KAA_ERR_NONE ∨
      (env.call_get_supported_services cw.channel.get_supported_services
        cw.channel.context).2 = none ∨
      (env.call_get_supported_services cw.channel.get_supported_services
        cw.channel.context).2 = some []) :
    ∀ fuel : Nat,
      kaa_channel_manager_get_transport_channel_loop env service_type fuel (cw :: rest) =
        none := by
  intro fuel
  induction fuel with
  | zero => rfl
  | succ k ih =>
    rw [kaa_channel_manager_get_transport_channel_loop]
    rcases hr : env.call_get_supported_services cw.channel.get_supported_services
      cw.channel.context with ⟨e, o⟩
    rw [hr] at h
    simp only at h
    cases e <;> cases o with
    | none => simpa using ih
    | some services =>
      cases services with
      | nil => simpa using ih
      | cons s ss =>
        first
        | simpa using ih
        | exact absurd h (by simp)

/-- C11, evaluated on the code: add A (services 1 and 2), then add D, whose
`get_supported_services` call fails.  The registry is D, A and A supports
service 1, but the failure branch executes `continue` without advancing the
list position, so the loop tests D again and again: whatever the fuel, the
lookup of service 1 has not returned, neither A nor `NULL`. -/
theorem C11_lookup_spins_on_failing_entry :
    (kaa_calls_run example_env example_new
      [kaa_call_t.add example_channel_a true true true,
        kaa_call_t.add example_channel_d true true true]).transport_channels.map
          kaa_transport_channel_wrapper_t.channel = [example_channel_d, example_channel_a] ∧
    (example_env.call_get_supported_services example_channel_d.get_supported_services
      example_channel_d.context).1 = KAA_ERR_BADDATA ∧
    (example_env.call_get_supported_services example_channel_a.get_supported_services
      example_channel_a.context) = (KAA_ERR_NONE, some [1, 2]) ∧
    ∀ fuel : Nat,
      kaa_channel_manager_get_transport_channel example_env fuel
        (kaa_calls_run example_env example_new
          [kaa_call_t.add example_channel_a true true true,
            kaa_call_t.add example_channel_d true true true]) 1 = none := by
  refine ⟨by decide, by decide, by decide, ?_⟩
  intro fuel
  have hl : (kaa_calls_run example_env example_new
      [kaa_call_t.add example_channel_a true true true,
        kaa_call_t.add example_channel_d true true true]).transport_channels =
      [{ channel_id := (kaa_transport_channel_id_calculate example_channel_d).2,
          channel := example_channel_d },
        { channel_id := (kaa_transport_channel_id_calculate example_channel_a).2,
          channel := example_channel_a }] := by decide
  unfold kaa_channel_manager_get_transport_channel
  rw [hl]
  exact lookup_loop_stuck example_env 1 _ _ (Or.inl (by decide)) fuel

/-! ## Identities along call sequences -/

theorem get_size_list (env : kaa_environment_t) (self : kaa_channel_manager_t) :
    (kaa_channel_manager_bootstrap_request_get_size env self).self.transport_channels =
      self.transport_channels := by
  unfold kaa_channel_manager_bootstrap_request_get_size
  simp only
  split
  · split
    · rfl
    · rfl
  · rfl

theorem add_list_cases (self : kaa_channel_manager_t)
    (channel : kaa_transport_channel_interface_t) (channel_id_given malloc_ok list_ok : Bool) :
    (kaa_channel_manager_add_transport_channel self channel channel_id_given malloc_ok
      list_ok).self.transport_channels = self.transport_channels ∨
    ((∀ cw ∈ self.transport_channels,
        cw.channel_id ≠ (kaa_transport_channel_id_calculate channel).2) ∧
      (kaa_channel_manager_add_transport_channel self channel channel_id_given malloc_ok
        list_ok).self.transport_channels =
        { channel_id := (kaa_transport_channel_id_calculate channel).2, channel := channel } ::
          self.transport_channels) := by
  by_cases hok : (kaa_channel_manager_add_transport_channel self channel channel_id_given
      malloc_ok list_ok).error_code = KAA_ERR_NONE
  · obtain ⟨hfresh, hm, hl⟩ := add_none_inv self channel channel_id_given malloc_ok list_ok hok
    subst hm
    subst hl
    right
    refine ⟨hfresh, ?_⟩
    rw [add_fresh self channel channel_id_given hfresh]
  · left
    unfold kaa_channel_manager_add_transport_channel at hok ⊢
    simp only at hok ⊢
    split
    · rfl
    · rename_i hnone
      rw [hnone] at hok
      simp only at hok
      split
      · rfl
      · rename_i hm
        rw [if_neg hm] at hok
        split
        · rfl
        · rename_i it hit
          rw [hit] at hok
          exact absurd rfl hok

theorem remove_list_cases (self : kaa_channel_manager_t) (channel_id : Nat) :
    ((∀ cw ∈ self.transport_channels, cw.channel_id ≠ channel_id) ∧
      (kaa_channel_manager_remove_transport_channel self channel_id).self = self) ∨
    (∃ (pre : List kaa_transport_channel_wrapper_t) (w : kaa_transport_channel_wrapper_t)
        (post : List kaa_transport_channel_wrapper_t),
      self.transport_channels = pre ++ w :: post ∧
      (∀ cw ∈ pre, cw.channel_id ≠ channel_id) ∧
      w.channel_id = channel_id ∧
      (kaa_channel_manager_remove_transport_channel self channel_id).error_code =
        KAA_ERR_NONE ∧
      (kaa_channel_manager_remove_transport_channel self channel_id).self.transport_channels =
        pre ++ post) := by
  by_cases h : ∃ cw ∈ self.transport_channels, cw.channel_id = channel_id
  · right
    obtain ⟨pre, w, post, hsplit, hpre, hw⟩ :=
      list_first_match_split (fun cw => find_channel cw channel_id) self.transport_channels
        (by
          obtain ⟨cw, hcw, hid⟩ := h
          exact ⟨cw, hcw, by simp [find_channel, hid]⟩)
    have hpre2 : ∀ cw ∈ pre, cw.channel_id ≠ channel_id :=
      fun cw hcw => by simpa [find_channel] using hpre cw hcw
    have hw2 : w.channel_id = channel_id := by simpa [find_channel] using hw
    refine ⟨pre, w, post, hsplit, hpre2, hw2, ?_⟩
    rw [remove_present self channel_id pre w post hsplit hpre2 hw2]
    exact ⟨rfl, rfl⟩
  · left
    push_neg at h
    exact ⟨h, by rw [remove_absent self channel_id h]⟩

theorem ids_nodup_step (env : kaa_environment_t) (self : kaa_channel_manager_t)
    (call : kaa_call_t)
    (h : (self.transport_channels.map kaa_transport_channel_wrapper_t.channel_id).Nodup) :
    ((kaa_call_apply env self call).transport_channels.map
      kaa_transport_channel_wrapper_t.channel_id).Nodup := by
  cases call with
  | add channel g m l =>
    simp only [kaa_call_apply]
    rcases add_list_cases self channel g m l with e | ⟨hfresh, e⟩
    · rw [e]
      exact h
    · rw [e]
      simp only [List.map_cons, List.nodup_cons, List.mem_map, not_exists, not_and]
      exact ⟨fun cw hcw => hfresh cw hcw, h⟩
  | remove channel_id =>
    simp only [kaa_call_apply]
    rcases remove_list_cases self channel_id with ⟨_, e⟩ | ⟨pre, w, post, hsplit, _, _, _, e⟩
    · rw [e]
      exact h
    · rw [e]
      rw [hsplit] at h
      exact List.Nodup.sublist
        (List.Sublist.map _ ((List.Sublist.refl pre).append (List.sublist_cons_self w post))) h
  | get_size =>
    simp only [kaa_call_apply]
    rw [get_size_list]
    exact h
  | serialize writer =>
    simp only [kaa_call_apply]
    rw [(serialize_frame env self writer).1]
    exact h

theorem ids_nodup_run (env : kaa_environment_t) (calls : List kaa_call_t) :
    ∀ self : kaa_channel_manager_t,
      (self.transport_channels.map kaa_transport_channel_wrapper_t.channel_id).Nodup →
      ((kaa_calls_run env self calls).transport_channels.map
        kaa_transport_channel_wrapper_t.channel_id).Nodup := by
  induction calls with
  | nil => intro self h; exact h
  | cons call rest ih =>
    intro self h
    simp only [kaa_calls_run, List.foldl_cons]
    exact ih _ (ids_nodup_step env self call h)

theorem ids_count_step (env : kaa_environment_t) (self : kaa_channel_manager_t)
    (call : kaa_call_t) (id : Nat) (hcall : call ≠ kaa_call_t.remove id)
    (h : (self.transport_channels.map kaa_transport_channel_wrapper_t.channel_id).count id =
      1) :
    ((kaa_call_apply env self call).transport_channels.map
      kaa_transport_channel_wrapper_t.channel_id).count id = 1 := by
  have hmem : id ∈ self.transport_channels.map kaa_transport_channel_wrapper_t.channel_id := by
    rw [← List.count_pos_iff]
    omega
  cases call with
  | add channel g m l =>
    simp only [kaa_call_apply]
    rcases add_list_cases self channel g m l with e | ⟨hfresh, e⟩
    · rw [e]
      exact h
    · rw [e]
      have hne : (kaa_transport_channel_id_calculate channel).2 ≠ id := by
        intro heq
        obtain ⟨cw, hcw, hid⟩ := List.mem_map.mp hmem
        exact hfresh cw hcw (hid.trans heq.symm)
      simp only [List.map_cons]
      rw [List.count_cons_of_ne (Ne.symm hne)]
      exact h
  | remove channel_id =>
    simp only [kaa_call_apply]
    have hne : channel_id ≠ id := fun e => hcall (by rw [e])
    rcases remove_list_cases self channel_id with ⟨_, e⟩ | ⟨pre, w, post, hsplit, _, hw, _, e⟩
    · rw [e]
      exact h
    · rw [e]
      rw [hsplit] at h
      simp only [List.map_append, List.map_cons, List.count_append] at h ⊢
      rw [List.count_cons_of_ne (by rw [hw]; exact Ne.symm hne)] at h
      exact h
  | get_size =>
    simp only [kaa_call_apply]
    rw [get_size_list]
    exact h
  | serialize writer =>
    simp only [kaa_call_apply]
    rw [(serialize_frame env self writer).1]
    exact h

theorem ids_count_run (env : kaa_environment_t) (id : Nat) (calls : List kaa_call_t) :
    ∀ self : kaa_channel_manager_t,
      (∀ c ∈ calls, c ≠ kaa_call_t.remove id) →
      (self.transport_channels.map kaa_transport_channel_wrapper_t.channel_id).count id = 1 →
      ((kaa_calls_run env self calls).transport_channels.map
        kaa_transport_channel_wrapper_t.channel_id).count id = 1 := by
  induction calls with
  | nil => intro self _ h; exact h
  | cons call rest ih =>
    intro self hc h
    simp only [kaa_calls_run, List.foldl_cons]
    exact ih _ (fun c hcm => hc c (List.mem_cons_of_mem _ hcm))
      (ids_count_step env self call id (hc call (List.mem_cons_self _ _)) h)

theorem remove_counted_once (self : kaa_channel_manager_t) (id : Nat)
    (h : (self.transport_channels.map kaa_transport_channel_wrapper_t.channel_id).count id =
      1) :
    (kaa_channel_manager_remove_transport_channel self id).error_code = KAA_ERR_NONE ∧
    ((kaa_channel_manager_remove_transport_channel self id).self.transport_channels.map
      kaa_transport_channel_wrapper_t.channel_id).count id = 0 := by
  rcases remove_list_cases self id with ⟨habs, _⟩ | ⟨pre, w, post, hsplit, hpre, hw, hok, e⟩
  · exfalso
    have hmem : id ∈ self.transport_channels.map
        kaa_transport_channel_wrapper_t.channel_id := by
      rw [← List.count_pos_iff]
      omega
    obtain ⟨cw, hcw, hid⟩ := List.mem_map.mp hmem
    exact habs cw hcw hid
  · refine ⟨hok, ?_⟩
    rw [e]
    rw [hsplit] at h
    simp only [List.map_append, List.map_cons, List.count_append] at h ⊢
    rw [hw, List.count_cons_self] at h
    omega

/-- C12: in every state reachable from create by add, remove, size query and
serialize calls the `channel_id`s of the entries are pairwise distinct; and
an identity that a successful add stores through `channel_id` is the
`channel_id` of exactly one entry after any further calls among which there
is no remove of that identity, a remove of it then succeeds, and after that
remove no entry carries it. -/
theorem C12_identities_distinct_and_findable (env : kaa_environment_t)
    (self : kaa_channel_manager_t) (hreach : kaa_reachable env self) :
    (self.transport_channels.map kaa_transport_channel_wrapper_t.channel_id).Nodup ∧
    ∀ (channel : kaa_transport_channel_interface_t)
      (channel_id_given malloc_ok list_ok : Bool) (id : Nat),
      (kaa_channel_manager_add_transport_channel self channel channel_id_given malloc_ok
        list_ok).error_code = KAA_ERR_NONE →
      (kaa_channel_manager_add_transport_channel self channel channel_id_given malloc_ok
        list_ok).channel_id = some id →
      ∀ calls : List kaa_call_t, (∀ c ∈ calls, c ≠ kaa_call_t.remove id) →
        ((kaa_calls_run env
          (kaa_channel_manager_add_transport_channel self channel channel_id_given malloc_ok
            list_ok).self calls).transport_channels.map
            kaa_transport_channel_wrapper_t.channel_id).count id = 1 ∧
        (kaa_channel_manager_remove_transport_channel
          (kaa_calls_run env
            (kaa_channel_manager_add_transport_channel self channel channel_id_given
              malloc_ok list_ok).self calls) id).error_code = KAA_ERR_NONE ∧
        ((kaa_channel_manager_remove_transport_channel
          (kaa_calls_run env
            (kaa_channel_manager_add_transport_channel self channel channel_id_given
              malloc_ok list_ok).self calls) id).self.transport_channels.map
            kaa_transport_channel_wrapper_t.channel_id).count id = 0 := by
  refine ⟨?_, ?_⟩
  · obtain ⟨p, c, self0, calls, hcreate, hrun⟩ := hreach
    subst hrun
    apply ids_nodup_run
    simp only [kaa_channel_manager_create, Bool.not_true, Bool.false_eq_true, if_false,
      Prod.mk.injEq, true_and, Option.some.injEq] at hcreate
    subst hcreate
    exact List.nodup_nil
  · intro channel g m l id hok hid calls hcalls
    obtain ⟨hfresh, hm, hl⟩ := add_none_inv self channel g m l hok
    subst hm
    subst hl
    rw [add_fresh self channel g hfresh] at hid ⊢
    simp only at hid ⊢
    have hidc : (kaa_transport_channel_id_calculate channel).2 = id := by
      cases g
      · simp at hid
      · simpa using hid
    have hcount0 : (self.transport_channels.map
        kaa_transport_channel_wrapper_t.channel_id).count id = 0 := by
      rw [List.count_eq_zero]
      intro hmem
      obtain ⟨cw, hcw, hcid⟩ := List.mem_map.mp hmem
      exact hfresh cw hcw (hcid.trans hidc.symm)
    have hrun := ids_count_run env id calls
      (kaa_channel_manager_t.mk
        (kaa_transport_channel_wrapper_t.mk (kaa_transport_channel_id_calculate channel).2
          channel :: self.transport_channels)
        { self.sync_info with is_up_to_date := false }) hcalls
      (by simp only [List.map_cons, hidc, List.count_cons_self, hcount0])
    exact ⟨hrun, remove_counted_once _ id hrun⟩

/-- C12, witness: on a new registry add A, then a size query, add B, remove
B and serialize; the identity of A is still carried by exactly one entry, and
removing it succeeds. -/
theorem C12_identities_distinct_and_findable_witness :
    ((kaa_calls_run example_env
      (kaa_channel_manager_add_transport_channel example_new example_channel_a true true
        true).self
      [kaa_call_t.get_size, kaa_call_t.add example_channel_b true true true,
        kaa_call_t.remove 3302388022,
        kaa_call_t.serialize example_writer]).transport_channels.map
        kaa_transport_channel_wrapper_t.channel_id).count 3814582951 = 1 ∧
    (kaa_channel_manager_remove_transport_channel
      (kaa_calls_run example_env
        (kaa_channel_manager_add_transport_channel example_new example_channel_a true true
          true).self
        [kaa_call_t.get_size, kaa_call_t.add example_channel_b true true true,
          kaa_call_t.remove 3302388022, kaa_call_t.serialize example_writer])
      3814582951).error_code = KAA_ERR_NONE :=
  have h := (C12_identities_distinct_and_findable example_env example_new
    ⟨0, 0, example_new, [], by decide, rfl⟩).2 example_channel_a true true true 3814582951
    (by decide) (by decide)
    [kaa_call_t.get_size, kaa_call_t.add example_channel_b true true true,
      kaa_call_t.remove 3302388022, kaa_call_t.serialize example_writer] (by decide)
  ⟨h.1, h.2.1⟩

/-- C13: in every state reachable from create by add, remove, size query and
serialize calls that holds at most 65535 channels, when `is_up_to_date` is
set, `channel_count` is the current number of entries and `payload_size` is
4 + 8 times that number; and every successful add and every successful remove
ends with `is_up_to_date` cleared. -/
theorem C13_cache_accurate_when_fresh (env : kaa_environment_t)
    (self : kaa_channel_manager_t) (hreach : kaa_reachable env self)
    (hn : self.transport_channels.length ≤ 65535) :
    (self.sync_info.is_up_to_date = true →
      self.sync_info.channel_count = self.transport_channels.length ∧
      self.sync_info.payload_size = 4 + 8 * self.transport_channels.length) ∧
    (∀ (channel : kaa_transport_channel_interface_t)
        (channel_id_given malloc_ok list_ok : Bool),
      (kaa_channel_manager_add_transport_channel self channel channel_id_given malloc_ok
        list_ok).error_code = KAA_ERR_NONE →
      (kaa_channel_manager_add_transport_channel self channel channel_id_given malloc_ok
        list_ok).self.sync_info.is_up_to_date = false) ∧
    (∀ channel_id : Nat,
      (kaa_channel_manager_remove_transport_channel self channel_id).error_code =
        KAA_ERR_NONE →
      (kaa_channel_manager_remove_transport_channel self
        channel_id).self.sync_info.is_up_to_date = false) := by
  refine ⟨?_, ?_, ?_⟩
  · intro hup
    obtain ⟨_, hcount, hpayload⟩ := kaa_reachable_cache_accurate env self hreach hup
    refine ⟨?_, ?_⟩
    · rw [hcount]
      omega
    · rw [hpayload]
      omega
  · intro channel g m l hok
    obtain ⟨hfresh, hm, hl⟩ := add_none_inv self channel g m l hok
    subst hm
    subst hl
    rw [add_fresh self channel g hfresh]
  · intro channel_id hok
    rcases remove_self_cases self channel_id with e | e
    · exfalso
      obtain ⟨cw, hcw, hid⟩ := remove_none_inv self channel_id hok
      obtain ⟨pre, w, post, hsplit, hpre, hw⟩ :=
        list_first_match_split (fun x => find_channel x channel_id) self.transport_channels
          ⟨cw, hcw, by simp [find_channel, hid]⟩
      have hr := remove_present self channel_id pre w post hsplit
        (fun x hx => by simpa [find_channel] using hpre x hx)
        (by simpa [find_channel] using hw)
      rw [hr] at e
      have hlen := congrArg (fun s => s.transport_channels.length) e
      simp only [hsplit, List.length_append, List.length_cons] at hlen
      omega
    · exact e

/-- C13, witness: after add A, add B and a size query the cache holds
channel count 2 and payload size 20; a further add of C clears the flag. -/
theorem C13_cache_accurate_when_fresh_witness :
    (kaa_calls_run example_env example_new
      [kaa_call_t.add example_channel_a true true true,
        kaa_call_t.add example_channel_b true true true,
        kaa_call_t.get_size]).sync_info.channel_count = 2 ∧
    (kaa_calls_run example_env example_new
      [kaa_call_t.add example_channel_a true true true,
        kaa_call_t.add example_channel_b true true true,
        kaa_call_t.get_size]).sync_info.payload_size = 20 ∧
    (kaa_channel_manager_add_transport_channel
      (kaa_calls_run example_env example_new
        [kaa_call_t.add example_channel_a true true true,
          kaa_call_t.add example_channel_b true true true, kaa_call_t.get_size])
      example_channel_c true true true).self.sync_info.is_up_to_date = false :=
  have h := C13_cache_accurate_when_fresh example_env
    (kaa_calls_run example_env example_new
      [kaa_call_t.add example_channel_a true true true,
        kaa_call_t.add example_channel_b true true true, kaa_call_t.get_size])
    ⟨0, 0, example_new, _, by decide, rfl⟩ (by decide)
  ⟨(h.1 (by decide)).1.trans (by decide), (h.1 (by decide)).2.trans (by decide),
    h.2.1 example_channel_c true true true (by decide)⟩

/-! ## The identity hash -/

/-- C16: `kaa_transport_channel_id_calculate` succeeds and returns
((((31·1 + c)·31 + p)·31 + s)·31 + y)·31 + r modulo 2^32, which is
(31^5 + 31^4·c + 31^3·p + 31^2·s + 31·y + r) mod 2^32, for the context c and
the function addresses p, s, y, r of the descriptor; the same holds when the
five values are taken as signed integers congruent to the addresses modulo
2^32 (the `ptrdiff_t` casts); and two descriptors with equal fields have
equal identities. -/
theorem C16_identity_polynomial (channel : kaa_transport_channel_interface_t) :
    (kaa_transport_channel_id_calculate channel).1 = KAA_ERR_NONE ∧
    (kaa_transport_channel_id_calculate channel).2 =
      (((((31 * 1 + channel.context) * 31 + channel.get_protocol_id) * 31 +
        channel.get_supported_services) * 31 + channel.sync_handler) * 31 +
        channel.release_context) % 2 ^ 32 ∧
    (kaa_transport_channel_id_calculate channel).2 =
      (31 ^ 5 + 31 ^ 4 * channel.context + 31 ^ 3 * channel.get_protocol_id +
        31 ^ 2 * channel.get_supported_services + 31 * channel.sync_handler +
        channel.release_context) % 2 ^ 32 ∧
    (∀ c p s y r : Int,
      c % 2 ^ 32 = (channel.context : Int) % 2 ^ 32 →
      p % 2 ^ 32 = (channel.get_protocol_id : Int) % 2 ^ 32 →
      s % 2 ^ 32 = (channel.get_supported_services : Int) % 2 ^ 32 →
      y % 2 ^ 32 = (channel.sync_handler : Int) % 2 ^ 32 →
      r % 2 ^ 32 = (channel.release_context : Int) % 2 ^ 32 →
      ((kaa_transport_channel_id_calculate channel).2 : Int) =
        (31 ^ 5 + 31 ^ 4 * c + 31 ^ 3 * p + 31 ^ 2 * s + 31 * y + r) % 2 ^ 32) ∧
    (∀ other : kaa_transport_channel_interface_t,
      other.context = channel.context →
      other.get_protocol_id = channel.get_protocol_id →
      other.get_supported_services = channel.get_supported_services →
      other.sync_handler = channel.sync_handler →
      other.release_context = channel.release_context →
      kaa_transport_channel_id_calculate other =
        kaa_transport_channel_id_calculate channel) := by
  have hpoly : (kaa_transport_channel_id_calculate channel).2 =
      (28629151 + 923521 * channel.context + 29791 * channel.get_protocol_id +
        961 * channel.get_supported_services + 31 * channel.sync_handler +
        channel.release_context) % 4294967296 := by
    simp only [kaa_transport_channel_id_calculate]
    omega
  refine ⟨rfl, ?_, ?_, ?_, ?_⟩
  · rw [hpoly]
    congr 1
    ring
  · rw [hpoly]
    norm_num
  · intro c p s y r hc hp hs hy hr
    rw [hpoly]
    norm_num at hc hp hs hy hr ⊢
    omega
  · intro other h1 h2 h3 h4 h5
    cases other
    cases channel
    simp only at h1 h2 h3 h4 h5
    subst h1 h2 h3 h4 h5
    rfl

/-- C16, witness: the identity of channel A (context 4096, function
addresses 101, 201, 301, 401) is 3814582951, also when the context is taken as
the negative integer 4096 - 2^32. -/
theorem C16_identity_polynomial_witness :
    (kaa_transport_channel_id_calculate example_channel_a).2 = 3814582951 ∧
    ((kaa_transport_channel_id_calculate example_channel_a).2 : Int) =
      (31 ^ 5 + 31 ^ 4 * (4096 - 2 ^ 32) + 31 ^ 3 * 101 + 31 ^ 2 * 201 + 31 * 301 + 401) %
        2 ^ 32 :=
  ⟨(C16_identity_polynomial example_channel_a).2.2.1.trans (by decide),
    (C16_identity_polynomial example_channel_a).2.2.2.1 (4096 - 2 ^ 32) 101 201 301 401
      (by decide) (by decide) (by decide) (by decide) (by decide)⟩

/-! ## Frame of the serializer -/

/-- C18: for every manager state and writer, whether the serializer succeeds,
fails or writes nothing, it leaves the registry entries, `is_up_to_date`,
`payload_size` and `channel_count` unchanged; of the manager only
`request_id` can differ afterwards. -/
theorem C18_serialize_changes_only_request_id (env : kaa_environment_t)
    (self : kaa_channel_manager_t) (writer : kaa_platform_message_writer_t) :
    (kaa_channel_manager_bootstrap_request_serialize env self writer).self.transport_channels =
      self.transport_channels ∧
    (kaa_channel_manager_bootstrap_request_serialize env self
      writer).self.sync_info.is_up_to_date = self.sync_info.is_up_to_date ∧
    (kaa_channel_manager_bootstrap_request_serialize env self
      writer).self.sync_info.payload_size = self.sync_info.payload_size ∧
    (kaa_channel_manager_bootstrap_request_serialize env self
      writer).self.sync_info.channel_count = self.sync_info.channel_count ∧
    (kaa_channel_manager_bootstrap_request_serialize env self writer).self =
      { self with
        sync_info :=
          { self.sync_info with
            request_id := (kaa_channel_manager_bootstrap_request_serialize env self
              writer).self.sync_info.request_id } } := by
  obtain ⟨h1, h2, h3, h4⟩ := serialize_frame env self writer
  refine ⟨h1, h2, h3, h4, ?_⟩
  rcases hr : (kaa_channel_manager_bootstrap_request_serialize env self writer).self with
    ⟨tc, ⟨u, r, p, c⟩⟩
  rw [hr] at h1 h2 h3 h4
  simp only at h1 h2 h3 h4
  subst h1 h2 h3 h4
  rfl

/-! ## Socket read -/

/-- C20: with a non-null buffer and a non-zero size the function calls the
system `read` once and classifies its result n: `KAA_TCP_SOCK_IO_EOF` exactly
when n = 0, `KAA_TCP_SOCK_IO_ERROR` exactly when n < 0 and `errno` is not
`EAGAIN`, otherwise `KAA_TCP_SOCK_IO_OK`, storing n through a non-null
`bytes_read` when n > 0 and 0 when n < 0 with `errno` equal to `EAGAIN`; the
three outcomes are distinct; and a null buffer or a zero size returns
`KAA_TCP_SOCK_IO_ERROR` without calling `read`. -/
theorem C20_socket_read_classifies (sys_read : Nat → Nat → Nat → sys_read_result_t)
    (EAGAIN : Int) (fd buffer buffer_size bytes_read : Nat)
    (hbuffer : buffer ≠ 0) (hsize : buffer_size ≠ 0) :
    ((ext_tcp_utils_tcp_socket_read sys_read EAGAIN fd buffer buffer_size bytes_read).result =
        ext_tcp_socket_io_errors_t.KAA_TCP_SOCK_IO_EOF ↔
      (sys_read fd buffer buffer_size).read_result = 0) ∧
    ((ext_tcp_utils_tcp_socket_read sys_read EAGAIN fd buffer buffer_size bytes_read).result =
        ext_tcp_socket_io_errors_t.KAA_TCP_SOCK_IO_ERROR ↔
      ((sys_read fd buffer buffer_size).read_result < 0 ∧
        (sys_read fd buffer buffer_size).errno ≠ EAGAIN)) ∧
    ((ext_tcp_utils_tcp_socket_read sys_read EAGAIN fd buffer buffer_size bytes_read).result =
        ext_tcp_socket_io_errors_t.KAA_TCP_SOCK_IO_OK ↔
      ((sys_read fd buffer buffer_size).read_result > 0 ∨
        ((sys_read fd buffer buffer_size).read_result < 0 ∧
          (sys_read fd buffer buffer_size).errno = EAGAIN))) ∧
    ((sys_read fd buffer buffer_size).read_result > 0 → bytes_read ≠ 0 →
      (ext_tcp_utils_tcp_socket_read sys_read EAGAIN fd buffer buffer_size
        bytes_read).bytes_read = some (sys_read fd buffer buffer_size).read_result.toNat ∧
      ((sys_read fd buffer buffer_size).read_result.toNat : Int) =
        (sys_read fd buffer buffer_size).read_result) ∧
    ((sys_read fd buffer buffer_size).read_result < 0 →
      (sys_read fd buffer buffer_size).errno = EAGAIN → bytes_read ≠ 0 →
      (ext_tcp_utils_tcp_socket_read sys_read EAGAIN fd buffer buffer_size
        bytes_read).bytes_read = some 0) ∧
    (ext_tcp_utils_tcp_socket_read sys_read EAGAIN fd buffer buffer_size bytes_read).reads =
      [(fd, buffer, buffer_size)] ∧
    (ext_tcp_socket_io_errors_t.KAA_TCP_SOCK_IO_EOF ≠
        ext_tcp_socket_io_errors_t.KAA_TCP_SOCK_IO_ERROR ∧
      ext_tcp_socket_io_errors_t.KAA_TCP_SOCK_IO_EOF ≠
        ext_tcp_socket_io_errors_t.KAA_TCP_SOCK_IO_OK ∧
      ext_tcp_socket_io_errors_t.KAA_TCP_SOCK_IO_ERROR ≠
        ext_tcp_socket_io_errors_t.KAA_TCP_SOCK_IO_OK) ∧
    (∀ b s : Nat, b = 0 ∨ s = 0 →
      (ext_tcp_utils_tcp_socket_read sys_read EAGAIN fd b s bytes_read).result =
        ext_tcp_socket_io_errors_t.KAA_TCP_SOCK_IO_ERROR ∧
      (ext_tcp_utils_tcp_socket_read sys_read EAGAIN fd b s bytes_read).reads = [] ∧
      (ext_tcp_utils_tcp_socket_read sys_read EAGAIN fd b s bytes_read).bytes_read = none) := by
  have hguard : ¬ (buffer = 0 ∨ buffer_size = 0) := by
    intro h
    rcases h with h | h
    · exact hbuffer h
    · exact hsize h
  rcases hr : sys_read fd buffer buffer_size with ⟨n, e⟩
  unfold ext_tcp_utils_tcp_socket_read
  simp only [hguard, if_false, hr]
  refine ⟨?_, ?_, ?_, ?_, ?_, ?_, ⟨by decide, by decide, by decide⟩, ?_⟩
  · by_cases h0 : n = 0
    · simp [h0]
    · by_cases h1 : n < 0 ∧ e ≠ EAGAIN
      · simp [h0, h1]
      · simp [h0, h1]
  · by_cases h0 : n = 0
    · simp [h0]
    · by_cases h1 : n < 0 ∧ e ≠ EAGAIN
      · simp [h0, h1]
      · simp [h0, h1]
  · by_cases h0 : n = 0
    · simp [h0]
    · by_cases h1 : n < 0 ∧ e ≠ EAGAIN
      · have hle : ¬ 0 < n := by omega
        simp [h0, h1, hle]
      · simp only [h0, h1, if_false, true_iff]
        by_cases hpos : n > 0
        · exact Or.inl hpos
        · right
          have hneg : n < 0 := by omega
          refine ⟨hneg, ?_⟩
          by_contra hne
          exact h1 ⟨hneg, hne⟩
  · intro hpos hb
    have h0 : ¬ n = 0 := by omega
    have h1 : ¬ (n < 0 ∧ e ≠ EAGAIN) := by omega
    simp only [h0, h1, if_false, hb, ne_eq, not_false_eq_true, if_true, hpos, true_and]
    exact Int.toNat_of_nonneg (by omega)
  · intro hneg he hb
    have h0 : ¬ n = 0 := by omega
    have h1 : ¬ (n < 0 ∧ e ≠ EAGAIN) := fun h => h.2 he
    have h2 : ¬ n > 0 := by omega
    simp only [h0, h1, if_false, hb, ne_eq, not_false_eq_true, if_true, h2]
  · by_cases h0 : n = 0
    · simp [h0]
    · by_cases h1 : n < 0 ∧ e ≠ EAGAIN
      · simp [h0, h1]
      · simp [h0, h1]
  · intro b s hbs
    simp [hbs]

/-- C20, witness: with `EAGAIN` 11, a read of 5 bytes on descriptor 1 gives
OK and 5, a would-block on descriptor 2 gives OK and 0, an error on descriptor
3 gives ERROR and end of stream on descriptor 4 gives EOF. -/
theorem C20_socket_read_classifies_witness :
    ext_tcp_utils_tcp_socket_read example_sys_read 11 1 4096 64 8192 =
      { result := ext_tcp_socket_io_errors_t.KAA_TCP_SOCK_IO_OK, bytes_read := some 5,
        reads := [(1, 4096, 64)] } ∧
    ext_tcp_utils_tcp_socket_read example_sys_read 11 2 4096 64 8192 =
      { result := ext_tcp_socket_io_errors_t.KAA_TCP_SOCK_IO_OK, bytes_read := some 0,
        reads := [(2, 4096, 64)] } ∧
    (ext_tcp_utils_tcp_socket_read example_sys_read 11 3 4096 64 8192).result =
      ext_tcp_socket_io_errors_t.KAA_TCP_SOCK_IO_ERROR ∧
    (ext_tcp_utils_tcp_socket_read example_sys_read 11 4 4096 64 8192).result =
      ext_tcp_socket_io_errors_t.KAA_TCP_SOCK_IO_EOF :=
  ⟨by decide, by decide,
    (C20_socket_read_classifies example_sys_read 11 3 4096 64 8192 (by decide)
      (by decide)).2.1.mpr (by decide),
    (C20_socket_read_classifies example_sys_read 11 4 4096 64 8192 (by decide)
      (by decide)).1.mpr (by decide)⟩

/-! ## Failing serializations and the request id -/

theorem serialize_loop_append (env : kaa_environment_t)
    (pre rest : List kaa_transport_channel_wrapper_t) :
    ∀ writer : kaa_platform_message_writer_t,
      kaa_channel_manager_bootstrap_request_serialize_loop env (pre ++ rest) writer =
        if (kaa_channel_manager_bootstrap_request_serialize_loop env pre writer).1 =
            KAA_ERR_NONE then
          kaa_channel_manager_bootstrap_request_serialize_loop env rest
            (kaa_channel_manager_bootstrap_request_serialize_loop env pre writer).2
        else kaa_channel_manager_bootstrap_request_serialize_loop env pre writer := by
  induction pre with
  | nil =>
    intro writer
    simp [kaa_channel_manager_bootstrap_request_serialize_loop]
  | cons cw tail ih =>
    intro writer
    simp only [List.cons_append, kaa_channel_manager_bootstrap_request_serialize_loop]
    split
    · rename_i h0
      simp [h0]
    · split
      · rename_i h1
        simp [h1]
      · split
        · rename_i h2
          simp [h2]
        · split
          · rename_i h3
            simp [h3]
          · exact ih _

theorem serialize_loop_fails (env : kaa_environment_t)
    (pre : List kaa_transport_channel_wrapper_t) (w : kaa_transport_channel_wrapper_t)
    (post : List kaa_transport_channel_wrapper_t) (writer : kaa_platform_message_writer_t)
    (hpre : ∀ cw ∈ pre,
      (env.call_get_protocol_id cw.channel.get_protocol_id cw.channel.context).1 =
        KAA_ERR_NONE)
    (hw : (env.call_get_protocol_id w.channel.get_protocol_id w.channel.context).1 ≠
      KAA_ERR_NONE)
    (hroom : 8 * pre.length ≤ writer.room) :
    kaa_channel_manager_bootstrap_request_serialize_loop env (pre ++ w :: post) writer =
      ((env.call_get_protocol_id w.channel.get_protocol_id w.channel.context).1,
        { written := writer.written ++ (wire_channel_blocks env pre).map kaa_written_t.byte,
          room := writer.room - 8 * pre.length }) := by
  rw [serialize_loop_append, serialize_loop_fits env pre writer hpre hroom]
  simp only [if_true]
  rw [kaa_channel_manager_bootstrap_request_serialize_loop]
  simp only [hw, ne_eq, not_false_eq_true, if_true]

theorem serialize_callback_fails (env : kaa_environment_t) (self : kaa_channel_manager_t)
    (writer : kaa_platform_message_writer_t)
    (pre : List kaa_transport_channel_wrapper_t) (w : kaa_transport_channel_wrapper_t)
    (post : List kaa_transport_channel_wrapper_t)
    (hp : 0 < self.sync_info.payload_size) (hc : 0 < self.sync_info.channel_count)
    (hsplit : self.transport_channels = pre ++ w :: post)
    (hpre : ∀ cw ∈ pre,
      (env.call_get_protocol_id cw.channel.get_protocol_id cw.channel.context).1 =
        KAA_ERR_NONE)
    (hw : (env.call_get_protocol_id w.channel.get_protocol_id w.channel.context).1 ≠
      KAA_ERR_NONE)
    (hroom : env.KAA_EXTENSION_HEADER_SIZE + 4 + 8 * pre.length ≤ writer.room) :
    kaa_channel_manager_bootstrap_request_serialize env self writer =
      { error_code :=
          (env.call_get_protocol_id w.channel.get_protocol_id w.channel.context).1,
        self :=
          { transport_channels := self.transport_channels,
            sync_info :=
              { is_up_to_date := self.sync_info.is_up_to_date,
                request_id := (self.sync_info.request_id + 1) % 2 ^ 16,
                payload_size := self.sync_info.payload_size,
                channel_count := self.sync_info.channel_count } },
        writer :=
          { written := writer.written ++
              kaa_written_t.extension_header env.KAA_BOOTSTRAP_EXTENSION_TYPE 0
                  self.sync_info.payload_size ::
                (wire_bootstrap_payload ((self.sync_info.request_id + 1) % 2 ^ 16)
                  self.sync_info.channel_count
                  (wire_channel_blocks env pre)).map kaa_written_t.byte,
            room := writer.room - env.KAA_EXTENSION_HEADER_SIZE - 4 - 8 * pre.length } } := by
  have hh : env.KAA_EXTENSION_HEADER_SIZE ≤ writer.room := by omega
  have ha : 2 ≤ writer.room - env.KAA_EXTENSION_HEADER_SIZE := by omega
  have hb : 2 ≤ writer.room - env.KAA_EXTENSION_HEADER_SIZE - 2 := by omega
  have hl : 8 * pre.length ≤ writer.room - env.KAA_EXTENSION_HEADER_SIZE - 2 - 2 := by omega
  have hloop := serialize_loop_fails env pre w post
    { written := writer.written ++
        kaa_written_t.extension_header env.KAA_BOOTSTRAP_EXTENSION_TYPE 0
            self.sync_info.payload_size ::
          (KAA_HTONS ((self.sync_info.request_id + 1) % 2 ^ 16) ++
            KAA_HTONS self.sync_info.channel_count).map kaa_written_t.byte,
      room := writer.room - env.KAA_EXTENSION_HEADER_SIZE - 2 - 2 } hpre hw hl
  have hr : writer.room - env.KAA_EXTENSION_HEADER_SIZE - 2 - 2 - 8 * pre.length =
      writer.room - env.KAA_EXTENSION_HEADER_SIZE - 4 - 8 * pre.length := by
    omega
  simp only [KAA_HTONS, List.cons_append, List.nil_append, List.map_cons, List.map_nil,
    List.append_assoc] at hloop
  simp only [kaa_channel_manager_bootstrap_request_serialize, gt_iff_lt, hp, hc, and_self,
    if_true, kaa_platform_message_write_extension_header, hh, ne_eq, not_true_eq_false,
    if_false, kaa_platform_message_write, KAA_HTONS, List.length_cons, List.length_nil,
    Nat.zero_add, Nat.reduceAdd, ha, hb, List.map_cons, List.map_nil, List.append_assoc,
    List.cons_append, List.nil_append, hsplit, hloop, hr, wire_bootstrap_payload,
    List.map_append]

theorem write_written_prefix (writer : kaa_platform_message_writer_t) (data : List Nat) :
    ∃ t, (kaa_platform_message_write writer data).2.written = writer.written ++ t := by
  unfold kaa_platform_message_write
  split
  · exact ⟨_, rfl⟩
  · exact ⟨[], by simp⟩

theorem serialize_loop_written_prefix (env : kaa_environment_t)
    (l : List kaa_transport_channel_wrapper_t) :
    ∀ writer : kaa_platform_message_writer_t,
      ∃ t, (kaa_channel_manager_bootstrap_request_serialize_loop env l writer).2.written =
        writer.written ++ t := by
  induction l with
  | nil =>
    intro writer
    exact ⟨[], by simp [kaa_channel_manager_bootstrap_request_serialize_loop]⟩
  | cons cw rest ih =>
    intro writer
    obtain ⟨t1, h1⟩ := write_written_prefix writer
      (KAA_HTONL (env.call_get_protocol_id cw.channel.get_protocol_id cw.channel.context).2.id)
    obtain ⟨t2, h2⟩ := write_written_prefix
      (kaa_platform_message_write writer
        (KAA_HTONL
          (env.call_get_protocol_id cw.channel.get_protocol_id cw.channel.context).2.id)).2
      (KAA_HTONS
        (env.call_get_protocol_id cw.channel.get_protocol_id cw.channel.context).2.version)
    obtain ⟨t3, h3⟩ := write_written_prefix
      (kaa_platform_message_write
        (kaa_platform_message_write writer
          (KAA_HTONL
            (env.call_get_protocol_id cw.channel.get_protocol_id cw.channel.context).2.id)).2
        (KAA_HTONS
          (env.call_get_protocol_id cw.channel.get_protocol_id
            cw.channel.context).2.version)).2
      (KAA_HTONS 0)
    obtain ⟨t4, h4⟩ := ih
      (kaa_platform_message_write
        (kaa_platform_message_write
          (kaa_platform_message_write writer
            (KAA_HTONL
              (env.call_get_protocol_id cw.channel.get_protocol_id
                cw.channel.context).2.id)).2
          (KAA_HTONS
            (env.call_get_protocol_id cw.channel.get_protocol_id
              cw.channel.context).2.version)).2
        (KAA_HTONS 0)).2
    simp only [kaa_channel_manager_bootstrap_request_serialize_loop]
    split
    · exact ⟨[], by simp⟩
    · split
      · exact ⟨t1, h1⟩
      · split
        · exact ⟨t1 ++ t2, by rw [h2, h1, List.append_assoc]⟩
        · split
          · exact ⟨t1 ++ t2 ++ t3, by rw [h3, h2, h1]; simp⟩
          · exact ⟨t1 ++ t2 ++ t3 ++ t4, by rw [h4, h3, h2, h1]; simp⟩

theorem serialize_request_id (env : kaa_environment_t) (self : kaa_channel_manager_t)
    (writer : kaa_platform_message_writer_t) :
    (kaa_channel_manager_bootstrap_request_serialize env self writer).self.sync_info.request_id =
      if 0 < self.sync_info.payload_size ∧ 0 < self.sync_info.channel_count ∧
          env.KAA_EXTENSION_HEADER_SIZE ≤ writer.room then
        (self.sync_info.request_id + 1) % 2 ^ 16
      else self.sync_info.request_id := by
  unfold kaa_channel_manager_bootstrap_request_serialize
  by_cases hg : self.sync_info.payload_size > 0 ∧ self.sync_info.channel_count > 0
  · by_cases hh : env.KAA_EXTENSION_HEADER_SIZE ≤ writer.room
    · have hcond : 0 < self.sync_info.payload_size ∧ 0 < self.sync_info.channel_count ∧
          env.KAA_EXTENSION_HEADER_SIZE ≤ writer.room := ⟨hg.1, hg.2, hh⟩
      simp only [hg, and_self, if_true, kaa_platform_message_write_extension_header, hh,
        ne_eq, not_true_eq_false, if_false, hcond]
      split
      · rfl
      · split
        · rfl
        · rfl
    · have hcond : ¬ (0 < self.sync_info.payload_size ∧ 0 < self.sync_info.channel_count ∧
          env.KAA_EXTENSION_HEADER_SIZE ≤ writer.room) := fun h => hh h.2.2
      simp [hg, kaa_platform_message_write_extension_header, hh]
  · have hcond : ¬ (0 < self.sync_info.payload_size ∧ 0 < self.sync_info.channel_count ∧
        env.KAA_EXTENSION_HEADER_SIZE ≤ writer.room) := fun h => hg ⟨h.1, h.2.1⟩
    simp only [hg, if_false, hcond]

theorem serialize_silent_iff (env : kaa_environment_t) (self : kaa_channel_manager_t)
    (writer : kaa_platform_message_writer_t) :
    (kaa_channel_manager_bootstrap_request_serialize env self writer).writer.written =
        writer.written ↔
      ¬ (0 < self.sync_info.payload_size ∧ 0 < self.sync_info.channel_count ∧
        env.KAA_EXTENSION_HEADER_SIZE ≤ writer.room) := by
  unfold kaa_channel_manager_bootstrap_request_serialize
  by_cases hg : self.sync_info.payload_size > 0 ∧ self.sync_info.channel_count > 0
  · by_cases hh : env.KAA_EXTENSION_HEADER_SIZE ≤ writer.room
    · have hcond : 0 < self.sync_info.payload_size ∧ 0 < self.sync_info.channel_count ∧
          env.KAA_EXTENSION_HEADER_SIZE ≤ writer.room := ⟨hg.1, hg.2, hh⟩
      simp only [hg, and_self, if_true, kaa_platform_message_write_extension_header, hh,
        ne_eq, not_true_eq_false, if_false, hcond, iff_false]
      intro heq
      have hlen := congrArg List.length heq
      revert hlen
      split
      · rename_i h1
        obtain ⟨t, ht⟩ := write_written_prefix
          { written := writer.written ++
              [kaa_written_t.extension_header env.KAA_BOOTSTRAP_EXTENSION_TYPE 0
                self.sync_info.payload_size],
            room := writer.room - env.KAA_EXTENSION_HEADER_SIZE }
          (KAA_HTONS ((self.sync_info.request_id + 1) % 2 ^ 16))
        simp only [ht, List.length_append, List.length_cons, List.length_nil]
        omega
      · split
        · obtain ⟨t, ht⟩ := write_written_prefix
            { written := writer.written ++
                [kaa_written_t.extension_header env.KAA_BOOTSTRAP_EXTENSION_TYPE 0
                  self.sync_info.payload_size],
              room := writer.room - env.KAA_EXTENSION_HEADER_SIZE }
            (KAA_HTONS ((self.sync_info.request_id + 1) % 2 ^ 16))
          obtain ⟨t2, ht2⟩ := write_written_prefix
            (kaa_platform_message_write
              { written := writer.written ++
                  [kaa_written_t.extension_header env.KAA_BOOTSTRAP_EXTENSION_TYPE 0
                    self.sync_info.payload_size],
                room := writer.room - env.KAA_EXTENSION_HEADER_SIZE }
              (KAA_HTONS ((self.sync_info.request_id + 1) % 2 ^ 16))).2
            (KAA_HTONS self.sync_info.channel_count)
          simp only [ht2, ht, List.length_append, List.length_cons, List.length_nil]
          omega
        · obtain ⟨t, ht⟩ := write_written_prefix
            { written := writer.written ++
                [kaa_written_t.extension_header env.KAA_BOOTSTRAP_EXTENSION_TYPE 0
                  self.sync_info.payload_size],
              room := writer.room - env.KAA_EXTENSION_HEADER_SIZE }
            (KAA_HTONS ((self.sync_info.request_id + 1) % 2 ^ 16))
          obtain ⟨t2, ht2⟩ := write_written_prefix
            (kaa_platform_message_write
              { written := writer.written ++
                  [kaa_written_t.extension_header env.KAA_BOOTSTRAP_EXTENSION_TYPE 0
                    self.sync_info.payload_size],
                room := writer.room - env.KAA_EXTENSION_HEADER_SIZE }
              (KAA_HTONS ((self.sync_info.request_id + 1) % 2 ^ 16))).2
            (KAA_HTONS self.sync_info.channel_count)
          obtain ⟨t3, ht3⟩ := serialize_loop_written_prefix env self.transport_channels
            (kaa_platform_message_write
              (kaa_platform_message_write
                { written := writer.written ++
                    [kaa_written_t.extension_header env.KAA_BOOTSTRAP_EXTENSION_TYPE 0
                      self.sync_info.payload_size],
                  room := writer.room - env.KAA_EXTENSION_HEADER_SIZE }
                (KAA_HTONS ((self.sync_info.request_id + 1) % 2 ^ 16))).2
              (KAA_HTONS self.sync_info.channel_count)).2
          simp only [ht3, ht2, ht, List.length_append, List.length_cons, List.length_nil]
          omega
    · have hcond : ¬ (0 < self.sync_info.payload_size ∧ 0 < self.sync_info.channel_count ∧
          env.KAA_EXTENSION_HEADER_SIZE ≤ writer.room) := fun h => hh h.2.2
      simp [hg, kaa_platform_message_write_extension_header, hh]
  · have hcond : ¬ (0 < self.sync_info.payload_size ∧ 0 < self.sync_info.channel_count ∧
        env.KAA_EXTENSION_HEADER_SIZE ≤ writer.room) := fun h => hg ⟨h.1, h.2.1⟩
    simp only [hg, if_false, hcond, not_false_eq_true]

theorem add_request_id (self : kaa_channel_manager_t)
    (channel : kaa_transport_channel_interface_t) (channel_id_given malloc_ok list_ok : Bool) :
    (kaa_channel_manager_add_transport_channel self channel channel_id_given malloc_ok
      list_ok).self.sync_info.request_id = self.sync_info.request_id := by
  unfold kaa_channel_manager_add_transport_channel
  simp only
  split
  · rfl
  · split
    · rfl
    · split
      · rfl
      · rfl

theorem remove_request_id (self : kaa_channel_manager_t) (channel_id : Nat) :
    (kaa_channel_manager_remove_transport_channel self channel_id).self.sync_info.request_id =
      self.sync_info.request_id := by
  unfold kaa_channel_manager_remove_transport_channel
  simp only
  split
  · rfl
  · rfl

theorem get_size_request_id (env : kaa_environment_t) (self : kaa_channel_manager_t) :
    (kaa_channel_manager_bootstrap_request_get_size env self).self.sync_info.request_id =
      self.sync_info.request_id := by
  unfold kaa_channel_manager_bootstrap_request_get_size
  simp only
  split
  · split
    · rfl
    · rfl
  · rfl

theorem silent_run_request_id (env : kaa_environment_t) (calls : List kaa_call_t) :
    ∀ self : kaa_channel_manager_t, kaa_calls_silent env self calls = true →
      (kaa_calls_run env self calls).sync_info.request_id = self.sync_info.request_id := by
  induction calls with
  | nil => intro self _; rfl
  | cons call rest ih =>
    intro self h
    simp only [kaa_calls_silent, Bool.and_eq_true, Bool.not_eq_true'] at h
    simp only [kaa_calls_run, List.foldl_cons]
    have hrest := ih _ h.2
    simp only [kaa_calls_run] at hrest
    rw [hrest]
    cases call with
    | add channel g m l => exact add_request_id self channel g m l
    | remove channel_id => exact remove_request_id self channel_id
    | get_size => exact get_size_request_id env self
    | serialize writer =>
      have hw := h.1
      simp only [kaa_call_writes, decide_eq_false_iff_not, ne_eq, Decidable.not_not] at hw
      simp only [kaa_call_apply]
      rw [serialize_request_id, if_neg ((serialize_silent_iff env self writer).mp hw)]

theorem example_serialize_repeat (k : Nat) :
    ∀ r : Nat, r < 2 ^ 16 →
      kaa_calls_run example_env
          { transport_channels :=
              [{ channel_id := 3814582951, channel := example_channel_a }],
            sync_info :=
              { is_up_to_date := true, request_id := r, payload_size := 12,
                channel_count := 1 } }
          (List.replicate k (kaa_call_t.serialize { written := [], room := 64 })) =
        { transport_channels := [{ channel_id := 3814582951, channel := example_channel_a }],
          sync_info :=
            { is_up_to_date := true, request_id := (r + k) % 2 ^ 16, payload_size := 12,
              channel_count := 1 } } := by
  induction k with
  | zero =>
    intro r hr
    simp only [List.replicate_zero, kaa_calls_run, List.foldl_nil, Nat.add_zero]
    rw [Nat.mod_eq_of_lt hr]
  | succ n ih =>
    intro r hr
    have hstep := serialize_fits example_env
      { transport_channels := [{ channel_id := 3814582951, channel := example_channel_a }],
        sync_info :=
          { is_up_to_date := true, request_id := r, payload_size := 12,
            channel_count := 1 } }
      { written := [], room := 64 } (by simp) (by simp)
      (by
        intro cw hcw
        simp only [List.mem_singleton] at hcw
        subst hcw
        rfl)
      (by
        have h8 : example_env.KAA_EXTENSION_HEADER_SIZE = 8 := rfl
        simp [h8])
    have hnext := ih ((r + 1) % 2 ^ 16) (Nat.mod_lt _ (by norm_num))
    simp only [kaa_calls_run] at hnext
    simp only [List.replicate_succ, kaa_calls_run, List.foldl_cons, kaa_call_apply, hstep,
      hnext]
    congr 2
    omega

theorem example_wrap_state_of (n : Nat) (hn : n = 65534) :
    kaa_reachable example_env
      (kaa_calls_run example_env example_new (example_serialized n)) ∧
    kaa_calls_run example_env example_new (example_serialized n) =
      { transport_channels := [{ channel_id := 3814582951, channel := example_channel_a }],
        sync_info :=
          { is_up_to_date := true, request_id := 65534, payload_size := 12,
            channel_count := 1 } } := by
  refine ⟨⟨0, 0, example_new, _, by decide, rfl⟩, ?_⟩
  have h0 : kaa_calls_run example_env example_new
      [kaa_call_t.add example_channel_a true true true, kaa_call_t.get_size] =
      { transport_channels := [{ channel_id := 3814582951, channel := example_channel_a }],
        sync_info :=
          { is_up_to_date := true, request_id := 0, payload_size := 12,
            channel_count := 1 } } := by decide
  have hrep := example_serialize_repeat n 0 (by norm_num)
  simp only [kaa_calls_run] at h0 hrep
  simp only [example_serialized, kaa_calls_run, List.foldl_append, h0, hrep]
  congr 2
  omega

theorem call_request_id (env : kaa_environment_t) (self : kaa_channel_manager_t)
    (call : kaa_call_t) :
    (kaa_call_apply env self call).sync_info.request_id =
      if kaa_call_writes env self call then (self.sync_info.request_id + 1) % 2 ^ 16
      else self.sync_info.request_id := by
  cases call with
  | add channel g m l =>
    simp only [kaa_call_apply, kaa_call_writes, Bool.false_eq_true, if_false]
    exact add_request_id self channel g m l
  | remove channel_id =>
    simp only [kaa_call_apply, kaa_call_writes, Bool.false_eq_true, if_false]
    exact remove_request_id self channel_id
  | get_size =>
    simp only [kaa_call_apply, kaa_call_writes, Bool.false_eq_true, if_false]
    exact get_size_request_id env self
  | serialize writer =>
    simp only [kaa_call_apply, kaa_call_writes, decide_eq_true_eq]
    by_cases hw : (kaa_channel_manager_bootstrap_request_serialize env self
        writer).writer.written = writer.written
    · rw [if_neg (by simpa using hw), serialize_request_id,
        if_neg ((serialize_silent_iff env self writer).mp hw)]
    · have hcond : 0 < self.sync_info.payload_size ∧ 0 < self.sync_info.channel_count ∧
          env.KAA_EXTENSION_HEADER_SIZE ≤ writer.room := by
        by_contra hno
        exact hw ((serialize_silent_iff env self writer).mpr hno)
      rw [if_pos hw, serialize_request_id, if_pos hcond]

theorem run_request_id_count (env : kaa_environment_t) (calls : List kaa_call_t) :
    ∀ self : kaa_channel_manager_t, self.sync_info.request_id < 2 ^ 16 →
      (kaa_calls_run env self calls).sync_info.request_id =
        (self.sync_info.request_id + kaa_calls_write_count env self calls) % 2 ^ 16 := by
  induction calls with
  | nil =>
    intro self h
    simp only [kaa_calls_run, List.foldl_nil, kaa_calls_write_count, Nat.add_zero]
    rw [Nat.mod_eq_of_lt h]
  | cons call rest ih =>
    intro self h
    have hstep := call_request_id env self call
    have hlt : (kaa_call_apply env self call).sync_info.request_id < 2 ^ 16 := by
      rw [hstep]
      split
      · exact Nat.mod_lt _ (by norm_num)
      · exact h
    have hrest := ih (kaa_call_apply env self call) hlt
    simp only [kaa_calls_run] at hrest
    simp only [kaa_calls_run, List.foldl_cons, kaa_calls_write_count]
    rw [hrest, hstep]
    split
    · omega
    · simp only [Nat.zero_add]

theorem example_channel_d_id :
    (kaa_transport_channel_id_calculate example_channel_d).2 = 2277998005 := by
  simp only [kaa_transport_channel_id_calculate, example_channel_d]
  norm_num

theorem example_fresh_zero_count_of (n : Nat) (hn : n = 65535) :
    kaa_reachable example_env
      (kaa_calls_run example_env example_new
        (example_adds n ++
          [kaa_call_t.add example_channel_d true true true, kaa_call_t.get_size])) ∧
    (kaa_calls_run example_env example_new
      (example_adds n ++
        [kaa_call_t.add example_channel_d true true true,
          kaa_call_t.get_size])).sync_info.is_up_to_date = true ∧
    (kaa_calls_run example_env example_new
      (example_adds n ++
        [kaa_call_t.add example_channel_d true true true,
          kaa_call_t.get_size])).transport_channels =
      { channel_id := 2277998005, channel := example_channel_d } ::
        ((List.range n).map example_wrapper_n).reverse ∧
    (kaa_calls_run example_env example_new
      (example_adds n ++
        [kaa_call_t.add example_channel_d true true true,
          kaa_call_t.get_size])).transport_channels.length = n + 1 ∧
    (kaa_channel_manager_bootstrap_request_serialize example_env
      (kaa_calls_run example_env example_new
        (example_adds n ++
          [kaa_call_t.add example_channel_d true true true, kaa_call_t.get_size]))
      example_large_writer).error_code = KAA_ERR_NONE ∧
    (kaa_channel_manager_bootstrap_request_serialize example_env
      (kaa_calls_run example_env example_new
        (example_adds n ++
          [kaa_call_t.add example_channel_d true true true, kaa_call_t.get_size]))
      example_large_writer).writer.written = [] := by
  have hlen : (((List.range n).map example_wrapper_n).reverse).length = n := by
    simp
  have hfresh : ∀ cw ∈ ((List.range n).map example_wrapper_n).reverse,
      cw.channel_id ≠ (kaa_transport_channel_id_calculate example_channel_d).2 := by
    intro cw hcw
    simp only [List.mem_reverse, List.mem_map, List.mem_range] at hcw
    obtain ⟨i, hi, rfl⟩ := hcw
    simp only [example_wrapper_n]
    rw [example_channel_n_id, example_channel_d_id]
    omega
  have hadds := example_adds_run n (by omega)
  generalize hL : ((List.range n).map example_wrapper_n).reverse = L at hlen hfresh hadds ⊢
  have hrun : kaa_calls_run example_env example_new
      (example_adds n ++
        [kaa_call_t.add example_channel_d true true true, kaa_call_t.get_size]) =
      { transport_channels := { channel_id := 2277998005, channel := example_channel_d } :: L,
        sync_info :=
          { is_up_to_date := true, request_id := 0, payload_size := 524292,
            channel_count := 0 } } := by
    simp only [kaa_calls_run] at hadds
    simp only [kaa_calls_run, List.foldl_append, List.foldl_cons, List.foldl_nil,
      kaa_call_apply]
    rw [hadds]
    have hadd := add_fresh { transport_channels := L, sync_info := example_new.sync_info }
      example_channel_d true hfresh
    rw [hadd]
    have e1 : (example_env.KAA_EXTENSION_HEADER_SIZE + 2 + 2 + (L.length + 1) * (4 + 2 + 2) -
        example_env.KAA_EXTENSION_HEADER_SIZE) % 2 ^ 32 = 524292 := by omega
    have e2 : (L.length + 1) % 2 ^ 16 = 0 := by omega
    simp only [kaa_channel_manager_bootstrap_request_get_size, example_new, kaa_list_get_size,
      List.length_cons, Bool.not_false, if_true, gt_iff_lt, Nat.zero_lt_succ, Nat.zero_add,
      e1, e2, example_channel_d_id]
  refine ⟨⟨0, 0, example_new, _, by decide, rfl⟩, ?_, ?_, ?_, ?_, ?_⟩
  · rw [hrun]
  · rw [hrun]
  · rw [hrun]
    simp only [List.length_cons, hlen]
  · rw [hrun]
    simp [kaa_channel_manager_bootstrap_request_serialize]
  · rw [hrun]
    simp [kaa_channel_manager_bootstrap_request_serialize, example_large_writer]

/-- C17, counterexample.  First: create, 65535 adds of distinct descriptors
whose `get_protocol_id` calls succeed, add D, whose call fails with
`KAA_ERR_BADDATA`, and a size query.  The registry is reachable, fresh and
non-empty, D is its first channel, but the size query stored channel count 0
(65536 as a `uint16_t`), so the serializer returns `KAA_ERR_NONE`, not the
error of D, and writes nothing.  Second: on the fresh registry B, D, A a
writer with room for the header only makes the serializer return
`KAA_ERR_WRITE_FAILED`, not the error of D, with the header alone written. -/
theorem C17_wrapped_count_counterexample :
    (kaa_reachable example_env
      (kaa_calls_run example_env example_new
        (example_adds example_almost_many ++
          [kaa_call_t.add example_channel_d true true true, kaa_call_t.get_size])) ∧
    (kaa_calls_run example_env example_new
      (example_adds example_almost_many ++
        [kaa_call_t.add example_channel_d true true true,
          kaa_call_t.get_size])).sync_info.is_up_to_date = true ∧
    (kaa_calls_run example_env example_new
      (example_adds example_almost_many ++
        [kaa_call_t.add example_channel_d true true true,
          kaa_call_t.get_size])).transport_channels =
      { channel_id := 2277998005, channel := example_channel_d } ::
        ((List.range example_almost_many).map example_wrapper_n).reverse ∧
    (kaa_calls_run example_env example_new
      (example_adds example_almost_many ++
        [kaa_call_t.add example_channel_d true true true,
          kaa_call_t.get_size])).transport_channels.length = example_almost_many + 1 ∧
    (example_env.call_get_protocol_id example_channel_d.get_protocol_id
      example_channel_d.context).1 = KAA_ERR_BADDATA ∧
    (kaa_channel_manager_bootstrap_request_serialize example_env
      (kaa_calls_run example_env example_new
        (example_adds example_almost_many ++
          [kaa_call_t.add example_channel_d true true true, kaa_call_t.get_size]))
      example_large_writer).error_code = KAA_ERR_NONE ∧
    (kaa_channel_manager_bootstrap_request_serialize example_env
      (kaa_calls_run example_env example_new
        (example_adds example_almost_many ++
          [kaa_call_t.add example_channel_d true true true, kaa_call_t.get_size]))
      example_large_writer).writer.written = []) ∧
    ((kaa_calls_run example_env example_new
      [kaa_call_t.add example_channel_a true true true,
        kaa_call_t.add example_channel_d true true true,
        kaa_call_t.add example_channel_b true true true,
        kaa_call_t.get_size]).sync_info =
      { is_up_to_date := true, request_id := 0, payload_size := 28, channel_count := 3 } ∧
    (kaa_channel_manager_bootstrap_request_serialize example_env
      (kaa_calls_run example_env example_new
        [kaa_call_t.add example_channel_a true true true,
          kaa_call_t.add example_channel_d true true true,
          kaa_call_t.add example_channel_b true true true, kaa_call_t.get_size])
      example_header_writer).error_code = KAA_ERR_WRITE_FAILED ∧
    (kaa_channel_manager_bootstrap_request_serialize example_env
      (kaa_calls_run example_env example_new
        [kaa_call_t.add example_channel_a true true true,
          kaa_call_t.add example_channel_d true true true,
          kaa_call_t.add example_channel_b true true true, kaa_call_t.get_size])
      example_header_writer).writer.written = [kaa_written_t.extension_header 5 0 28]) := by
  obtain ⟨h1, h2, h3, h4, h5, h6⟩ := example_fresh_zero_count_of example_almost_many rfl
  exact ⟨⟨h1, h2, h3, h4, by decide, h5, h6⟩, by decide, by decide, by decide⟩

/-- C17, amended: on a registry reachable from create by add, remove, size
query and serialize calls that is fresh (`is_up_to_date` set) and holds at
most 65535 channels, whose entries are `pre`, then `w`, then `post`, where
every `get_protocol_id` call of `pre` succeeds and the call of `w` fails with
`e`, and with a writer that has room for the header, the two fixed fields and
the blocks of `pre`, the serializer returns exactly `e` and has appended the
header, request id, channel count and the complete 8-byte blocks of `pre`,
and nothing for `w` or `post`. -/
theorem C17_serialize_stops_at_failing_channel (env : kaa_environment_t)
    (self : kaa_channel_manager_t) (writer : kaa_platform_message_writer_t)
    (pre : List kaa_transport_channel_wrapper_t) (w : kaa_transport_channel_wrapper_t)
    (post : List kaa_transport_channel_wrapper_t) (e : kaa_error_t)
    (hreach : kaa_reachable env self)
    (hfresh : self.sync_info.is_up_to_date = true)
    (hn : self.transport_channels.length ≤ 65535)
    (hsplit : self.transport_channels = pre ++ w :: post)
    (hpre : ∀ cw ∈ pre,
      (env.call_get_protocol_id cw.channel.get_protocol_id cw.channel.context).1 =
        KAA_ERR_NONE)
    (hw : (env.call_get_protocol_id w.channel.get_protocol_id w.channel.context).1 = e)
    (he : e ≠ KAA_ERR_NONE)
    (hroom : env.KAA_EXTENSION_HEADER_SIZE + 4 + 8 * pre.length ≤ writer.room) :
    (kaa_channel_manager_bootstrap_request_serialize env self writer).error_code = e ∧
    (kaa_channel_manager_bootstrap_request_serialize env self writer).writer.written =
      writer.written ++
        kaa_written_t.extension_header env.KAA_BOOTSTRAP_EXTENSION_TYPE 0
            (4 + 8 * self.transport_channels.length) ::
          (wire_bootstrap_payload (self.sync_info.request_id + 1)
            self.transport_channels.length
            (wire_channel_blocks env pre)).map kaa_written_t.byte ∧
    (wire_channel_blocks env pre).length = 8 * pre.length := by
  obtain ⟨hpos, hc, hp⟩ := kaa_reachable_cache_accurate env self hreach hfresh
  have hcount : self.sync_info.channel_count = self.transport_channels.length := by
    rw [hc]
    omega
  have hpayload : self.sync_info.payload_size = 4 + 8 * self.transport_channels.length := by
    rw [hp]
    omega
  have hs := serialize_callback_fails env self writer pre w post (by omega) (by omega) hsplit
    hpre (by rw [hw]; exact he) hroom
  rw [hs]
  refine ⟨hw, ?_, wire_channel_blocks_length env pre⟩
  have b1 : (self.sync_info.request_id + 1) % 2 ^ 16 / 2 ^ 8 % 256 =
      (self.sync_info.request_id + 1) / 2 ^ 8 % 256 := by omega
  have b2 : (self.sync_info.request_id + 1) % 2 ^ 16 % 256 =
      (self.sync_info.request_id + 1) % 256 := by omega
  simp only [wire_bootstrap_payload, b1, b2, hcount, hpayload]

/-- C17, amended, witness: the registry B, D, A with a fresh cache; the call
of D fails with `KAA_ERR_BADDATA`, so the serializer returns that error after
the header (length 28), request id 1, channel count 3 and the block of B. -/
theorem C17_serialize_stops_at_failing_channel_witness :
    (kaa_channel_manager_bootstrap_request_serialize example_env
      (kaa_calls_run example_env example_new
        [kaa_call_t.add example_channel_a true true true,
          kaa_call_t.add example_channel_d true true true,
          kaa_call_t.add example_channel_b true true true, kaa_call_t.get_size])
      example_writer).error_code = KAA_ERR_BADDATA ∧
    (kaa_channel_manager_bootstrap_request_serialize example_env
      (kaa_calls_run example_env example_new
        [kaa_call_t.add example_channel_a true true true,
          kaa_call_t.add example_channel_d true true true,
          kaa_call_t.add example_channel_b true true true, kaa_call_t.get_size])
      example_writer).writer.written =
      kaa_written_t.extension_header 5 0 28 ::
        (wire_bootstrap_payload 1 3 [0, 0, 0, 2, 0, 1, 0, 0]).map kaa_written_t.byte :=
  have h := C17_serialize_stops_at_failing_channel example_env
    (kaa_calls_run example_env example_new
      [kaa_call_t.add example_channel_a true true true,
        kaa_call_t.add example_channel_d true true true,
        kaa_call_t.add example_channel_b true true true, kaa_call_t.get_size])
    example_writer
    [{ channel_id := 3302388022, channel := example_channel_b }]
    { channel_id := (kaa_transport_channel_id_calculate example_channel_d).2,
      channel := example_channel_d }
    [{ channel_id := 3814582951, channel := example_channel_a }]
    KAA_ERR_BADDATA ⟨0, 0, example_new, _, by decide, rfl⟩ (by decide) (by decide)
    (by decide) (by decide) (by decide) (by decide) (by decide)
  ⟨h.1, h.2.1.trans (by decide)⟩

theorem get_size_repeat_fresh (env : kaa_environment_t) (k : Nat) :
    ∀ self : kaa_channel_manager_t, self.sync_info.is_up_to_date = true ∨ k = 0 →
      kaa_calls_run env self (List.replicate k kaa_call_t.get_size) = self := by
  induction k with
  | zero => intro self _; rfl
  | succ n ih =>
    intro self h
    have hup : self.sync_info.is_up_to_date = true := by
      rcases h with h | h
      · exact h
      · exact absurd h (by simp)
    have hnext := ih self (Or.inl hup)
    simp only [kaa_calls_run] at hnext
    simp only [List.replicate_succ, kaa_calls_run, List.foldl_cons, kaa_call_apply,
      get_size_fresh env self hup, hnext]

/-- C14, counterexample.  First: create, add A, size query and 65534
successful serialize calls leave a reachable state with `request_id` 65534;
two more consecutive successful serialize calls write the request ids 65535
and 0: the `uint16_t` counter wraps, so the two values do not differ by
exactly 1.  Second: create, add A, size query, add B; a serialize call
succeeds and writes header length 12 and channel count 1; then a size query
(no add or remove) and a second successful serialize call, which writes
header length 20 and channel count 2. -/
theorem C14_request_id_wraps_counterexample :
    (kaa_reachable example_env
      (kaa_calls_run example_env example_new (example_serialized example_wrap_count)) ∧
    (kaa_channel_manager_bootstrap_request_serialize example_env
      (kaa_calls_run example_env example_new (example_serialized example_wrap_count))
      example_writer).error_code = KAA_ERR_NONE ∧
    (kaa_channel_manager_bootstrap_request_serialize example_env
      (kaa_calls_run example_env example_new (example_serialized example_wrap_count))
      example_writer).writer.written =
      kaa_written_t.extension_header 5 0 12 ::
        (wire_bootstrap_payload 65535 1 [0, 0, 0, 1, 0, 1, 0, 0]).map kaa_written_t.byte ∧
    (kaa_channel_manager_bootstrap_request_serialize example_env
      (kaa_channel_manager_bootstrap_request_serialize example_env
        (kaa_calls_run example_env example_new (example_serialized example_wrap_count))
        example_writer).self example_writer).error_code = KAA_ERR_NONE ∧
    (kaa_channel_manager_bootstrap_request_serialize example_env
      (kaa_channel_manager_bootstrap_request_serialize example_env
        (kaa_calls_run example_env example_new (example_serialized example_wrap_count))
        example_writer).self example_writer).writer.written =
      kaa_written_t.extension_header 5 0 12 ::
        (wire_bootstrap_payload 0 1 [0, 0, 0, 1, 0, 1, 0, 0]).map kaa_written_t.byte) ∧
    ((kaa_channel_manager_bootstrap_request_serialize example_env
      (kaa_calls_run example_env example_new
        [kaa_call_t.add example_channel_a true true true, kaa_call_t.get_size,
          kaa_call_t.add example_channel_b true true true])
      example_writer).error_code = KAA_ERR_NONE ∧
    (kaa_channel_manager_bootstrap_request_serialize example_env
      (kaa_calls_run example_env example_new
        [kaa_call_t.add example_channel_a true true true, kaa_call_t.get_size,
          kaa_call_t.add example_channel_b true true true])
      example_writer).writer.written =
      kaa_written_t.extension_header 5 0 12 ::
        (wire_bootstrap_payload 1 1
          ([0, 0, 0, 2, 0, 1, 0, 0] ++ [0, 0, 0, 1, 0, 1, 0, 0])).map kaa_written_t.byte ∧
    (kaa_channel_manager_bootstrap_request_serialize example_env
      (kaa_calls_run example_env
        (kaa_channel_manager_bootstrap_request_serialize example_env
          (kaa_calls_run example_env example_new
            [kaa_call_t.add example_channel_a true true true, kaa_call_t.get_size,
              kaa_call_t.add example_channel_b true true true])
          example_writer).self [kaa_call_t.get_size])
      example_writer).error_code = KAA_ERR_NONE ∧
    (kaa_channel_manager_bootstrap_request_serialize example_env
      (kaa_calls_run example_env
        (kaa_channel_manager_bootstrap_request_serialize example_env
          (kaa_calls_run example_env example_new
            [kaa_call_t.add example_channel_a true true true, kaa_call_t.get_size,
              kaa_call_t.add example_channel_b true true true])
          example_writer).self [kaa_call_t.get_size])
      example_writer).writer.written =
      kaa_written_t.extension_header 5 0 20 ::
        (wire_bootstrap_payload 2 2
          ([0, 0, 0, 2, 0, 1, 0, 0] ++ [0, 0, 0, 1, 0, 1, 0, 0])).map
            kaa_written_t.byte) := by
  obtain ⟨hreach, hstate⟩ := example_wrap_state_of example_wrap_count rfl
  refine ⟨⟨hreach, ?_, ?_, ?_, ?_⟩, by decide, by decide, by decide, by decide⟩
  · rw [hstate]
    decide
  · rw [hstate]
    decide
  · rw [hstate]
    decide
  · rw [hstate]
    decide

/-- C14, amended: when a serialize call succeeds and writes a request and the
next serialize call succeeds too, with no add or remove between them and with
size queries between them only if `is_up_to_date` was already set at the first
call (and the same `get_protocol_id` answers), both append the same header,
channel count and channel blocks, and the request id of the second is the
request id of the first plus one modulo 2^16 (plus one exactly unless the
first wrote 65535, after which the second writes 0). -/
theorem C14_consecutive_serializations (env : kaa_environment_t)
    (self : kaa_channel_manager_t) (writer1 writer2 : kaa_platform_message_writer_t)
    (k : Nat)
    (hbetween : self.sync_info.is_up_to_date = true ∨ k = 0)
    (h1 : (kaa_channel_manager_bootstrap_request_serialize env self writer1).error_code =
      KAA_ERR_NONE)
    (hwrites : (kaa_channel_manager_bootstrap_request_serialize env self
      writer1).writer.written ≠ writer1.written)
    (h2 : (kaa_channel_manager_bootstrap_request_serialize env
      (kaa_calls_run env
        (kaa_channel_manager_bootstrap_request_serialize env self writer1).self
        (List.replicate k kaa_call_t.get_size))
      writer2).error_code = KAA_ERR_NONE) :
    (kaa_channel_manager_bootstrap_request_serialize env self writer1).writer.written =
      writer1.written ++
        kaa_written_t.extension_header env.KAA_BOOTSTRAP_EXTENSION_TYPE 0
            self.sync_info.payload_size ::
          (wire_bootstrap_payload ((self.sync_info.request_id + 1) % 2 ^ 16)
            self.sync_info.channel_count
            (wire_channel_blocks env self.transport_channels)).map kaa_written_t.byte ∧
    (kaa_channel_manager_bootstrap_request_serialize env
      (kaa_calls_run env
        (kaa_channel_manager_bootstrap_request_serialize env self writer1).self
        (List.replicate k kaa_call_t.get_size))
      writer2).writer.written =
      writer2.written ++
        kaa_written_t.extension_header env.KAA_BOOTSTRAP_EXTENSION_TYPE 0
            self.sync_info.payload_size ::
          (wire_bootstrap_payload
            (((self.sync_info.request_id + 1) % 2 ^ 16 + 1) % 2 ^ 16)
            self.sync_info.channel_count
            (wire_channel_blocks env self.transport_channels)).map kaa_written_t.byte ∧
    ((self.sync_info.request_id + 1) % 2 ^ 16 < 65535 →
      ((self.sync_info.request_id + 1) % 2 ^ 16 + 1) % 2 ^ 16 =
        (self.sync_info.request_id + 1) % 2 ^ 16 + 1) := by
  have hcond : 0 < self.sync_info.payload_size ∧ 0 < self.sync_info.channel_count ∧
      env.KAA_EXTENSION_HEADER_SIZE ≤ writer1.room := by
    by_contra hno
    exact hwrites ((serialize_silent_iff env self writer1).mpr hno)
  obtain ⟨f1, f2, f3, f4⟩ := serialize_frame env self writer1
  have hrid := serialize_request_id env self writer1
  rw [if_pos hcond] at hrid
  have hfirst := serialize_none_written env self writer1 hcond.1 hcond.2.1 h1
  have hsame := get_size_repeat_fresh env k
    (kaa_channel_manager_bootstrap_request_serialize env self writer1).self
    (by
      rcases hbetween with h | h
      · exact Or.inl (by rw [f2]; exact h)
      · exact Or.inr h)
  rw [hsame] at h2 ⊢
  have hsecond := serialize_none_written env
    (kaa_channel_manager_bootstrap_request_serialize env self writer1).self writer2
    (by rw [f3]; exact hcond.1) (by rw [f4]; exact hcond.2.1) h2
  rw [f1, f3, f4, hrid] at hsecond
  refine ⟨hfirst, hsecond, ?_⟩
  intro hlt
  omega

/-- C14, amended, witness: after add A and a size query, a serialize call, a
size query and a second serialize call write the request ids 1 and 2 and are
otherwise identical. -/
theorem C14_consecutive_serializations_witness :
    (kaa_channel_manager_bootstrap_request_serialize example_env
      (kaa_calls_run example_env example_new
        [kaa_call_t.add example_channel_a true true true, kaa_call_t.get_size])
      example_writer).writer.written =
      kaa_written_t.extension_header 5 0 12 ::
        (wire_bootstrap_payload 1 1 [0, 0, 0, 1, 0, 1, 0, 0]).map kaa_written_t.byte ∧
    (kaa_channel_manager_bootstrap_request_serialize example_env
      (kaa_calls_run example_env
        (kaa_channel_manager_bootstrap_request_serialize example_env
          (kaa_calls_run example_env example_new
            [kaa_call_t.add example_channel_a true true true, kaa_call_t.get_size])
          example_writer).self (List.replicate 1 kaa_call_t.get_size))
      example_writer).writer.written =
      kaa_written_t.extension_header 5 0 12 ::
        (wire_bootstrap_payload 2 1 [0, 0, 0, 1, 0, 1, 0, 0]).map kaa_written_t.byte :=
  have h := C14_consecutive_serializations example_env
    (kaa_calls_run example_env example_new
      [kaa_call_t.add example_channel_a true true true, kaa_call_t.get_size])
    example_writer example_writer 1 (by decide) (by decide) (by decide) (by decide)
  ⟨h.1.trans (by decide), h.2.1.trans (by decide)⟩

/-- C15, counterexample.  First: create, add A, size query, then a serialize
call into a writer with room for the header only: it fails with
`KAA_ERR_WRITE_FAILED` after writing the header and leaves `request_id` 1; the
serialize call that follows is the first successful one and writes request
id 2, not 1.  Second: in the reachable state with `request_id` 65534 a
successful serialization leaves 65535 and the next successful one leaves 0,
not 65536. -/
theorem C15_first_success_not_one_counterexample :
    (kaa_channel_manager_create true 0 0 = (KAA_ERR_NONE, some example_new) ∧
    (kaa_channel_manager_bootstrap_request_serialize example_env
      (kaa_calls_run example_env example_new
        [kaa_call_t.add example_channel_a true true true, kaa_call_t.get_size])
      example_header_writer).error_code = KAA_ERR_WRITE_FAILED ∧
    (kaa_channel_manager_bootstrap_request_serialize example_env
      (kaa_calls_run example_env example_new
        [kaa_call_t.add example_channel_a true true true, kaa_call_t.get_size])
      example_header_writer).writer.written = [kaa_written_t.extension_header 5 0 12] ∧
    (kaa_channel_manager_bootstrap_request_serialize example_env
      (kaa_calls_run example_env example_new
        [kaa_call_t.add example_channel_a true true true, kaa_call_t.get_size])
      example_header_writer).self.sync_info.request_id = 1 ∧
    (kaa_channel_manager_bootstrap_request_serialize example_env
      (kaa_channel_manager_bootstrap_request_serialize example_env
        (kaa_calls_run example_env example_new
          [kaa_call_t.add example_channel_a true true true, kaa_call_t.get_size])
        example_header_writer).self example_writer).error_code = KAA_ERR_NONE ∧
    (kaa_channel_manager_bootstrap_request_serialize example_env
      (kaa_channel_manager_bootstrap_request_serialize example_env
        (kaa_calls_run example_env example_new
          [kaa_call_t.add example_channel_a true true true, kaa_call_t.get_size])
        example_header_writer).self example_writer).writer.written =
      kaa_written_t.extension_header 5 0 12 ::
        (wire_bootstrap_payload 2 1 [0, 0, 0, 1, 0, 1, 0, 0]).map kaa_written_t.byte) ∧
    (kaa_reachable example_env
      (kaa_calls_run example_env example_new (example_serialized example_wrap_count)) ∧
    (kaa_channel_manager_bootstrap_request_serialize example_env
      (kaa_calls_run example_env example_new (example_serialized example_wrap_count))
      example_writer).error_code = KAA_ERR_NONE ∧
    (kaa_channel_manager_bootstrap_request_serialize example_env
      (kaa_calls_run example_env example_new (example_serialized example_wrap_count))
      example_writer).self.sync_info.request_id = 65535 ∧
    (kaa_channel_manager_bootstrap_request_serialize example_env
      (kaa_channel_manager_bootstrap_request_serialize example_env
        (kaa_calls_run example_env example_new (example_serialized example_wrap_count))
        example_writer).self example_writer).error_code = KAA_ERR_NONE ∧
    (kaa_channel_manager_bootstrap_request_serialize example_env
      (kaa_channel_manager_bootstrap_request_serialize example_env
        (kaa_calls_run example_env example_new (example_serialized example_wrap_count))
        example_writer).self example_writer).self.sync_info.request_id = 0) := by
  obtain ⟨hreach, hstate⟩ := example_wrap_state_of example_wrap_count rfl
  refine ⟨⟨by decide, by decide, by decide, by decide, by decide, by decide⟩,
    hreach, ?_, ?_, ?_, ?_⟩
  · rw [hstate]
    decide
  · rw [hstate]
    decide
  · rw [hstate]
    decide
  · rw [hstate]
    decide

/-- C15, amended: create sets `request_id` to 0; the size query, add, remove
and a serialize call that writes nothing leave `request_id` unchanged; every
serialize call that writes anything, whether it then succeeds or fails,
increases `request_id` by one modulo 2^16, and a successful one writes the
increased value as the request id; so after any calls on a created registry
`request_id` is the number m of calls that wrote anything, modulo 2^16, and a
successful serialize call that writes a request writes request id
(m + 1) mod 2^16, which is 1 when no earlier call has written anything. -/
theorem C15_request_id_counter (env : kaa_environment_t) (self : kaa_channel_manager_t)
    (writer : kaa_platform_message_writer_t) :
    (∀ (p c : Nat) (self0 : kaa_channel_manager_t),
      kaa_channel_manager_create true p c = (KAA_ERR_NONE, some self0) →
      self0.sync_info.request_id = 0) ∧
    (kaa_channel_manager_bootstrap_request_get_size env self).self.sync_info.request_id =
      self.sync_info.request_id ∧
    (∀ (channel : kaa_transport_channel_interface_t)
        (channel_id_given malloc_ok list_ok : Bool),
      (kaa_channel_manager_add_transport_channel self channel channel_id_given malloc_ok
        list_ok).self.sync_info.request_id = self.sync_info.request_id) ∧
    (∀ channel_id : Nat,
      (kaa_channel_manager_remove_transport_channel self
        channel_id).self.sync_info.request_id = self.sync_info.request_id) ∧
    ((kaa_channel_manager_bootstrap_request_serialize env self writer).writer.written =
        writer.written →
      (kaa_channel_manager_bootstrap_request_serialize env self
        writer).self.sync_info.request_id = self.sync_info.request_id) ∧
    ((kaa_channel_manager_bootstrap_request_serialize env self writer).writer.written ≠
        writer.written →
      (kaa_channel_manager_bootstrap_request_serialize env self
        writer).self.sync_info.request_id = (self.sync_info.request_id + 1) % 2 ^ 16) ∧
    ((kaa_channel_manager_bootstrap_request_serialize env self writer).error_code =
        KAA_ERR_NONE →
      (kaa_channel_manager_bootstrap_request_serialize env self writer).writer.written ≠
        writer.written →
      (kaa_channel_manager_bootstrap_request_serialize env self writer).writer.written =
        writer.written ++
          kaa_written_t.extension_header env.KAA_BOOTSTRAP_EXTENSION_TYPE 0
              self.sync_info.payload_size ::
            (wire_bootstrap_payload ((self.sync_info.request_id + 1) % 2 ^ 16)
              self.sync_info.channel_count
              (wire_channel_blocks env self.transport_channels)).map kaa_written_t.byte) ∧
    (∀ (p c : Nat) (self0 : kaa_channel_manager_t) (calls : List kaa_call_t),
      kaa_channel_manager_create true p c = (KAA_ERR_NONE, some self0) →
      kaa_calls_silent env self0 calls = true →
      self = kaa_calls_run env self0 calls →
      self.sync_info.request_id = 0 ∧
      ((kaa_channel_manager_bootstrap_request_serialize env self writer).error_code =
          KAA_ERR_NONE →
        (kaa_channel_manager_bootstrap_request_serialize env self writer).writer.written ≠
          writer.written →
        (kaa_channel_manager_bootstrap_request_serialize env self writer).writer.written =
          writer.written ++
            kaa_written_t.extension_header env.KAA_BOOTSTRAP_EXTENSION_TYPE 0
                self.sync_info.payload_size ::
              (wire_bootstrap_payload 1 self.sync_info.channel_count
                (wire_channel_blocks env self.transport_channels)).map
                  kaa_written_t.byte)) ∧
    (∀ (p c : Nat) (self0 : kaa_channel_manager_t) (calls : List kaa_call_t),
      kaa_channel_manager_create true p c = (KAA_ERR_NONE, some self0) →
      self = kaa_calls_run env self0 calls →
      self.sync_info.request_id = kaa_calls_write_count env self0 calls % 2 ^ 16 ∧
      ((kaa_channel_manager_bootstrap_request_serialize env self writer).error_code =
          KAA_ERR_NONE →
        (kaa_channel_manager_bootstrap_request_serialize env self writer).writer.written ≠
          writer.written →
        (kaa_channel_manager_bootstrap_request_serialize env self writer).writer.written =
          writer.written ++
            kaa_written_t.extension_header env.KAA_BOOTSTRAP_EXTENSION_TYPE 0
                self.sync_info.payload_size ::
              (wire_bootstrap_payload ((kaa_calls_write_count env self0 calls + 1) % 2 ^ 16)
                self.sync_info.channel_count
                (wire_channel_blocks env self.transport_channels)).map
                  kaa_written_t.byte)) := by
  have hcreate : ∀ (p c : Nat) (self0 : kaa_channel_manager_t),
      kaa_channel_manager_create true p c = (KAA_ERR_NONE, some self0) →
      self0.sync_info.request_id = 0 := by
    intro p c self0 h
    simp only [kaa_channel_manager_create, Bool.not_true, Bool.false_eq_true, if_false,
      Prod.mk.injEq, true_and, Option.some.injEq] at h
    subst h
    rfl
  have hsilent : (kaa_channel_manager_bootstrap_request_serialize env self
      writer).writer.written = writer.written →
      (kaa_channel_manager_bootstrap_request_serialize env self
        writer).self.sync_info.request_id = self.sync_info.request_id := by
    intro h
    rw [serialize_request_id, if_neg ((serialize_silent_iff env self writer).mp h)]
  have hcond : (kaa_channel_manager_bootstrap_request_serialize env self
      writer).writer.written ≠ writer.written →
      0 < self.sync_info.payload_size ∧ 0 < self.sync_info.channel_count ∧
        env.KAA_EXTENSION_HEADER_SIZE ≤ writer.room := by
    intro h
    by_contra hno
    exact h ((serialize_silent_iff env self writer).mpr hno)
  have hwrites : (kaa_channel_manager_bootstrap_request_serialize env self
      writer).writer.written ≠ writer.written →
      (kaa_channel_manager_bootstrap_request_serialize env self
        writer).self.sync_info.request_id = (self.sync_info.request_id + 1) % 2 ^ 16 := by
    intro h
    rw [serialize_request_id, if_pos (hcond h)]
  have hvalue : (kaa_channel_manager_bootstrap_request_serialize env self writer).error_code =
        KAA_ERR_NONE →
      (kaa_channel_manager_bootstrap_request_serialize env self writer).writer.written ≠
        writer.written →
      (kaa_channel_manager_bootstrap_request_serialize env self writer).writer.written =
        writer.written ++
          kaa_written_t.extension_header env.KAA_BOOTSTRAP_EXTENSION_TYPE 0
              self.sync_info.payload_size ::
            (wire_bootstrap_payload ((self.sync_info.request_id + 1) % 2 ^ 16)
              self.sync_info.channel_count
              (wire_channel_blocks env self.transport_channels)).map kaa_written_t.byte := by
    intro hok h
    exact serialize_none_written env self writer (hcond h).1 (hcond h).2.1 hok
  refine ⟨hcreate, get_size_request_id env self, add_request_id self, remove_request_id self,
    hsilent, hwrites, hvalue, ?_, ?_⟩
  · intro p c self0 calls hc hs hrun
    have hzero : self.sync_info.request_id = 0 := by
      rw [hrun, silent_run_request_id env calls self0 hs]
      exact hcreate p c self0 hc
    refine ⟨hzero, ?_⟩
    intro hok h
    have hv := hvalue hok h
    rw [hzero] at hv
    exact hv
  · intro p c self0 calls hc hrun
    have h0 := hcreate p c self0 hc
    have hcount : self.sync_info.request_id =
        kaa_calls_write_count env self0 calls % 2 ^ 16 := by
      rw [hrun, run_request_id_count env calls self0 (by rw [h0]; norm_num), h0,
        Nat.zero_add]
    refine ⟨hcount, ?_⟩
    intro hok h
    have hv := hvalue hok h
    have e : (self.sync_info.request_id + 1) % 2 ^ 16 =
        (kaa_calls_write_count env self0 calls + 1) % 2 ^ 16 := by
      rw [hcount]
      omega
    rw [e] at hv
    exact hv

/-- C15, amended, witness.  After create, add A, a size query and a
serialize call into a writer without room, which writes nothing, the serialize
call that follows succeeds and writes request id 1.  After create, add A, a
size query and two serialize calls that fail after the header, the serialize
call that follows succeeds and writes request id 3. -/
theorem C15_request_id_counter_witness :
    (kaa_channel_manager_bootstrap_request_serialize example_env
      (kaa_calls_run example_env example_new
        [kaa_call_t.add example_channel_a true true true, kaa_call_t.get_size,
          kaa_call_t.serialize { written := [], room := 0 }])
      example_writer).writer.written =
      kaa_written_t.extension_header 5 0 12 ::
        (wire_bootstrap_payload 1 1 [0, 0, 0, 1, 0, 1, 0, 0]).map kaa_written_t.byte ∧
    (kaa_channel_manager_bootstrap_request_serialize example_env
      (kaa_calls_run example_env example_new
        [kaa_call_t.add example_channel_a true true true, kaa_call_t.get_size,
          kaa_call_t.serialize example_header_writer,
          kaa_call_t.serialize example_header_writer])
      example_writer).writer.written =
      kaa_written_t.extension_header 5 0 12 ::
        (wire_bootstrap_payload 3 1 [0, 0, 0, 1, 0, 1, 0, 0]).map kaa_written_t.byte :=
  ⟨(((C15_request_id_counter example_env
      (kaa_calls_run example_env example_new
        [kaa_call_t.add example_channel_a true true true, kaa_call_t.get_size,
          kaa_call_t.serialize { written := [], room := 0 }])
      example_writer).2.2.2.2.2.2.2.1 0 0 example_new
        [kaa_call_t.add example_channel_a true true true, kaa_call_t.get_size,
          kaa_call_t.serialize { written := [], room := 0 }]
        (by decide) (by decide) rfl).2 (by decide) (by decide)).trans (by decide),
    (((C15_request_id_counter example_env
      (kaa_calls_run example_env example_new
        [kaa_call_t.add example_channel_a true true true, kaa_call_t.get_size,
          kaa_call_t.serialize example_header_writer,
          kaa_call_t.serialize example_header_writer])
      example_writer).2.2.2.2.2.2.2.2 0 0 example_new
        [kaa_call_t.add example_channel_a true true true, kaa_call_t.get_size,
          kaa_call_t.serialize example_header_writer,
          kaa_call_t.serialize example_header_writer]
        (by decide) rfl).2 (by decide) (by decide)).trans (by decide)⟩

/-- C19, counterexample.  First: in the reachable state with a fresh cache,
one channel and `request_id` 65534 (the last successful serialization wrote
65534), a serialize call into a writer with room for the header only fails
with `KAA_ERR_WRITE_FAILED` after the header and leaves `request_id` 65535;
the next serialize call succeeds and writes request id 0, which is not two
greater than 65534.  Second: after add A and a size query, a successful
serialize call writes request id 1, two serialize calls in a row fail after
the header, and the next successful serialize call writes request id 4, which
is not two greater than 1. -/
theorem C19_request_id_wraps_counterexample :
    (kaa_reachable example_env
      (kaa_calls_run example_env example_new (example_serialized example_wrap_count)) ∧
    (kaa_calls_run example_env example_new
      (example_serialized example_wrap_count)).sync_info.request_id = 65534 ∧
    (kaa_channel_manager_bootstrap_request_serialize example_env
      (kaa_calls_run example_env example_new (example_serialized example_wrap_count))
      example_header_writer).error_code = KAA_ERR_WRITE_FAILED ∧
    (kaa_channel_manager_bootstrap_request_serialize example_env
      (kaa_calls_run example_env example_new (example_serialized example_wrap_count))
      example_header_writer).writer.written = [kaa_written_t.extension_header 5 0 12] ∧
    (kaa_channel_manager_bootstrap_request_serialize example_env
      (kaa_calls_run example_env example_new (example_serialized example_wrap_count))
      example_header_writer).self.sync_info.request_id = 65535 ∧
    (kaa_channel_manager_bootstrap_request_serialize example_env
      (kaa_channel_manager_bootstrap_request_serialize example_env
        (kaa_calls_run example_env example_new (example_serialized example_wrap_count))
        example_header_writer).self example_writer).error_code = KAA_ERR_NONE ∧
    (kaa_channel_manager_bootstrap_request_serialize example_env
      (kaa_channel_manager_bootstrap_request_serialize example_env
        (kaa_calls_run example_env example_new (example_serialized example_wrap_count))
        example_header_writer).self example_writer).writer.written =
      kaa_written_t.extension_header 5 0 12 ::
        (wire_bootstrap_payload 0 1 [0, 0, 0, 1, 0, 1, 0, 0]).map kaa_written_t.byte) ∧
    ((kaa_channel_manager_bootstrap_request_serialize example_env
      (kaa_calls_run example_env example_new
        [kaa_call_t.add example_channel_a true true true, kaa_call_t.get_size])
      example_writer).error_code = KAA_ERR_NONE ∧
    (kaa_channel_manager_bootstrap_request_serialize example_env
      (kaa_calls_run example_env example_new
        [kaa_call_t.add example_channel_a true true true, kaa_call_t.get_size])
      example_writer).writer.written =
      kaa_written_t.extension_header 5 0 12 ::
        (wire_bootstrap_payload 1 1 [0, 0, 0, 1, 0, 1, 0, 0]).map kaa_written_t.byte ∧
    (kaa_channel_manager_bootstrap_request_serialize example_env
      (kaa_calls_run example_env example_new
        [kaa_call_t.add example_channel_a true true true, kaa_call_t.get_size,
          kaa_call_t.serialize example_writer])
      example_header_writer).error_code = KAA_ERR_WRITE_FAILED ∧
    (kaa_channel_manager_bootstrap_request_serialize example_env
      (kaa_calls_run example_env example_new
        [kaa_call_t.add example_channel_a true true true, kaa_call_t.get_size,
          kaa_call_t.serialize example_writer, kaa_call_t.serialize example_header_writer])
      example_header_writer).error_code = KAA_ERR_WRITE_FAILED ∧
    (kaa_channel_manager_bootstrap_request_serialize example_env
      (kaa_calls_run example_env example_new
        [kaa_call_t.add example_channel_a true true true, kaa_call_t.get_size,
          kaa_call_t.serialize example_writer, kaa_call_t.serialize example_header_writer,
          kaa_call_t.serialize example_header_writer])
      example_writer).error_code = KAA_ERR_NONE ∧
    (kaa_channel_manager_bootstrap_request_serialize example_env
      (kaa_calls_run example_env example_new
        [kaa_call_t.add example_channel_a true true true, kaa_call_t.get_size,
          kaa_call_t.serialize example_writer, kaa_call_t.serialize example_header_writer,
          kaa_call_t.serialize example_header_writer])
      example_writer).writer.written =
      kaa_written_t.extension_header 5 0 12 ::
        (wire_bootstrap_payload 4 1 [0, 0, 0, 1, 0, 1, 0, 0]).map kaa_written_t.byte) := by
  obtain ⟨hreach, hstate⟩ := example_wrap_state_of example_wrap_count rfl
  refine ⟨⟨hreach, ?_, ?_, ?_, ?_, ?_, ?_⟩,
    by decide, by decide, by decide, by decide, by decide, by decide⟩
  · rw [hstate]
  · rw [hstate]
    decide
  · rw [hstate]
    decide
  · rw [hstate]
    decide
  · rw [hstate]
    decide
  · rw [hstate]
    decide

/-- C19, amended: for every registry state, a fresh non-empty one included, a
serialize call that gets past the header write (it writes something) has
increased `request_id` by one modulo 2^16, also when it then fails on a
`get_protocol_id` call or on a later writer call; so `request_id` advances
once per serialize call that gets past the header write.  If `request_id`
was r before such a call and m of the calls that follow it write anything,
the next successful serialize call that writes a request writes request id
(r + m + 2) mod 2^16: (r + 2) mod 2^16 when none of them writes, which is
r + 2 while r + 2 < 65536.  And r is the request id written by the last
successful serialization when the state is the one that serialization left. -/
theorem C19_failed_serialize_advances_request_id (env : kaa_environment_t)
    (self : kaa_channel_manager_t) (writer : kaa_platform_message_writer_t)
    (hheader : (kaa_channel_manager_bootstrap_request_serialize env self
      writer).writer.written ≠ writer.written) :
    (kaa_channel_manager_bootstrap_request_serialize env self
      writer).self.sync_info.request_id = (self.sync_info.request_id + 1) % 2 ^ 16 ∧
    (∀ (calls : List kaa_call_t) (writer2 : kaa_platform_message_writer_t),
      (kaa_channel_manager_bootstrap_request_serialize env
        (kaa_calls_run env
          (kaa_channel_manager_bootstrap_request_serialize env self writer).self calls)
        writer2).error_code = KAA_ERR_NONE →
      (kaa_channel_manager_bootstrap_request_serialize env
        (kaa_calls_run env
          (kaa_channel_manager_bootstrap_request_serialize env self writer).self calls)
        writer2).writer.written ≠ writer2.written →
      (kaa_channel_manager_bootstrap_request_serialize env
        (kaa_calls_run env
          (kaa_channel_manager_bootstrap_request_serialize env self writer).self calls)
        writer2).writer.written =
        writer2.written ++
          kaa_written_t.extension_header env.KAA_BOOTSTRAP_EXTENSION_TYPE 0
              (kaa_calls_run env
                (kaa_channel_manager_bootstrap_request_serialize env self writer).self
                calls).sync_info.payload_size ::
            (wire_bootstrap_payload
              ((self.sync_info.request_id +
                kaa_calls_write_count env
                  (kaa_channel_manager_bootstrap_request_serialize env self writer).self
                  calls + 2) % 2 ^ 16)
              (kaa_calls_run env
                (kaa_channel_manager_bootstrap_request_serialize env self writer).self
                calls).sync_info.channel_count
              (wire_channel_blocks env
                (kaa_calls_run env
                  (kaa_channel_manager_bootstrap_request_serialize env self writer).self
                  calls).transport_channels)).map kaa_written_t.byte) ∧
    (∀ calls : List kaa_call_t,
      kaa_calls_write_count env
        (kaa_channel_manager_bootstrap_request_serialize env self writer).self calls = 0 →
      (self.sync_info.request_id +
        kaa_calls_write_count env
          (kaa_channel_manager_bootstrap_request_serialize env self writer).self
          calls + 2) % 2 ^ 16 = (self.sync_info.request_id + 2) % 2 ^ 16) ∧
    (self.sync_info.request_id + 2 < 65536 →
      (self.sync_info.request_id + 2) % 2 ^ 16 = self.sync_info.request_id + 2) ∧
    (∀ (self0 : kaa_channel_manager_t) (writer0 : kaa_platform_message_writer_t),
      self = (kaa_channel_manager_bootstrap_request_serialize env self0 writer0).self →
      (kaa_channel_manager_bootstrap_request_serialize env self0 writer0).error_code =
        KAA_ERR_NONE →
      (kaa_channel_manager_bootstrap_request_serialize env self0 writer0).writer.written ≠
        writer0.written →
      (kaa_channel_manager_bootstrap_request_serialize env self0 writer0).writer.written =
        writer0.written ++
          kaa_written_t.extension_header env.KAA_BOOTSTRAP_EXTENSION_TYPE 0
              self0.sync_info.payload_size ::
            (wire_bootstrap_payload self.sync_info.request_id
              self0.sync_info.channel_count
              (wire_channel_blocks env self0.transport_channels)).map
                kaa_written_t.byte) := by
  have hcond : 0 < self.sync_info.payload_size ∧ 0 < self.sync_info.channel_count ∧
      env.KAA_EXTENSION_HEADER_SIZE ≤ writer.room := by
    by_contra hno
    exact hheader ((serialize_silent_iff env self writer).mpr hno)
  have hrid := serialize_request_id env self writer
  rw [if_pos hcond] at hrid
  refine ⟨hrid, ?_, ?_, ?_, ?_⟩
  · intro calls writer2 hok hwrites
    have hlt : (kaa_channel_manager_bootstrap_request_serialize env self
        writer).self.sync_info.request_id < 2 ^ 16 := by
      rw [hrid]
      exact Nat.mod_lt _ (by norm_num)
    have hrun := run_request_id_count env calls
      (kaa_channel_manager_bootstrap_request_serialize env self writer).self hlt
    rw [hrid] at hrun
    have hcond2 : 0 < (kaa_calls_run env
          (kaa_channel_manager_bootstrap_request_serialize env self writer).self
          calls).sync_info.payload_size ∧
        0 < (kaa_calls_run env
          (kaa_channel_manager_bootstrap_request_serialize env self writer).self
          calls).sync_info.channel_count ∧
        env.KAA_EXTENSION_HEADER_SIZE ≤ writer2.room := by
      by_contra hno
      exact hwrites ((serialize_silent_iff env _ writer2).mpr hno)
    have hv := serialize_none_written env _ writer2 hcond2.1 hcond2.2.1 hok
    rw [hv, hrun]
    have e : (((self.sync_info.request_id + 1) % 2 ^ 16 +
        kaa_calls_write_count env
          (kaa_channel_manager_bootstrap_request_serialize env self writer).self calls) %
          2 ^ 16 + 1) % 2 ^ 16 =
        (self.sync_info.request_id +
          kaa_calls_write_count env
            (kaa_channel_manager_bootstrap_request_serialize env self writer).self
            calls + 2) % 2 ^ 16 := by
      omega
    rw [e]
  · intro calls h0
    rw [h0, Nat.add_zero]
  · intro hlt
    omega
  · intro self0 writer0 hself hok hwrites
    have hcond0 : 0 < self0.sync_info.payload_size ∧ 0 < self0.sync_info.channel_count ∧
        env.KAA_EXTENSION_HEADER_SIZE ≤ writer0.room := by
      by_contra hno
      exact hwrites ((serialize_silent_iff env self0 writer0).mpr hno)
    have hv := serialize_none_written env self0 writer0 hcond0.1 hcond0.2.1 hok
    have hr0 := serialize_request_id env self0 writer0
    rw [if_pos hcond0] at hr0
    rw [hv, hself, hr0]

/-- C19, amended, witness: after add A, a size query and a successful
serialize call that wrote request id 1, a serialize call into a writer with
room for the header only fails and leaves `request_id` 2; after one more such
failed call the next serialize call succeeds and writes request id 4. -/
theorem C19_failed_serialize_advances_request_id_witness :
    (kaa_channel_manager_bootstrap_request_serialize example_env
      (kaa_calls_run example_env example_new
        [kaa_call_t.add example_channel_a true true true, kaa_call_t.get_size,
          kaa_call_t.serialize example_writer])
      example_header_writer).self.sync_info.request_id = 2 ∧
    (kaa_channel_manager_bootstrap_request_serialize example_env
      (kaa_calls_run example_env
        (kaa_channel_manager_bootstrap_request_serialize example_env
          (kaa_calls_run example_env example_new
            [kaa_call_t.add example_channel_a true true true, kaa_call_t.get_size,
              kaa_call_t.serialize example_writer])
          example_header_writer).self
        [kaa_call_t.get_size, kaa_call_t.serialize example_header_writer])
      example_writer).writer.written =
      kaa_written_t.extension_header 5 0 12 ::
        (wire_bootstrap_payload 4 1 [0, 0, 0, 1, 0, 1, 0, 0]).map kaa_written_t.byte :=
  have h := C19_failed_serialize_advances_request_id example_env
    (kaa_calls_run example_env example_new
      [kaa_call_t.add example_channel_a true true true, kaa_call_t.get_size,
        kaa_call_t.serialize example_writer])
    example_header_writer (by decide)
  ⟨h.1.trans (by decide),
    (h.2.1 [kaa_call_t.get_size, kaa_call_t.serialize example_header_writer] example_writer
      (by decide) (by decide)).trans (by decide)⟩

end Kaa
